import Mathlib

/-!
Connectivity core of esp32-websocket

A shallow embedding of the control logic of

* `main/APIs/WIFI_API/wifi_app.c`  (Wi-Fi supervisor task `wifi_app_task`, its helpers and
  the event handler `wifi_app_event_handler`),
* `main/APIs/HTTP_SERVER/http_server.c`  (monitor task `http_server_monitor`, restart timer,
  server start and stop, WebSocket fan-out `http_ws_server_send_messages`, log queue).

The C globals of both files are the fields of one record `State`.  Every call that leaves the
two files (credential store, radio driver, timer service, HTTP daemon) and every message send is
appended to `State.calls`, so that "how many times was X called" is a statement about that
list.  The answers of the collaborators are inputs (`Env`, `Httpd`).

`ESP_ERROR_CHECK(e)` aborts the firmware when `e` is not `ESP_OK`; this is the flag
`State.aborted`: once it is set no task handles anything any more.

Both message queues have 3 slots and are written with `xQueueSend(..., portMAX_DELAY)`.  The
supervisor queue exists from `wifi_app_start` on.  The monitor queue exists only once
`http_server_configure` has run (`http_server_monitor_queue_handle`), and its only reader,
the monitor task, is deleted by `http_server_stop`.  A sender that finds its queue full
waits; for the supervisor task this is the flag `State.wifi_app_task_blocked`.
-/

namespace Esp32Websocket

/-! ## Constants of ESP-IDF and of the headers -/

/-- Value of `ESP_OK` (esp_err.h). -/
def ESP_OK : Int := 0

/-- Value of `ESP_ERR_WIFI_NOT_CONNECT` (esp_wifi.h): `ESP_ERR_WIFI_BASE + 15`. -/
def ESP_ERR_WIFI_NOT_CONNECT : Int := 0x3000 + 15

/-- Value of `HTTPD_WS_CLIENT_WEBSOCKET` (esp_http_server.h). -/
def HTTPD_WS_CLIENT_WEBSOCKET : Int := 2

def BIT0 : Nat := 0x00000001
def BIT1 : Nat := 0x00000002
def BIT2 : Nat := 0x00000004
def BIT3 : Nat := 0x00000008

-- wifi_app.c, lines 50-53
def WIFI_APP_CONNECTING_USING_SAVED_CREDS_BIT : Nat := BIT0
def WIFI_APP_CONNECTING_FROM_HTTP_SERVER_BIT : Nat := BIT1
def WIFI_APP_USER_REQUESTED_STA_DISCONNECT_BIT : Nat := BIT2
def WIFI_APP_STA_CONNECTED_GOT_IP_BIT : Nat := BIT3

-- http_server.h, lines 11-13
def OTA_UPDATE_PENDING : Int := 0
def OTA_UPDATE_SUCCESSFUL : Int := 1
def OTA_UPDATE_FAILED : Int := -1

-- http_server.h, enum http_server_wifi_connect_status
def NONE : Int := 0
def HTTP_WIFI_STATUS_CONNECTING : Int := 1
def HTTP_WIFI_STATUS_CONNECT_FAILED : Int := 2
def HTTP_WIFI_STATUS_CONNECT_SUCCESS : Int := 3
def HTTP_WIFI_STATUS_DISCONNECTED : Int := 4

-- http_server.h, enum http_server_message
def HTTP_MSG_WIFI_CONNECT_INIT : Int := 0
def HTTP_MSG_WIFI_CONNECT_SUCCESS : Int := 1
def HTTP_MSG_WIFI_CONNECT_FAIL : Int := 2
def HTTP_MSG_WIFI_USER_DISCONNECT : Int := 3
def HTTP_MSG_OTA_UPDATE_SUCCESSFUL : Int := 4
def HTTP_MSG_OTA_UPDATE_FAILED : Int := 5
def HTTP_MSG_TIME_SERVICE_INITIALIZED : Int := 6

/-- Length given to `xQueueCreate` for `wifi_app_queue_handle` (wifi_app.c, line 439). -/
def WIFI_APP_QUEUE_LENGTH : Nat := 3

/-- Length given to `xQueueCreate` for `http_server_monitor_queue_handle` (http_server.c,
line 276). -/
def HTTP_SERVER_MONITOR_QUEUE_LENGTH : Nat := 3

/-- Modelled from the spec: `wifi_app.h`, which declares `wifi_app_message_e`, is not among the
sources.  The constructors are the six identifiers the `switch` of `wifi_app_task` names
(the spec's `LoadSavedCredentials`, `AdminRequestedConnect`, `StationGotIP`,
`UserRequestedDisconnect`, `StationDisconnected` and the internal start-of-attempt message);
`OTHER n` stands for any further id, which reaches the `default:` label. -/
inductive wifi_app_message_e where
  | WIFI_APP_MSG_START_HTTP_SERVER
  | WIFI_APP_MSG_CONNECTING_FROM_HTTP_SERVER
  | WIFI_APP_MSG_STA_CONNECTED_GOT_IP
  | WIFI_APP_MSG_USER_REQUESTED_STA_DISCONNECT
  | WIFI_APP_MSG_LOAD_SAVED_CREDENTIALS
  | WIFI_APP_MSG_STA_DISCONNECTED
  | OTHER (id : Nat)
  deriving DecidableEq, Repr

open wifi_app_message_e

/-! ## Observable calls -/

/-- One entry of the call log: a call into a collaborator, or a message send. -/
inductive Call where
  | app_nvs_load_sta_creds
  | app_nvs_save_sta_creds
  | app_nvs_clear_sta_creds
  | wifi_app_connect_sta
  | wifi_app_disconnect_sta
  | esp_wifi_sta_get_ap_info
  | esp_wifi_set_config
  | esp_wifi_connect
  | esp_wifi_disconnect
  | wifi_app_send_message (msgID : wifi_app_message_e)
  | http_server_monitor_send_message (msgID : Int)
  | esp_timer_create
  | esp_timer_start_once (timeout_us : Nat)
  | httpd_get_client_list
  | httpd_ws_get_fd_info (sock : Int)
  | httpd_ws_send_frame_async (fd : Int) (data : String) (ret : Int)
  | esp_wifi_ap_get_sta_list
  | httpd_stop (handle : Nat)
  | vTaskDelete (task : Nat)
  | xTaskCreatePinnedToCore
  | xQueueCreate
  | httpd_start
  | httpd_register_uri_handler (handle : Nat)
  | printf_reason_code (reason : Nat)
  | printf (text : String)
  deriving DecidableEq, Repr

/-- Answers of the collaborators while one message is handled. -/
structure Env where
  /-- Return value of `app_nvs_load_sta_creds()`. -/
  app_nvs_load_sta_creds : Bool
  /-- Return value of `esp_wifi_sta_get_ap_info(&wifi_data)`. -/
  esp_wifi_sta_get_ap_info : Int
  /-- Return value of `esp_wifi_set_config(...)`. -/
  esp_wifi_set_config : Int
  /-- Return value of `esp_wifi_connect()`. -/
  esp_wifi_connect : Int
  /-- Return value of `esp_wifi_disconnect()`. -/
  esp_wifi_disconnect : Int
  /-- Return value of `esp_timer_create(...)`. -/
  esp_timer_create : Int
  /-- Return value of `esp_timer_start_once(...)`. -/
  esp_timer_start_once : Int
  deriving DecidableEq, Repr

/-! ## State: the globals of both files -/

structure State where
  /-- Bits of `wifi_app_event_group` (wifi_app.c, line 49). -/
  wifi_app_event_group : Nat
  /-- Static `g_retry_number` (wifi_app.c, line 44). -/
  g_retry_number : Int
  /-- Content of the queue behind `wifi_app_queue_handle`, oldest first. -/
  wifi_app_queue : List wifi_app_message_e
  /-- The supervisor task is waiting inside an `xQueueSend`: on its own full queue, which
  nobody else receives from, or on the full monitor queue.  The model does not follow the
  task beyond that point. -/
  wifi_app_task_blocked : Bool
  /-- Static `g_wifi_connect_status` (http_server.c, line 40). -/
  g_wifi_connect_status : Int
  /-- Static `g_fw_update_status` (http_server.c, line 43). -/
  g_fw_update_status : Int
  /-- Static `g_is_local_time_set` (http_server.c, line 46). -/
  g_is_local_time_set : Bool
  /-- Static `http_server_handle` (http_server.c, line 50); `none` is `NULL`. -/
  http_server_handle : Option Nat
  /-- Static `task_http_server_monitor` (http_server.c, line 53); `none` is `NULL`. -/
  task_http_server_monitor : Option Nat
  /-- Content of the queue behind `http_server_monitor_queue_handle`, oldest first. -/
  http_server_monitor_queue : List Int
  /-- Static `http_server_monitor_queue_handle` (http_server.c, line 56); `none` is `NULL`,
  its value until `http_server_configure` creates the queue (line 276). -/
  http_server_monitor_queue_handle : Option Nat
  /-- Static `ws_queue` (http_server.c, line 372); `none` is `NULL`. -/
  ws_queue : Option (List String)
  /-- Log of the calls issued so far, oldest first. -/
  calls : List Call
  /-- An `ESP_ERROR_CHECK` has failed, or the `configASSERT` of a queue call on a `NULL`
  handle: the firmware has stopped. -/
  aborted : Bool
  deriving DecidableEq, Repr

/-- State after static initialisation and `wifi_app_start`, at the first `xQueueReceive`. -/
def init_state : State where
  wifi_app_event_group := 0
  g_retry_number := 0
  wifi_app_queue := []
  wifi_app_task_blocked := false
  g_wifi_connect_status := NONE
  g_fw_update_status := OTA_UPDATE_PENDING
  g_is_local_time_set := false
  http_server_handle := none
  task_http_server_monitor := none
  http_server_monitor_queue := []
  http_server_monitor_queue_handle := none
  ws_queue := none
  calls := []
  aborted := false

/-- Append one entry to the call log. -/
def call (c : Call) (s : State) : State :=
  { s with calls := s.calls ++ [c] }

/-- Effect of `ESP_ERROR_CHECK(x)` with `x != ESP_OK`. -/
def abort (s : State) : State :=
  { s with aborted := true }

/-- Calls issued between state `s` and a later state `t`. -/
def issued (s t : State) : List Call :=
  t.calls.drop s.calls.length

/-! ## FreeRTOS event group -/

/-- The C expression `eventBits | mask`. -/
def setBits (eventBits mask : Nat) : Nat :=
  eventBits ||| mask

/-- The C expression `eventBits & ~mask`, the complement taken on the 32 bits of
`EventBits_t`. -/
def clearBits (eventBits mask : Nat) : Nat :=
  eventBits &&& (0xFFFFFFFF ^^^ mask)

/-- Function `xEventGroupSetBits`: `bits |= mask`. -/
def xEventGroupSetBits (mask : Nat) (s : State) : State :=
  { s with wifi_app_event_group := setBits s.wifi_app_event_group mask }

/-- Function `xEventGroupClearBits`: `bits &= ~mask`. -/
def xEventGroupClearBits (mask : Nat) (s : State) : State :=
  { s with wifi_app_event_group := clearBits s.wifi_app_event_group mask }

/-- Function `xEventGroupGetBits`. -/
def xEventGroupGetBits (s : State) : Nat :=
  s.wifi_app_event_group

/-- Truth value of the C condition `eventBits & mask`. -/
def isSet (eventBits mask : Nat) : Bool :=
  eventBits &&& mask != 0

/-! ## http_server.c: status and monitor queue -/

/-- Function `http_server_set_connect_status` (http_server.c, lines 148-151). -/
def http_server_set_connect_status (wifi_connect_status : Int) (s : State) : State :=
  { s with g_wifi_connect_status := wifi_connect_status }

/-- Function `http_server_monitor_send_message` (http_server.c, lines 354-361): `xQueueSend`
with `portMAX_DELAY` on the queue of 3 slots behind `http_server_monitor_queue_handle`.
While the handle is `NULL` the call does not get past the `configASSERT(pxQueue)` of
`xQueueSend`: the firmware aborts.  On a full queue the caller waits for a free slot; the
callers in the sources are the two sends of `wifi_app_task` (wifi_app.c, lines 290 and 368),
so the wait is recorded in `wifi_app_task_blocked`, and nothing is logged or queued. -/
def http_server_monitor_send_message (msgID : Int) (s : State) : State :=
  match s.http_server_monitor_queue_handle with
  | none => abort s
  | some _ =>
    if s.http_server_monitor_queue.length < HTTP_SERVER_MONITOR_QUEUE_LENGTH then
      call (.http_server_monitor_send_message msgID)
        { s with http_server_monitor_queue := s.http_server_monitor_queue ++ [msgID] }
    else { s with wifi_app_task_blocked := true }

/-! ## wifi_app.c -/

/-- Function `wifi_app_send_message` (wifi_app.c, lines 413-418): `xQueueSend` with
`portMAX_DELAY`.  The result is `none` when the queue is full: the caller has to wait. -/
def wifi_app_send_message (msgID : wifi_app_message_e) (s : State) : Option State :=
  if s.wifi_app_queue.length < WIFI_APP_QUEUE_LENGTH then
    some (call (.wifi_app_send_message msgID)
      { s with wifi_app_queue := s.wifi_app_queue ++ [msgID] })
  else none

/-- Function `wifi_app_connect_sta` (wifi_app.c, lines 203-216). -/
def wifi_app_connect_sta (env : Env) (s : State) : State :=
  let s := call .wifi_app_connect_sta s
  let s := call .esp_wifi_sta_get_ap_info s
  if env.esp_wifi_sta_get_ap_info = ESP_ERR_WIFI_NOT_CONNECT then
    let s := call .esp_wifi_set_config s
    if env.esp_wifi_set_config ≠ ESP_OK then abort s
    else
      let s := call .esp_wifi_connect s
      if env.esp_wifi_connect ≠ ESP_OK then abort s else s
  else s

/-- Function `wifi_app_disconnect_sta` (wifi_app.c, lines 218-231). -/
def wifi_app_disconnect_sta (env : Env) (s : State) : State :=
  let s := call .wifi_app_disconnect_sta s
  let s := call .esp_wifi_sta_get_ap_info s
  if env.esp_wifi_sta_get_ap_info = ESP_OK then
    let s := xEventGroupSetBits WIFI_APP_USER_REQUESTED_STA_DISCONNECT_BIT s
    let s := call .esp_wifi_disconnect s
    if env.esp_wifi_disconnect ≠ ESP_OK then abort s else s
  else s

/-- Body of `case WIFI_APP_MSG_LOAD_SAVED_CREDENTIALS` (wifi_app.c, lines 269-283). -/
def case_LOAD_SAVED_CREDENTIALS (env : Env) (s : State) : State :=
  let s := call .app_nvs_load_sta_creds s
  if env.app_nvs_load_sta_creds then
    let s := wifi_app_connect_sta env s
    if s.aborted then s
    else xEventGroupSetBits WIFI_APP_CONNECTING_USING_SAVED_CREDS_BIT s
  else s

/-- Body of `case WIFI_APP_MSG_START_HTTP_SERVER` (wifi_app.c, lines 285-293). -/
def case_START_HTTP_SERVER (s : State) : State :=
  http_server_monitor_send_message HTTP_MSG_WIFI_CONNECT_INIT s

/-- Body of `case WIFI_APP_MSG_CONNECTING_FROM_HTTP_SERVER` (wifi_app.c, lines 295-309).
The task sends to the queue it alone receives from: on a full queue it never returns. -/
def case_CONNECTING_FROM_HTTP_SERVER (env : Env) (s : State) : State :=
  let s := xEventGroupSetBits WIFI_APP_CONNECTING_FROM_HTTP_SERVER_BIT s
  let s := wifi_app_connect_sta env s
  if s.aborted then s
  else
    let s := { s with g_retry_number := 0 }
    match wifi_app_send_message WIFI_APP_MSG_START_HTTP_SERVER s with
    | some t => t
    | none => { s with wifi_app_task_blocked := true }

/-- Body of `case WIFI_APP_MSG_STA_CONNECTED_GOT_IP` (wifi_app.c, lines 311-337). -/
def case_STA_CONNECTED_GOT_IP (s : State) : State :=
  let s := xEventGroupSetBits WIFI_APP_STA_CONNECTED_GOT_IP_BIT s
  let eventBits := xEventGroupGetBits s
  let s :=
    if isSet eventBits WIFI_APP_CONNECTING_USING_SAVED_CREDS_BIT then s
    else call .app_nvs_save_sta_creds s
  let s :=
    if isSet eventBits WIFI_APP_CONNECTING_FROM_HTTP_SERVER_BIT then
      xEventGroupClearBits WIFI_APP_CONNECTING_FROM_HTTP_SERVER_BIT s
    else s
  http_server_set_connect_status HTTP_WIFI_STATUS_CONNECT_SUCCESS s

/-- Body of `case WIFI_APP_MSG_USER_REQUESTED_STA_DISCONNECT` (wifi_app.c, lines 339-356). -/
def case_USER_REQUESTED_STA_DISCONNECT (MAX_CONNECTION_RETRIES : Int) (env : Env)
    (s : State) : State :=
  let eventBits := xEventGroupGetBits s
  if isSet eventBits WIFI_APP_CONNECTING_USING_SAVED_CREDS_BIT then
    let s := xEventGroupClearBits WIFI_APP_CONNECTING_USING_SAVED_CREDS_BIT s
    let s := { s with g_retry_number := MAX_CONNECTION_RETRIES }
    let s := wifi_app_disconnect_sta env s
    if s.aborted then s
    else call .app_nvs_clear_sta_creds s
  else s

/-- Body of `case WIFI_APP_MSG_STA_DISCONNECTED` (wifi_app.c, lines 358-403).  The return value
of `esp_wifi_connect()` on line 386 is not looked at.  Lines 398-401 are reached only when
the send on line 368 has returned. -/
def case_STA_DISCONNECTED (MAX_CONNECTION_RETRIES : Int) (s : State) : State :=
  let eventBits := xEventGroupGetBits s
  let s :=
    if isSet eventBits WIFI_APP_CONNECTING_FROM_HTTP_SERVER_BIT then
      let s := xEventGroupClearBits WIFI_APP_CONNECTING_FROM_HTTP_SERVER_BIT s
      http_server_monitor_send_message HTTP_MSG_WIFI_CONNECT_FAIL s
    else if isSet eventBits WIFI_APP_USER_REQUESTED_STA_DISCONNECT_BIT then
      let s := xEventGroupClearBits WIFI_APP_USER_REQUESTED_STA_DISCONNECT_BIT s
      http_server_set_connect_status HTTP_WIFI_STATUS_DISCONNECTED s
    else if s.g_retry_number < MAX_CONNECTION_RETRIES then
      let s := call .esp_wifi_connect s
      { s with g_retry_number := s.g_retry_number + 1 }
    else
      xEventGroupClearBits WIFI_APP_CONNECTING_USING_SAVED_CREDS_BIT s
  if s.aborted || s.wifi_app_task_blocked then s
  else if isSet eventBits WIFI_APP_STA_CONNECTED_GOT_IP_BIT then
    xEventGroupClearBits WIFI_APP_STA_CONNECTED_GOT_IP_BIT s
  else s

/-- One turn of the loop of `wifi_app_task` after `xQueueReceive` has delivered `msg`
(wifi_app.c, lines 266-408).  `MAX_CONNECTION_RETRIES` is a macro of the absent `wifi_app.h`
and is a parameter here. -/
def wifi_app_task_handle (MAX_CONNECTION_RETRIES : Int) (env : Env)
    (msg : wifi_app_message_e) (s : State) : State :=
  if s.aborted || s.wifi_app_task_blocked then s
  else
    match msg with
    | WIFI_APP_MSG_LOAD_SAVED_CREDENTIALS => case_LOAD_SAVED_CREDENTIALS env s
    | WIFI_APP_MSG_START_HTTP_SERVER => case_START_HTTP_SERVER s
    | WIFI_APP_MSG_CONNECTING_FROM_HTTP_SERVER => case_CONNECTING_FROM_HTTP_SERVER env s
    | WIFI_APP_MSG_STA_CONNECTED_GOT_IP => case_STA_CONNECTED_GOT_IP s
    | WIFI_APP_MSG_USER_REQUESTED_STA_DISCONNECT =>
      case_USER_REQUESTED_STA_DISCONNECT MAX_CONNECTION_RETRIES env s
    | WIFI_APP_MSG_STA_DISCONNECTED => case_STA_DISCONNECTED MAX_CONNECTION_RETRIES s
    | OTHER _ => s

/-- The supervisor handles the given messages one after the other, each with its own
collaborator answers.  The messages are handed to the handler directly; `wifi_app_queue` is
what waits behind them and is not taken from here (`wifi_app_task_iter` does that). -/
def wifi_app_task_run (MAX_CONNECTION_RETRIES : Int) :
    List (Env × wifi_app_message_e) → State → State
  | [], s => s
  | (env, msg) :: rest, s =>
    wifi_app_task_run MAX_CONNECTION_RETRIES rest
      (wifi_app_task_handle MAX_CONNECTION_RETRIES env msg s)

/-- One iteration of the `for (;;)` of `wifi_app_task` (wifi_app.c, lines 262-410):
`xQueueReceive` takes the oldest message; on an empty queue the task keeps waiting. -/
def wifi_app_task_iter (MAX_CONNECTION_RETRIES : Int) (env : Env) (s : State) : State :=
  if s.aborted || s.wifi_app_task_blocked then s
  else
    match s.wifi_app_queue with
    | [] => s
    | msg :: rest =>
      wifi_app_task_handle MAX_CONNECTION_RETRIES env msg { s with wifi_app_queue := rest }

/-- Input of consecutive `WIFI_APP_MSG_STA_DISCONNECTED` messages, one per entry of `envs`. -/
def disconnects (envs : List Env) : List (Env × wifi_app_message_e) :=
  envs.map fun env => (env, WIFI_APP_MSG_STA_DISCONNECTED)

/-! ## http_server.c: monitor task -/

/-- Function `http_server_fw_update_reset_timer` (http_server.c, lines 131-145). -/
def http_server_fw_update_reset_timer (env : Env) (s : State) : State :=
  if s.g_fw_update_status = OTA_UPDATE_SUCCESSFUL then
    let s := call .esp_timer_create s
    if env.esp_timer_create ≠ ESP_OK then abort s
    else
      let s := call (.esp_timer_start_once 8000000) s
      if env.esp_timer_start_once ≠ ESP_OK then abort s else s
  else s

/-- One turn of the loop of `http_server_monitor` after `xQueueReceive` has delivered `msgID`
(http_server.c, lines 165-216). -/
def http_server_monitor_handle (env : Env) (msgID : Int) (s : State) : State :=
  if s.aborted then s
  else if msgID = HTTP_MSG_WIFI_CONNECT_INIT then
    http_server_set_connect_status HTTP_WIFI_STATUS_CONNECTING s
  else if msgID = HTTP_MSG_WIFI_CONNECT_SUCCESS then
    http_server_set_connect_status HTTP_WIFI_STATUS_CONNECT_SUCCESS s
  else if msgID = HTTP_MSG_WIFI_CONNECT_FAIL then
    http_server_set_connect_status HTTP_WIFI_STATUS_CONNECT_FAILED s
  else if msgID = HTTP_MSG_WIFI_USER_DISCONNECT then
    http_server_set_connect_status HTTP_WIFI_STATUS_DISCONNECTED s
  else if msgID = HTTP_MSG_OTA_UPDATE_SUCCESSFUL then
    let s := { s with g_fw_update_status := OTA_UPDATE_SUCCESSFUL }
    http_server_fw_update_reset_timer env s
  else if msgID = HTTP_MSG_OTA_UPDATE_FAILED then
    { s with g_fw_update_status := OTA_UPDATE_FAILED }
  else if msgID = HTTP_MSG_TIME_SERVICE_INITIALIZED then
    { s with g_is_local_time_set := true }
  else s

/-- The monitor handles the given messages one after the other. -/
def http_server_monitor_run : List (Env × Int) → State → State
  | [], s => s
  | (env, msgID) :: rest, s =>
    http_server_monitor_run rest (http_server_monitor_handle env msgID s)

/-- One iteration of the `for (;;)` of `http_server_monitor` (http_server.c, lines 161-218).
There is nothing to run when the task does not exist (not yet created, or deleted by
`http_server_stop`) or the queue has not been created. -/
def http_server_monitor_iter (env : Env) (s : State) : State :=
  if s.aborted || s.task_http_server_monitor.isNone ||
      s.http_server_monitor_queue_handle.isNone then s
  else
    match s.http_server_monitor_queue with
    | [] => s
    | msgID :: rest =>
      http_server_monitor_handle env msgID { s with http_server_monitor_queue := rest }

/-- The monitor empties its queue: one iteration per entry of `envs`. -/
def http_server_monitor_drain : List Env → State → State
  | [], s => s
  | env :: rest, s => http_server_monitor_drain rest (http_server_monitor_iter env s)

/-! ## http_server.c: WebSocket fan-out -/

/-- Answers of the HTTP daemon during one call of `http_ws_server_send_messages`. -/
structure Httpd where
  /-- Return value of `httpd_get_client_list`. -/
  httpd_get_client_list : Int
  /-- The entries `client_fds[0 .. clients-1]` written by `httpd_get_client_list`. -/
  client_fds : List Int
  /-- Return value of `httpd_ws_get_fd_info(http_server_handle, sock)`. -/
  httpd_ws_get_fd_info : Int → Int
  /-- Return value of `httpd_ws_send_frame_async` for the socket at index `i`. -/
  httpd_ws_send_frame_async : Nat → Int → Int

/-- The `for` loop of `http_ws_server_send_messages` (http_server.c, lines 93-117), from index
`i` on; `fds` are the entries `client_fds[i ..]`.  The return value of the push is recorded
in the log and is not looked at by the loop. -/
def send_loop (httpd : Httpd) (data : String) : Nat → List Int → State → State
  | _, [], s => s
  | i, sock :: rest, s =>
    let s := call (.httpd_ws_get_fd_info sock) s
    let s :=
      if httpd.httpd_ws_get_fd_info sock = HTTPD_WS_CLIENT_WEBSOCKET then
        call (.httpd_ws_send_frame_async sock data (httpd.httpd_ws_send_frame_async i sock)) s
      else s
    send_loop httpd data (i + 1) rest s

/-- Function `http_ws_server_send_messages` (http_server.c, lines 82-125). -/
def http_ws_server_send_messages (httpd : Httpd) (data : String) (s : State) : State :=
  match s.http_server_handle with
  | none => s
  | some _ =>
    let s := call .httpd_get_client_list s
    if httpd.httpd_get_client_list = ESP_OK then
      send_loop httpd data 0 httpd.client_fds s
    else s

/-- The pushes in a list of calls: socket and text of every `httpd_ws_send_frame_async`. -/
def pushes : List Call → List (Int × String)
  | [] => []
  | .httpd_ws_send_frame_async fd data _ :: rest => (fd, data) :: pushes rest
  | _ :: rest => pushes rest

/-! ## Concrete inputs used as examples -/

/-- Collaborator answers of a radio that is not associated and accepts every call, with a
stored profile in the credential store. -/
def env_ok : Env where
  app_nvs_load_sta_creds := true
  esp_wifi_sta_get_ap_info := ESP_ERR_WIFI_NOT_CONNECT
  esp_wifi_set_config := ESP_OK
  esp_wifi_connect := ESP_OK
  esp_wifi_disconnect := ESP_OK
  esp_timer_create := ESP_OK
  esp_timer_start_once := ESP_OK

/-- The initial state with `WIFI_APP_CONNECTING_FROM_HTTP_SERVER_BIT` set. -/
def admin_pending : State :=
  { init_state with wifi_app_event_group := WIFI_APP_CONNECTING_FROM_HTTP_SERVER_BIT }

/-- The initial state with the retry counter at a cap of 2. -/
def capped_at_two : State :=
  { init_state with g_retry_number := 2 }

/-- The initial state with `WIFI_APP_CONNECTING_USING_SAVED_CREDS_BIT` set. -/
def saved_pending : State :=
  { init_state with wifi_app_event_group := WIFI_APP_CONNECTING_USING_SAVED_CREDS_BIT }

/-- The initial state with a running HTTP server. -/
def server_up : State :=
  { init_state with http_server_handle := some 1 }

/-- An HTTP daemon with the sockets 54, 55, 56 open, 55 being a plain HTTP client, on which
every push fails (`ESP_FAIL`). -/
def httpd_all_pushes_fail : Httpd where
  httpd_get_client_list := ESP_OK
  client_fds := [54, 55, 56]
  httpd_ws_get_fd_info := fun sock => if sock = 55 then 1 else HTTPD_WS_CLIENT_WEBSOCKET
  httpd_ws_send_frame_async := fun _ _ => -1

/-! ## http_server.c: starting and stopping the server -/

/-- Answers of the collaborators during one call of `http_server_start` or
`http_server_stop`. -/
structure ServerEnv where
  /-- Field `wifi_sta_list.num` after `esp_wifi_ap_get_sta_list(&wifi_sta_list)`. -/
  wifi_sta_list_num : Int
  /-- Handle written by `xTaskCreatePinnedToCore`; `none` when the task is not created. -/
  xTaskCreatePinnedToCore : Option Nat
  /-- Return value of `xQueueCreate(3, ...)`; `none` is `NULL`. -/
  xQueueCreate : Option Nat
  /-- Return value of `httpd_start(&http_server_handle, &config)`. -/
  httpd_start : Int
  /-- Handle written by `httpd_start` when it returns `ESP_OK`. -/
  httpd_start_handle : Nat
  deriving DecidableEq, Repr

/-- Function `http_server_configure` (http_server.c, lines 267-319): the state after it and
the handle it returns.  The monitor queue is created anew, so it is empty. -/
def http_server_configure (srv : ServerEnv) (s : State) : State × Option Nat :=
  let s := call .xTaskCreatePinnedToCore s
  let s :=
    match srv.xTaskCreatePinnedToCore with
    | some task => { s with task_http_server_monitor := some task }
    | none => s
  let s := call .xQueueCreate s
  let s := { s with http_server_monitor_queue := []
                    http_server_monitor_queue_handle := srv.xQueueCreate }
  let s := call .httpd_start s
  if srv.httpd_start = ESP_OK then
    let s := { s with http_server_handle := some srv.httpd_start_handle }
    let s := call (.httpd_register_uri_handler srv.httpd_start_handle) s
    (s, s.http_server_handle)
  else (s, none)

/-- Function `http_server_start` (http_server.c, lines 321-327). -/
def http_server_start (srv : ServerEnv) (s : State) : State :=
  match s.http_server_handle with
  | none =>
    let r := http_server_configure srv s
    { r.1 with http_server_handle := r.2 }
  | some _ => s

/-- Function `http_server_stop` (http_server.c, lines 330-352).  The test
`wifi_sta_list.num == false` compares the count with 0. -/
def http_server_stop (srv : ServerEnv) (s : State) : State :=
  let s := call .esp_wifi_ap_get_sta_list s
  if srv.wifi_sta_list_num = 0 then
    let s :=
      match s.http_server_handle with
      | some handle => { call (.httpd_stop handle) s with http_server_handle := none }
      | none => s
    match s.task_http_server_monitor with
    | some task => { call (.vTaskDelete task) s with task_http_server_monitor := none }
    | none => s
  else s

/-! ## wifi_app.c: the event handler -/

/-- The events `wifi_app_event_handler` is registered for: `event_base` and `event_id` of
ESP-IDF, with the `reason` field of the event data of `WIFI_EVENT_STA_DISCONNECTED`.  The
constructors ending in `OTHER` stand for the ids the `switch` statements do not name. -/
inductive esp_event where
  | WIFI_EVENT_AP_START
  | WIFI_EVENT_AP_STOP
  | WIFI_EVENT_AP_STACONNECTED
  | WIFI_EVENT_AP_STADISCONNECTED
  | WIFI_EVENT_STA_START
  | WIFI_EVENT_STA_CONNECTED
  | WIFI_EVENT_STA_DISCONNECTED (reason : Nat)
  | WIFI_EVENT_OTHER (event_id : Int)
  | IP_EVENT_STA_GOT_IP
  | IP_EVENT_OTHER (event_id : Int)
  | BASE_OTHER (event_id : Int)
  deriving DecidableEq, Repr

/-- Function `wifi_app_event_handler` (wifi_app.c, lines 69-128).  The result is `none` when
the callback has to wait inside `xQueueSend` because the supervisor queue is full. -/
def wifi_app_event_handler (srv : ServerEnv) (event : esp_event) (s : State) : Option State :=
  match event with
  | .WIFI_EVENT_AP_START => some s
  | .WIFI_EVENT_AP_STOP => some s
  | .WIFI_EVENT_AP_STACONNECTED => some (http_server_start srv s)
  | .WIFI_EVENT_AP_STADISCONNECTED => some (http_server_stop srv s)
  | .WIFI_EVENT_STA_START => some s
  | .WIFI_EVENT_STA_CONNECTED => some s
  | .WIFI_EVENT_STA_DISCONNECTED reason =>
    let s := call (.printf_reason_code reason) s
    wifi_app_send_message WIFI_APP_MSG_STA_DISCONNECTED s
  | .WIFI_EVENT_OTHER _ => some s
  | .IP_EVENT_STA_GOT_IP => wifi_app_send_message WIFI_APP_MSG_STA_CONNECTED_GOT_IP s
  | .IP_EVENT_OTHER _ => some s
  | .BASE_OTHER _ => some s

/-! ## Scheduling the tasks -/

/-- One scheduling step of the system. -/
inductive Action where
  /-- Another task calls `wifi_app_send_message(msgID)`. -/
  | post (msgID : wifi_app_message_e)
  /-- One iteration of the loop of `wifi_app_task`. -/
  | wifi_app_task (env : Env)
  /-- One iteration of the loop of `http_server_monitor`. -/
  | http_server_monitor (env : Env)
  /-- The event loop calls `wifi_app_event_handler`. -/
  | event (srv : ServerEnv) (event : esp_event)

/-- Effect of one scheduling step.  A caller of `wifi_app_send_message` that finds the queue
full keeps waiting: the step changes nothing.  The same holds for the event handler. -/
def step (MAX_CONNECTION_RETRIES : Int) : Action → State → State
  | .post msgID, s =>
    if s.aborted then s
    else
      match wifi_app_send_message msgID s with
      | some t => t
      | none => s
  | .wifi_app_task env, s => wifi_app_task_iter MAX_CONNECTION_RETRIES env s
  | .http_server_monitor env, s => http_server_monitor_iter env s
  | .event srv event, s =>
    if s.aborted then s
    else
      match wifi_app_event_handler srv event s with
      | some t => t
      | none => s

/-- A schedule, executed from left to right. -/
def exec (MAX_CONNECTION_RETRIES : Int) : List Action → State → State
  | [], s => s
  | a :: rest, s => exec MAX_CONNECTION_RETRIES rest (step MAX_CONNECTION_RETRIES a s)

/-- Scenario 2 up to the admin request: `wifi_app_task` posts its first message
(wifi_app.c, line 260) and handles it; a station joins the access point, which starts the
HTTP server, its monitor task and the monitor queue; then the admin request arrives over that
server and is handled. -/
def scenario2_request (env0 : Env) (srv : ServerEnv) (env1 : Env) : List Action :=
  [.post WIFI_APP_MSG_LOAD_SAVED_CREDENTIALS, .wifi_app_task env0,
   .event srv .WIFI_EVENT_AP_STACONNECTED,
   .post WIFI_APP_MSG_CONNECTING_FROM_HTTP_SERVER, .wifi_app_task env1]

/-- Scenario 2 after the admin request: the supervisor handles the message it posted to
itself, then the disconnect event arrives and is handled. -/
def scenario2_failure (env2 env3 : Env) : List Action :=
  [.wifi_app_task env2, .post WIFI_APP_MSG_STA_DISCONNECTED, .wifi_app_task env3]

/-- Answers of a credential store without a stored profile. -/
def env_no_profile : Env :=
  { env_ok with app_nvs_load_sta_creds := false }


/-! ## http_server.c: the broadcast queue -/

/-- Length given to `xQueueCreate` for `ws_queue` (http_server.c, line 408). -/
def WS_QUEUE_LENGTH : Nat := 50

/-- Function `log_for_websocket_setup` (http_server.c, lines 406-413), as far as the queue
goes. -/
def log_for_websocket_setup (s : State) : State :=
  { call .xQueueCreate s with ws_queue := some [] }

/-- Function `http_websocket_vprintf` (http_server.c, lines 390-404).  `written` is the return
value of `vsnprintf` and `vprintf_buff` the text it left in the buffer.  `xQueueSend` is
called with a wait of 0 ticks: on a full queue it returns at once and its result is not
looked at. -/
def http_websocket_vprintf (written : Int) (vprintf_buff : String) (s : State) :
    State × Int :=
  if written > 0 then
    let s :=
      match s.ws_queue with
      | some queue =>
        if queue.length < WS_QUEUE_LENGTH then
          { s with ws_queue := some (queue ++ [vprintf_buff]) }
        else s
      | none => s
    (call (.printf vprintf_buff) s, written)
  else (s, written)

/-- One iteration of the `for (;;)` of `ws_print` (http_server.c, lines 375-387). -/
def ws_print_iter (httpd : Httpd) (s : State) : State :=
  match s.ws_queue with
  | some (buffer :: rest) =>
    http_ws_server_send_messages httpd buffer { s with ws_queue := some rest }
  | _ => s

/-! ## Further concrete inputs -/

/-- Collaborator answers of a radio that is associated. -/
def env_associated : Env :=
  { env_ok with esp_wifi_sta_get_ap_info := ESP_OK }

/-- The initial state with three messages waiting in the supervisor queue. -/
def queue_full : State :=
  { init_state with
    wifi_app_queue := [WIFI_APP_MSG_STA_DISCONNECTED, WIFI_APP_MSG_STA_DISCONNECTED,
      WIFI_APP_MSG_STA_CONNECTED_GOT_IP] }

/-- The initial state with the retry counter at a cap of 2 and the connect status
`HTTP_WIFI_STATUS_CONNECT_SUCCESS`. -/
def connected_capped : State :=
  { init_state with g_retry_number := 2
                    g_wifi_connect_status := HTTP_WIFI_STATUS_CONNECT_SUCCESS }

/-- The initial state with `WIFI_APP_USER_REQUESTED_STA_DISCONNECT_BIT` and
`WIFI_APP_STA_CONNECTED_GOT_IP_BIT` set. -/
def user_disconnect_pending : State :=
  { init_state with
    wifi_app_event_group :=
      WIFI_APP_USER_REQUESTED_STA_DISCONNECT_BIT ||| WIFI_APP_STA_CONNECTED_GOT_IP_BIT }

/-- A server with handle 7 and monitor task 9. -/
def server_running : State :=
  { init_state with http_server_handle := some 7, task_http_server_monitor := some 9 }

/-- Answers with no station attached to the access point. -/
def srv_no_client : ServerEnv where
  wifi_sta_list_num := 0
  xTaskCreatePinnedToCore := some 9
  xQueueCreate := some 5
  httpd_start := ESP_OK
  httpd_start_handle := 7

/-- Answers with one station attached to the access point. -/
def srv_one_client : ServerEnv :=
  { srv_no_client with wifi_sta_list_num := 1 }

/-- The initial state with a broadcast queue holding 50 messages. -/
def ws_queue_full : State :=
  { init_state with ws_queue := some (List.replicate 50 "status") }

/-- Two connection episodes: the saved profile connects, then an admin request (handled with
the answers `env_admin`) is followed by another got-IP event. -/
def two_episodes (env_admin : Env) : List (Env × wifi_app_message_e) :=
  [(env_ok, WIFI_APP_MSG_LOAD_SAVED_CREDENTIALS), (env_ok, WIFI_APP_MSG_STA_CONNECTED_GOT_IP),
   (env_admin, WIFI_APP_MSG_CONNECTING_FROM_HTTP_SERVER),
   (env_ok, WIFI_APP_MSG_STA_CONNECTED_GOT_IP)]

/-- The saved profile does not connect; during the retries an admin request arrives, the
radio connects and gets an address. -/
def admin_during_retries : List (Env × wifi_app_message_e) :=
  [(env_ok, WIFI_APP_MSG_LOAD_SAVED_CREDENTIALS), (env_ok, WIFI_APP_MSG_STA_DISCONNECTED),
   (env_ok, WIFI_APP_MSG_CONNECTING_FROM_HTTP_SERVER),
   (env_ok, WIFI_APP_MSG_STA_CONNECTED_GOT_IP)]

/-- The initial state, no server running, with two texts in the broadcast queue. -/
def ws_two_pending : State :=
  { init_state with ws_queue := some ["boot", "later"] }

/-- A started server (handle 7, monitor task 9, monitor queue 5, empty) with
`WIFI_APP_CONNECTING_FROM_HTTP_SERVER_BIT` set. -/
def admin_attempt_pending : State :=
  { init_state with
    wifi_app_event_group := WIFI_APP_CONNECTING_FROM_HTTP_SERVER_BIT
    http_server_handle := some 7
    task_http_server_monitor := some 9
    http_server_monitor_queue_handle := some 5 }

/-- A started server with `WIFI_APP_CONNECTING_FROM_HTTP_SERVER_BIT` and
`WIFI_APP_USER_REQUESTED_STA_DISCONNECT_BIT` set. -/
def admin_and_user_attempt_pending : State :=
  { admin_attempt_pending with
    wifi_app_event_group :=
      WIFI_APP_CONNECTING_FROM_HTTP_SERVER_BIT ||| WIFI_APP_USER_REQUESTED_STA_DISCONNECT_BIT }

/-- Three admin requests are waiting in the supervisor queue when the last station leaves the
access point: the server and its monitor task are stopped (http_server.c, lines 338-348) and
the monitor queue stays.  The supervisor then handles the three requests and the three
start messages it posted to itself, which fills the monitor queue. -/
def admin_requests_after_stop : List Action :=
  [.post WIFI_APP_MSG_LOAD_SAVED_CREDENTIALS, .wifi_app_task env_no_profile,
   .event srv_one_client .WIFI_EVENT_AP_STACONNECTED,
   .post WIFI_APP_MSG_CONNECTING_FROM_HTTP_SERVER,
   .post WIFI_APP_MSG_CONNECTING_FROM_HTTP_SERVER,
   .post WIFI_APP_MSG_CONNECTING_FROM_HTTP_SERVER,
   .event srv_no_client .WIFI_EVENT_AP_STADISCONNECTED,
   .wifi_app_task env_ok, .wifi_app_task env_ok, .wifi_app_task env_ok,
   .wifi_app_task env_ok, .wifi_app_task env_ok, .wifi_app_task env_ok]

/-- The schedule `admin_requests_after_stop` with a user request to disconnect handled
first, while the radio is associated through the stored profile. -/
def user_and_admin_requests_after_stop : List Action :=
  [.post WIFI_APP_MSG_LOAD_SAVED_CREDENTIALS, .wifi_app_task env_ok,
   .event srv_one_client .WIFI_EVENT_AP_STACONNECTED,
   .post WIFI_APP_MSG_USER_REQUESTED_STA_DISCONNECT, .wifi_app_task env_associated,
   .post WIFI_APP_MSG_CONNECTING_FROM_HTTP_SERVER,
   .post WIFI_APP_MSG_CONNECTING_FROM_HTTP_SERVER,
   .post WIFI_APP_MSG_CONNECTING_FROM_HTTP_SERVER,
   .event srv_no_client .WIFI_EVENT_AP_STADISCONNECTED,
   .wifi_app_task env_ok, .wifi_app_task env_ok, .wifi_app_task env_ok,
   .wifi_app_task env_ok, .wifi_app_task env_ok, .wifi_app_task env_ok]

/-- Scenario 2 with the disconnect event queued ahead of the follow-up message of the admin
request: the event handler posts `WIFI_APP_MSG_STA_DISCONNECTED` before `wifi_app_task` has
reached its own `wifi_app_send_message` (wifi_app.c, line 307), so the supervisor queue holds
the disconnect first and `WIFI_APP_MSG_START_HTTP_SERVER` second.  The supervisor handles the
request and both messages, then the monitor takes its two messages. -/
def scenario2_early_disconnect : List Action :=
  [.post WIFI_APP_MSG_LOAD_SAVED_CREDENTIALS, .wifi_app_task env_no_profile,
   .event srv_one_client .WIFI_EVENT_AP_STACONNECTED,
   .post WIFI_APP_MSG_CONNECTING_FROM_HTTP_SERVER,
   .post WIFI_APP_MSG_STA_DISCONNECTED,
   .wifi_app_task env_ok, .wifi_app_task env_ok, .wifi_app_task env_ok,
   .http_server_monitor env_ok, .http_server_monitor env_ok]
/-! ## Bit arithmetic of the event group -/

theorem and_two_pow_ne_zero (b k : Nat) : b &&& 2 ^ k ≠ 0 ↔ b.testBit k = true := by
  constructor
  · intro h
    by_contra hk
    apply h
    apply Nat.eq_of_testBit_eq
    intro i
    by_cases hi : k = i
    · subst hi; simp [Nat.testBit_two_pow, hk]
    · simp [Nat.testBit_two_pow, hi]
  · intro h h0
    have := congrArg (fun n => Nat.testBit n k) h0
    simp [Nat.testBit_two_pow, h] at this

theorem isSet_two_pow (b k : Nat) : isSet b (2 ^ k) = b.testBit k := by
  unfold isSet
  cases h : b.testBit k
  · have := (and_two_pow_ne_zero b k).not.mpr (by simp [h])
    simpa using this
  · have := (and_two_pow_ne_zero b k).mpr h
    simpa using this

theorem testBit_setBits_two_pow (b k j : Nat) :
    (setBits b (2 ^ k)).testBit j = (b.testBit j || decide (k = j)) := by
  rw [setBits, Nat.testBit_or, Nat.testBit_two_pow]

theorem testBit_clearBits_two_pow (b k j : Nat) (hk : k < 32) :
    (clearBits b (2 ^ k)).testBit j = (b.testBit j && (decide (j < 32) && !decide (k = j))) := by
  have h32 : (0xFFFFFFFF : Nat) = 2 ^ 32 - 1 := by norm_num
  rw [clearBits, Nat.testBit_and, Nat.testBit_xor, h32, Nat.testBit_two_pow_sub_one,
    Nat.testBit_two_pow]
  by_cases h1 : j < 32 <;> by_cases h2 : k = j <;> simp [h1, h2]
  omega

@[simp] theorem isSet_SAVED (b : Nat) :
    isSet b WIFI_APP_CONNECTING_USING_SAVED_CREDS_BIT = b.testBit 0 := isSet_two_pow b 0

@[simp] theorem isSet_ADMIN (b : Nat) :
    isSet b WIFI_APP_CONNECTING_FROM_HTTP_SERVER_BIT = b.testBit 1 := isSet_two_pow b 1

@[simp] theorem isSet_USER (b : Nat) :
    isSet b WIFI_APP_USER_REQUESTED_STA_DISCONNECT_BIT = b.testBit 2 := isSet_two_pow b 2

@[simp] theorem isSet_GOT_IP (b : Nat) :
    isSet b WIFI_APP_STA_CONNECTED_GOT_IP_BIT = b.testBit 3 := isSet_two_pow b 3

@[simp] theorem testBit_set_SAVED (b j : Nat) :
    (setBits b WIFI_APP_CONNECTING_USING_SAVED_CREDS_BIT).testBit j
      = (b.testBit j || decide (0 = j)) := testBit_setBits_two_pow b 0 j

@[simp] theorem testBit_set_ADMIN (b j : Nat) :
    (setBits b WIFI_APP_CONNECTING_FROM_HTTP_SERVER_BIT).testBit j
      = (b.testBit j || decide (1 = j)) := testBit_setBits_two_pow b 1 j

@[simp] theorem testBit_set_USER (b j : Nat) :
    (setBits b WIFI_APP_USER_REQUESTED_STA_DISCONNECT_BIT).testBit j
      = (b.testBit j || decide (2 = j)) := testBit_setBits_two_pow b 2 j

@[simp] theorem testBit_set_GOT_IP (b j : Nat) :
    (setBits b WIFI_APP_STA_CONNECTED_GOT_IP_BIT).testBit j
      = (b.testBit j || decide (3 = j)) := testBit_setBits_two_pow b 3 j

@[simp] theorem testBit_clear_SAVED (b j : Nat) :
    (clearBits b WIFI_APP_CONNECTING_USING_SAVED_CREDS_BIT).testBit j
      = (b.testBit j && (decide (j < 32) && !decide (0 = j))) :=
  testBit_clearBits_two_pow b 0 j (by decide)

@[simp] theorem testBit_clear_ADMIN (b j : Nat) :
    (clearBits b WIFI_APP_CONNECTING_FROM_HTTP_SERVER_BIT).testBit j
      = (b.testBit j && (decide (j < 32) && !decide (1 = j))) :=
  testBit_clearBits_two_pow b 1 j (by decide)

@[simp] theorem testBit_clear_USER (b j : Nat) :
    (clearBits b WIFI_APP_USER_REQUESTED_STA_DISCONNECT_BIT).testBit j
      = (b.testBit j && (decide (j < 32) && !decide (2 = j))) :=
  testBit_clearBits_two_pow b 2 j (by decide)

@[simp] theorem testBit_clear_GOT_IP (b j : Nat) :
    (clearBits b WIFI_APP_STA_CONNECTED_GOT_IP_BIT).testBit j
      = (b.testBit j && (decide (j < 32) && !decide (3 = j))) :=
  testBit_clearBits_two_pow b 3 j (by decide)

/-! ## The call log only grows -/

theorem issued_of_eq {s t : State} {l : List Call} (h : t.calls = s.calls ++ l) :
    issued s t = l := by
  simp [issued, h]

theorem calls_eq_append_issued {s t : State} (h : s.calls <+: t.calls) :
    t.calls = s.calls ++ issued s t := by
  obtain ⟨l, hl⟩ := h
  simp [issued, ← hl]

theorem wifi_app_connect_sta_calls_grow (env : Env) (s : State) :
    s.calls <+: (wifi_app_connect_sta env s).calls := by
  unfold wifi_app_connect_sta
  simp only [call, abort]
  split_ifs <;> simp [List.append_assoc]

theorem wifi_app_disconnect_sta_calls_grow (env : Env) (s : State) :
    s.calls <+: (wifi_app_disconnect_sta env s).calls := by
  unfold wifi_app_disconnect_sta
  simp only [call, abort, xEventGroupSetBits]
  split_ifs <;> simp [List.append_assoc]

/-- The three outcomes of `http_server_monitor_send_message`: no queue, full queue, sent. -/
theorem http_server_monitor_send_message_cases (msgID : Int) (s : State) :
    http_server_monitor_send_message msgID s = abort s ∨
    http_server_monitor_send_message msgID s = { s with wifi_app_task_blocked := true } ∨
    http_server_monitor_send_message msgID s
      = call (.http_server_monitor_send_message msgID)
          { s with http_server_monitor_queue := s.http_server_monitor_queue ++ [msgID] } := by
  unfold http_server_monitor_send_message
  cases s.http_server_monitor_queue_handle with
  | none => exact Or.inl rfl
  | some q =>
    by_cases h : s.http_server_monitor_queue.length < HTTP_SERVER_MONITOR_QUEUE_LENGTH
    · exact Or.inr (Or.inr (by simp only [h, if_true]))
    · exact Or.inr (Or.inl (by simp only [h, if_false]))

/-- State after `http_server_monitor_send_message` on an existing queue with a free slot. -/
theorem http_server_monitor_send_message_ok (msgID : Int) (s : State)
    (hq : s.http_server_monitor_queue_handle ≠ none)
    (hroom : s.http_server_monitor_queue.length < HTTP_SERVER_MONITOR_QUEUE_LENGTH) :
    http_server_monitor_send_message msgID s
      = { s with
          http_server_monitor_queue := s.http_server_monitor_queue ++ [msgID]
          calls := s.calls ++ [.http_server_monitor_send_message msgID] } := by
  unfold http_server_monitor_send_message
  cases hh : s.http_server_monitor_queue_handle with
  | none => exact absurd hh hq
  | some q => simp only [hroom, if_true, call]

theorem http_server_monitor_send_message_calls_grow (msgID : Int) (s : State) :
    s.calls <+: (http_server_monitor_send_message msgID s).calls := by
  rcases http_server_monitor_send_message_cases msgID s with h | h | h
  · rw [h]; exact List.prefix_rfl
  · rw [h]
  · rw [h]; exact List.prefix_append _ _

theorem http_server_monitor_send_message_retry (msgID : Int) (s : State) :
    (http_server_monitor_send_message msgID s).g_retry_number = s.g_retry_number := by
  rcases http_server_monitor_send_message_cases msgID s with h | h | h <;> rw [h] <;> rfl

theorem http_server_monitor_send_message_bits (msgID : Int) (s : State) :
    (http_server_monitor_send_message msgID s).wifi_app_event_group
      = s.wifi_app_event_group := by
  rcases http_server_monitor_send_message_cases msgID s with h | h | h <;> rw [h] <;> rfl

theorem http_server_monitor_send_message_count (msgID : Int) (s : State) (c : Call)
    (hc : c ≠ .http_server_monitor_send_message msgID) :
    (http_server_monitor_send_message msgID s).calls.count c = s.calls.count c := by
  rcases http_server_monitor_send_message_cases msgID s with h | h | h
  · rw [h]; rfl
  · rw [h]
  · rw [h]
    have hz : List.count c [Call.http_server_monitor_send_message msgID] = 0 :=
      List.count_eq_zero.mpr (by simp [hc])
    simp only [call, List.count_append, hz, Nat.add_zero]

/-- The disconnect case with the admin bit set, in terms of the send on line 368. -/
theorem disconnected_admin_unfold (M : Int) (env : Env) (s : State)
    (ha : s.aborted = false) (hb : s.wifi_app_task_blocked = false)
    (hadmin : s.wifi_app_event_group.testBit 1 = true) :
    wifi_app_task_handle M env WIFI_APP_MSG_STA_DISCONNECTED s
      = if (http_server_monitor_send_message HTTP_MSG_WIFI_CONNECT_FAIL
            (xEventGroupClearBits WIFI_APP_CONNECTING_FROM_HTTP_SERVER_BIT s)).aborted ||
          (http_server_monitor_send_message HTTP_MSG_WIFI_CONNECT_FAIL
            (xEventGroupClearBits WIFI_APP_CONNECTING_FROM_HTTP_SERVER_BIT
              s)).wifi_app_task_blocked
        then http_server_monitor_send_message HTTP_MSG_WIFI_CONNECT_FAIL
          (xEventGroupClearBits WIFI_APP_CONNECTING_FROM_HTTP_SERVER_BIT s)
        else if s.wifi_app_event_group.testBit 3 then
          xEventGroupClearBits WIFI_APP_STA_CONNECTED_GOT_IP_BIT
            (http_server_monitor_send_message HTTP_MSG_WIFI_CONNECT_FAIL
              (xEventGroupClearBits WIFI_APP_CONNECTING_FROM_HTTP_SERVER_BIT s))
        else http_server_monitor_send_message HTTP_MSG_WIFI_CONNECT_FAIL
          (xEventGroupClearBits WIFI_APP_CONNECTING_FROM_HTTP_SERVER_BIT s) := by
  simp only [wifi_app_task_handle, case_STA_DISCONNECTED, xEventGroupGetBits, ha, hb,
    isSet_ADMIN, isSet_GOT_IP, hadmin, Bool.or_self, Bool.false_eq_true, if_false, if_true]

/-- The disconnect case with the admin bit clear: no send is involved. -/
theorem disconnected_not_admin_unfold (M : Int) (env : Env) (s : State)
    (ha : s.aborted = false) (hb : s.wifi_app_task_blocked = false)
    (hadmin : s.wifi_app_event_group.testBit 1 = false) :
    wifi_app_task_handle M env WIFI_APP_MSG_STA_DISCONNECTED s
      = if s.wifi_app_event_group.testBit 3 then
          xEventGroupClearBits WIFI_APP_STA_CONNECTED_GOT_IP_BIT
            (if s.wifi_app_event_group.testBit 2 then
              http_server_set_connect_status HTTP_WIFI_STATUS_DISCONNECTED
                (xEventGroupClearBits WIFI_APP_USER_REQUESTED_STA_DISCONNECT_BIT s)
            else if s.g_retry_number < M then
              { call .esp_wifi_connect s with g_retry_number := s.g_retry_number + 1 }
            else xEventGroupClearBits WIFI_APP_CONNECTING_USING_SAVED_CREDS_BIT s)
        else
          (if s.wifi_app_event_group.testBit 2 then
              http_server_set_connect_status HTTP_WIFI_STATUS_DISCONNECTED
                (xEventGroupClearBits WIFI_APP_USER_REQUESTED_STA_DISCONNECT_BIT s)
            else if s.g_retry_number < M then
              { call .esp_wifi_connect s with g_retry_number := s.g_retry_number + 1 }
            else xEventGroupClearBits WIFI_APP_CONNECTING_USING_SAVED_CREDS_BIT s) := by
  simp only [wifi_app_task_handle, case_STA_DISCONNECTED, xEventGroupGetBits, ha, hb,
    isSet_ADMIN, isSet_USER, isSet_GOT_IP, hadmin, Bool.or_self, Bool.false_eq_true,
    if_false]
  by_cases h2 : s.wifi_app_event_group.testBit 2 = true <;>
    by_cases hlt : s.g_retry_number < M <;>
    simp [h2, hlt, xEventGroupClearBits, http_server_set_connect_status, call, ha, hb]

theorem case_STA_DISCONNECTED_calls_grow (M : Int) (s : State) :
    s.calls <+: (case_STA_DISCONNECTED M s).calls := by
  unfold case_STA_DISCONNECTED
  simp only [xEventGroupGetBits]
  by_cases hadmin : isSet s.wifi_app_event_group WIFI_APP_CONNECTING_FROM_HTTP_SERVER_BIT
      = true
  · have h := http_server_monitor_send_message_calls_grow HTTP_MSG_WIFI_CONNECT_FAIL
      (xEventGroupClearBits WIFI_APP_CONNECTING_FROM_HTTP_SERVER_BIT s)
    simp only [hadmin, if_true]
    split_ifs
    · exact h
    · exact h
    · exact h
  · simp only [hadmin, Bool.false_eq_true, if_false, xEventGroupClearBits,
      http_server_set_connect_status, call]
    split_ifs <;> simp

theorem wifi_app_task_handle_calls_grow (M : Int) (env : Env) (msg : wifi_app_message_e)
    (s : State) : s.calls <+: (wifi_app_task_handle M env msg s).calls := by
  unfold wifi_app_task_handle
  split_ifs
  · exact List.prefix_rfl
  · cases msg
    · exact http_server_monitor_send_message_calls_grow _ s
    · simp only [case_CONNECTING_FROM_HTTP_SERVER, wifi_app_send_message]
      have h := wifi_app_connect_sta_calls_grow env
        (xEventGroupSetBits WIFI_APP_CONNECTING_FROM_HTTP_SERVER_BIT s)
      split_ifs
      · exact h
      · simp only [call]
        exact h.trans (List.prefix_append _ _)
      · exact h
    · simp only [case_STA_CONNECTED_GOT_IP, xEventGroupGetBits, xEventGroupSetBits,
        xEventGroupClearBits, http_server_set_connect_status, call]
      split_ifs <;> simp
    · simp only [case_USER_REQUESTED_STA_DISCONNECT]
      have h := wifi_app_disconnect_sta_calls_grow env
        { xEventGroupClearBits WIFI_APP_CONNECTING_USING_SAVED_CREDS_BIT s with
          g_retry_number := M }
      split_ifs
      · exact h
      · exact List.IsPrefix.trans h (List.prefix_append _ _)
      · exact List.prefix_rfl
    · simp only [case_LOAD_SAVED_CREDENTIALS]
      have h := wifi_app_connect_sta_calls_grow env (call .app_nvs_load_sta_creds s)
      have h0 : s.calls <+: (call .app_nvs_load_sta_creds s).calls := by simp [call]
      split_ifs
      · exact h0.trans h
      · exact h0.trans h
      · exact h0
    · exact case_STA_DISCONNECTED_calls_grow M s
    · exact List.prefix_rfl

theorem wifi_app_task_run_calls_grow (M : Int) (inputs : List (Env × wifi_app_message_e))
    (s : State) : s.calls <+: (wifi_app_task_run M inputs s).calls := by
  induction inputs generalizing s with
  | nil => exact List.prefix_rfl
  | cons p rest ih =>
    obtain ⟨env, msg⟩ := p
    exact (wifi_app_task_handle_calls_grow M env msg s).trans (ih _)
/-! ## The disconnect handler, branch by branch -/

/-- The admin branch when the send on line 368 finds the queue and a free slot. -/
theorem disconnected_admin_state (M : Int) (env : Env) (s : State)
    (ha : s.aborted = false) (hb : s.wifi_app_task_blocked = false)
    (hadmin : s.wifi_app_event_group.testBit 1 = true)
    (hq : s.http_server_monitor_queue_handle ≠ none)
    (hroom : s.http_server_monitor_queue.length < HTTP_SERVER_MONITOR_QUEUE_LENGTH) :
    wifi_app_task_handle M env WIFI_APP_MSG_STA_DISCONNECTED s
      = { s with
          wifi_app_event_group :=
            if s.wifi_app_event_group.testBit 3 then
              clearBits (clearBits s.wifi_app_event_group
                WIFI_APP_CONNECTING_FROM_HTTP_SERVER_BIT) WIFI_APP_STA_CONNECTED_GOT_IP_BIT
            else clearBits s.wifi_app_event_group WIFI_APP_CONNECTING_FROM_HTTP_SERVER_BIT
          http_server_monitor_queue :=
            s.http_server_monitor_queue ++ [HTTP_MSG_WIFI_CONNECT_FAIL]
          calls := s.calls ++ [.http_server_monitor_send_message HTTP_MSG_WIFI_CONNECT_FAIL] } := by
  rw [disconnected_admin_unfold M env s ha hb hadmin,
    http_server_monitor_send_message_ok HTTP_MSG_WIFI_CONNECT_FAIL
      (xEventGroupClearBits WIFI_APP_CONNECTING_FROM_HTTP_SERVER_BIT s) hq hroom]
  simp only [xEventGroupClearBits, ha, hb, Bool.or_self, Bool.false_eq_true, if_false]
  split_ifs <;> rfl

theorem disconnected_admin (M : Int) (env : Env) (s : State)
    (ha : s.aborted = false) (hb : s.wifi_app_task_blocked = false)
    (hadmin : s.wifi_app_event_group.testBit 1 = true)
    (hq : s.http_server_monitor_queue_handle ≠ none)
    (hroom : s.http_server_monitor_queue.length < HTTP_SERVER_MONITOR_QUEUE_LENGTH) :
    (wifi_app_task_handle M env WIFI_APP_MSG_STA_DISCONNECTED s).calls
        = s.calls ++ [.http_server_monitor_send_message HTTP_MSG_WIFI_CONNECT_FAIL] ∧
    (wifi_app_task_handle M env WIFI_APP_MSG_STA_DISCONNECTED s).http_server_monitor_queue
        = s.http_server_monitor_queue ++ [HTTP_MSG_WIFI_CONNECT_FAIL] ∧
    (wifi_app_task_handle M env WIFI_APP_MSG_STA_DISCONNECTED s).wifi_app_event_group.testBit 1
        = false := by
  rw [disconnected_admin_state M env s ha hb hadmin hq hroom]
  refine ⟨rfl, rfl, ?_⟩
  show (if s.wifi_app_event_group.testBit 3 = true then _ else _ : Nat).testBit 1 = false
  split_ifs <;> simp

theorem disconnected_not_admin (M : Int) (env : Env) (s : State)
    (hadmin : s.wifi_app_event_group.testBit 1 = false) :
    (wifi_app_task_handle M env WIFI_APP_MSG_STA_DISCONNECTED s).calls.count
        (.http_server_monitor_send_message HTTP_MSG_WIFI_CONNECT_FAIL)
        = s.calls.count (.http_server_monitor_send_message HTTP_MSG_WIFI_CONNECT_FAIL) ∧
    (wifi_app_task_handle M env WIFI_APP_MSG_STA_DISCONNECTED s).http_server_monitor_queue
        = s.http_server_monitor_queue ∧
    (wifi_app_task_handle M env WIFI_APP_MSG_STA_DISCONNECTED s).wifi_app_event_group.testBit 1
        = false := by
  simp only [wifi_app_task_handle, case_STA_DISCONNECTED, xEventGroupGetBits,
    xEventGroupClearBits, http_server_set_connect_status, call, isSet_ADMIN, hadmin,
    Bool.false_eq_true, if_false]
  split_ifs <;> simp [hadmin]

theorem disconnects_not_admin (M : Int) (envs : List Env) (s : State)
    (hadmin : s.wifi_app_event_group.testBit 1 = false) :
    (wifi_app_task_run M (disconnects envs) s).calls.count
        (.http_server_monitor_send_message HTTP_MSG_WIFI_CONNECT_FAIL)
        = s.calls.count (.http_server_monitor_send_message HTTP_MSG_WIFI_CONNECT_FAIL) ∧
    (wifi_app_task_run M (disconnects envs) s).http_server_monitor_queue
        = s.http_server_monitor_queue ∧
    (wifi_app_task_run M (disconnects envs) s).wifi_app_event_group.testBit 1 = false := by
  induction envs generalizing s with
  | nil => simp [disconnects, wifi_app_task_run, hadmin]
  | cons env rest ih =>
    obtain ⟨h1, h2, h3⟩ := disconnected_not_admin M env s hadmin
    obtain ⟨k1, k2, k3⟩ := ih _ h3
    simp only [disconnects, List.map_cons, wifi_app_task_run] at k1 k2 k3 ⊢
    exact ⟨k1.trans h1, k2.trans h2, k3⟩

theorem count_issued {s t : State} (h : s.calls <+: t.calls) (c : Call) :
    (issued s t).count c = t.calls.count c - s.calls.count c := by
  have := calls_eq_append_issued h
  rw [this, List.count_append]
  omega

/-- C1: while `WIFI_APP_CONNECTING_FROM_HTTP_SERVER_BIT` is set and the monitor queue exists
and has a free slot, `1 + envs.length` consecutive `WIFI_APP_MSG_STA_DISCONNECTED` messages
send exactly one `HTTP_MSG_WIFI_CONNECT_FAIL` to the monitor, namely while the first one is
handled, and the bit is clear after the first message and after every later one. -/
theorem C1_disconnects_send_one_connect_fail (M : Int) (s : State) (env : Env)
    (envs : List Env) (ha : s.aborted = false) (hb : s.wifi_app_task_blocked = false)
    (hadmin : isSet s.wifi_app_event_group WIFI_APP_CONNECTING_FROM_HTTP_SERVER_BIT = true)
    (hq : s.http_server_monitor_queue_handle ≠ none)
    (hroom : s.http_server_monitor_queue.length < HTTP_SERVER_MONITOR_QUEUE_LENGTH) :
    issued s (wifi_app_task_handle M env WIFI_APP_MSG_STA_DISCONNECTED s)
        = [.http_server_monitor_send_message HTTP_MSG_WIFI_CONNECT_FAIL] ∧
    isSet (wifi_app_task_handle M env WIFI_APP_MSG_STA_DISCONNECTED s).wifi_app_event_group
        WIFI_APP_CONNECTING_FROM_HTTP_SERVER_BIT = false ∧
    (issued s (wifi_app_task_run M (disconnects (env :: envs)) s)).count
        (.http_server_monitor_send_message HTTP_MSG_WIFI_CONNECT_FAIL) = 1 ∧
    (wifi_app_task_run M (disconnects (env :: envs)) s).http_server_monitor_queue
        = s.http_server_monitor_queue ++ [HTTP_MSG_WIFI_CONNECT_FAIL] ∧
    isSet (wifi_app_task_run M (disconnects (env :: envs)) s).wifi_app_event_group
        WIFI_APP_CONNECTING_FROM_HTTP_SERVER_BIT = false := by
  rw [isSet_ADMIN] at hadmin
  obtain ⟨h1, h2, h3⟩ := disconnected_admin M env s ha hb hadmin hq hroom
  obtain ⟨k1, k2, k3⟩ := disconnects_not_admin M envs _ h3
  refine ⟨issued_of_eq h1, by rw [isSet_ADMIN]; exact h3, ?_, ?_, ?_⟩
  · rw [count_issued (wifi_app_task_run_calls_grow M _ s)]
    simp only [disconnects, List.map_cons, wifi_app_task_run] at k1 ⊢
    rw [k1, h1, List.count_append]
    simp
  · simp only [disconnects, List.map_cons, wifi_app_task_run] at k2 ⊢
    rw [k2, h2]
  · rw [isSet_ADMIN]
    simpa only [disconnects, List.map_cons, wifi_app_task_run] using k3

/-! ## The retry counter -/

theorem wifi_app_connect_sta_retry (env : Env) (s : State) :
    (wifi_app_connect_sta env s).g_retry_number = s.g_retry_number := by
  unfold wifi_app_connect_sta
  simp only [call, abort]
  split_ifs <;> rfl

theorem wifi_app_disconnect_sta_retry (env : Env) (s : State) :
    (wifi_app_disconnect_sta env s).g_retry_number = s.g_retry_number := by
  unfold wifi_app_disconnect_sta
  simp only [call, abort, xEventGroupSetBits]
  split_ifs <;> rfl

theorem wifi_app_disconnect_sta_count (env : Env) (s : State) (c : Call)
    (h1 : c ≠ .wifi_app_disconnect_sta) (h2 : c ≠ .esp_wifi_sta_get_ap_info)
    (h3 : c ≠ .esp_wifi_disconnect) :
    (wifi_app_disconnect_sta env s).calls.count c = s.calls.count c := by
  unfold wifi_app_disconnect_sta
  simp only [call, abort, xEventGroupSetBits]
  split_ifs <;> simp [List.count_append] <;> (rw [List.count_eq_zero]; simp [h1, h2, h3])

theorem case_STA_DISCONNECTED_retry (M : Int) (s : State) :
    (case_STA_DISCONNECTED M s).g_retry_number = s.g_retry_number ∨
    (s.g_retry_number < M ∧
      (case_STA_DISCONNECTED M s).g_retry_number = s.g_retry_number + 1) := by
  unfold case_STA_DISCONNECTED
  simp only [xEventGroupGetBits]
  by_cases hadmin : isSet s.wifi_app_event_group WIFI_APP_CONNECTING_FROM_HTTP_SERVER_BIT
      = true
  · have h := http_server_monitor_send_message_retry HTTP_MSG_WIFI_CONNECT_FAIL
      (xEventGroupClearBits WIFI_APP_CONNECTING_FROM_HTTP_SERVER_BIT s)
    simp only [hadmin, if_true]
    split_ifs
    · exact Or.inl h
    · exact Or.inl h
    · exact Or.inl h
  · simp only [hadmin, Bool.false_eq_true, if_false, xEventGroupClearBits,
      http_server_set_connect_status, call]
    split_ifs <;>
      first
        | exact Or.inl rfl
        | exact Or.inr ⟨by assumption, rfl⟩

theorem case_STA_DISCONNECTED_capped (M : Int) (s : State) (hcap : s.g_retry_number = M) :
    (case_STA_DISCONNECTED M s).g_retry_number = M ∧
    (case_STA_DISCONNECTED M s).calls.count .esp_wifi_connect
      = s.calls.count .esp_wifi_connect ∧
    (case_STA_DISCONNECTED M s).calls.count .wifi_app_connect_sta
      = s.calls.count .wifi_app_connect_sta := by
  unfold case_STA_DISCONNECTED
  simp only [xEventGroupGetBits]
  by_cases hadmin : isSet s.wifi_app_event_group WIFI_APP_CONNECTING_FROM_HTTP_SERVER_BIT
      = true
  · have hr := http_server_monitor_send_message_retry HTTP_MSG_WIFI_CONNECT_FAIL
      (xEventGroupClearBits WIFI_APP_CONNECTING_FROM_HTTP_SERVER_BIT s)
    have hc1 := http_server_monitor_send_message_count HTTP_MSG_WIFI_CONNECT_FAIL
      (xEventGroupClearBits WIFI_APP_CONNECTING_FROM_HTTP_SERVER_BIT s) .esp_wifi_connect
      (by decide)
    have hc2 := http_server_monitor_send_message_count HTTP_MSG_WIFI_CONNECT_FAIL
      (xEventGroupClearBits WIFI_APP_CONNECTING_FROM_HTTP_SERVER_BIT s) .wifi_app_connect_sta
      (by decide)
    simp only [hadmin, if_true]
    split_ifs
    · exact ⟨hr.trans hcap, hc1, hc2⟩
    · exact ⟨hr.trans hcap, hc1, hc2⟩
    · exact ⟨hr.trans hcap, hc1, hc2⟩
  · simp only [hadmin, Bool.false_eq_true, if_false, xEventGroupClearBits,
      http_server_set_connect_status, call]
    split_ifs <;> first
      | omega
      | simp [hcap, List.count_append]

/-- What one message can do to `g_retry_number`. -/
theorem retry_after_handle (M : Int) (env : Env) (msg : wifi_app_message_e) (s : State) :
    (wifi_app_task_handle M env msg s).g_retry_number = s.g_retry_number ∨
    (msg = WIFI_APP_MSG_CONNECTING_FROM_HTTP_SERVER ∧
      (wifi_app_task_handle M env msg s).g_retry_number = 0) ∨
    (msg = WIFI_APP_MSG_USER_REQUESTED_STA_DISCONNECT ∧
      (wifi_app_task_handle M env msg s).g_retry_number = M) ∨
    (msg = WIFI_APP_MSG_STA_DISCONNECTED ∧ s.g_retry_number < M ∧
      (wifi_app_task_handle M env msg s).g_retry_number = s.g_retry_number + 1) := by
  unfold wifi_app_task_handle
  split_ifs
  · exact Or.inl rfl
  · cases msg
    · exact Or.inl (http_server_monitor_send_message_retry _ s)
    · have h := wifi_app_connect_sta_retry env
        (xEventGroupSetBits WIFI_APP_CONNECTING_FROM_HTTP_SERVER_BIT s)
      simp only [case_CONNECTING_FROM_HTTP_SERVER, wifi_app_send_message, call]
      split_ifs
      · exact Or.inl h
      · exact Or.inr (Or.inl ⟨trivial, rfl⟩)
      · exact Or.inr (Or.inl ⟨trivial, rfl⟩)
    · simp only [case_STA_CONNECTED_GOT_IP, xEventGroupGetBits, xEventGroupSetBits,
        xEventGroupClearBits, http_server_set_connect_status, call]
      split_ifs <;> exact Or.inl rfl
    · have h := wifi_app_disconnect_sta_retry env
        { xEventGroupClearBits WIFI_APP_CONNECTING_USING_SAVED_CREDS_BIT s with
          g_retry_number := M }
      simp only [case_USER_REQUESTED_STA_DISCONNECT, call]
      split_ifs
      · exact Or.inr (Or.inr (Or.inl ⟨trivial, h⟩))
      · exact Or.inr (Or.inr (Or.inl ⟨trivial, h⟩))
      · exact Or.inl rfl
    · have h := wifi_app_connect_sta_retry env (call .app_nvs_load_sta_creds s)
      simp only [case_LOAD_SAVED_CREDENTIALS, xEventGroupSetBits]
      split_ifs
      · exact Or.inl h
      · exact Or.inl h
      · exact Or.inl rfl
    · rcases case_STA_DISCONNECTED_retry M s with h | ⟨hlt, h⟩
      · exact Or.inl h
      · exact Or.inr (Or.inr (Or.inr ⟨rfl, hlt, h⟩))
    · exact Or.inl rfl

/-- At the cap, a message that is no explicit connect request issues no connect. -/
theorem capped_handle (M : Int) (env : Env) (msg : wifi_app_message_e) (s : State)
    (hcap : s.g_retry_number = M)
    (h1 : msg ≠ WIFI_APP_MSG_CONNECTING_FROM_HTTP_SERVER)
    (h2 : msg ≠ WIFI_APP_MSG_LOAD_SAVED_CREDENTIALS) :
    (wifi_app_task_handle M env msg s).g_retry_number = M ∧
    (wifi_app_task_handle M env msg s).calls.count .esp_wifi_connect
      = s.calls.count .esp_wifi_connect ∧
    (wifi_app_task_handle M env msg s).calls.count .wifi_app_connect_sta
      = s.calls.count .wifi_app_connect_sta := by
  unfold wifi_app_task_handle
  split_ifs
  · exact ⟨hcap, rfl, rfl⟩
  · cases msg
    · exact ⟨(http_server_monitor_send_message_retry _ s).trans hcap,
        http_server_monitor_send_message_count _ s _ (by decide),
        http_server_monitor_send_message_count _ s _ (by decide)⟩
    · exact absurd rfl h1
    · simp only [case_STA_CONNECTED_GOT_IP, xEventGroupGetBits, xEventGroupSetBits,
        xEventGroupClearBits, http_server_set_connect_status, call]
      split_ifs <;> simp [hcap, List.count_append]
    · have hr := wifi_app_disconnect_sta_retry env
        { xEventGroupClearBits WIFI_APP_CONNECTING_USING_SAVED_CREDS_BIT s with
          g_retry_number := M }
      have hc1 := wifi_app_disconnect_sta_count env
        { xEventGroupClearBits WIFI_APP_CONNECTING_USING_SAVED_CREDS_BIT s with
          g_retry_number := M } .esp_wifi_connect (by decide) (by decide) (by decide)
      have hc2 := wifi_app_disconnect_sta_count env
        { xEventGroupClearBits WIFI_APP_CONNECTING_USING_SAVED_CREDS_BIT s with
          g_retry_number := M } .wifi_app_connect_sta (by decide) (by decide) (by decide)
      simp only [case_USER_REQUESTED_STA_DISCONNECT, call]
      split_ifs
      · exact ⟨hr, hc1, hc2⟩
      · refine ⟨hr, ?_, ?_⟩
        · rw [List.count_append, hc1]; simp [xEventGroupClearBits]
        · rw [List.count_append, hc2]; simp [xEventGroupClearBits]
      · exact ⟨hcap, rfl, rfl⟩
    · exact absurd rfl h2
    · exact case_STA_DISCONNECTED_capped M s hcap
    · exact ⟨hcap, rfl, rfl⟩

/-- C3: with the retry counter at the cap, a sequence of messages that holds neither
`WIFI_APP_MSG_CONNECTING_FROM_HTTP_SERVER` nor `WIFI_APP_MSG_LOAD_SAVED_CREDENTIALS` issues no
`wifi_app_connect_sta` and no `esp_wifi_connect`, and leaves the counter at the cap. -/
theorem C3_no_connect_once_capped (M : Int) (s : State)
    (inputs : List (Env × wifi_app_message_e))
    (hcap : s.g_retry_number = M)
    (hmsgs : ∀ p ∈ inputs, p.2 ≠ WIFI_APP_MSG_CONNECTING_FROM_HTTP_SERVER ∧
      p.2 ≠ WIFI_APP_MSG_LOAD_SAVED_CREDENTIALS) :
    Call.esp_wifi_connect ∉ issued s (wifi_app_task_run M inputs s) ∧
    Call.wifi_app_connect_sta ∉ issued s (wifi_app_task_run M inputs s) ∧
    (wifi_app_task_run M inputs s).g_retry_number = M := by
  have key : ∀ (t : State), t.g_retry_number = M →
      (wifi_app_task_run M inputs t).g_retry_number = M ∧
      (wifi_app_task_run M inputs t).calls.count .esp_wifi_connect
        = t.calls.count .esp_wifi_connect ∧
      (wifi_app_task_run M inputs t).calls.count .wifi_app_connect_sta
        = t.calls.count .wifi_app_connect_sta := by
    induction inputs with
    | nil => intro t ht; exact ⟨ht, rfl, rfl⟩
    | cons p rest ih =>
      intro t ht
      obtain ⟨hp1, hp2⟩ := hmsgs p (List.mem_cons_self _ _)
      obtain ⟨a1, a2, a3⟩ := capped_handle M p.1 p.2 t ht hp1 hp2
      obtain ⟨b1, b2, b3⟩ :=
        ih (fun q hq => hmsgs q (List.mem_cons_of_mem _ hq)) _ a1
      exact ⟨b1, b2.trans a2, b3.trans a3⟩
  obtain ⟨k1, k2, k3⟩ := key s hcap
  have hp := wifi_app_task_run_calls_grow M inputs s
  refine ⟨?_, ?_, k1⟩
  · rw [← List.count_eq_zero, count_issued hp, k2]; omega
  · rw [← List.count_eq_zero, count_issued hp, k3]; omega
theorem C1_disconnects_send_one_connect_fail_witness :
    admin_attempt_pending.aborted = false ∧
    admin_attempt_pending.wifi_app_task_blocked = false ∧
    isSet admin_attempt_pending.wifi_app_event_group
      WIFI_APP_CONNECTING_FROM_HTTP_SERVER_BIT = true ∧
    admin_attempt_pending.http_server_monitor_queue_handle ≠ none ∧
    admin_attempt_pending.http_server_monitor_queue.length
      < HTTP_SERVER_MONITOR_QUEUE_LENGTH ∧
    (issued admin_attempt_pending (wifi_app_task_handle 2 env_ok
        WIFI_APP_MSG_STA_DISCONNECTED admin_attempt_pending)
        = [.http_server_monitor_send_message HTTP_MSG_WIFI_CONNECT_FAIL] ∧
    isSet (wifi_app_task_handle 2 env_ok WIFI_APP_MSG_STA_DISCONNECTED
        admin_attempt_pending).wifi_app_event_group
        WIFI_APP_CONNECTING_FROM_HTTP_SERVER_BIT = false ∧
    (issued admin_attempt_pending (wifi_app_task_run 2
        (disconnects (env_ok :: [env_ok, env_ok])) admin_attempt_pending)).count
        (.http_server_monitor_send_message HTTP_MSG_WIFI_CONNECT_FAIL) = 1 ∧
    (wifi_app_task_run 2 (disconnects (env_ok :: [env_ok, env_ok]))
        admin_attempt_pending).http_server_monitor_queue
        = admin_attempt_pending.http_server_monitor_queue ++ [HTTP_MSG_WIFI_CONNECT_FAIL] ∧
    isSet (wifi_app_task_run 2 (disconnects (env_ok :: [env_ok, env_ok]))
        admin_attempt_pending).wifi_app_event_group
        WIFI_APP_CONNECTING_FROM_HTTP_SERVER_BIT = false) :=
  ⟨by decide, by decide, by decide, by decide, by decide,
    C1_disconnects_send_one_connect_fail 2 admin_attempt_pending env_ok [env_ok, env_ok]
      (by decide) (by decide) (by decide) (by decide) (by decide)⟩

/-- C1 as written fails: in the state reached by the schedule `admin_requests_after_stop`
the supervisor is live with `WIFI_APP_CONNECTING_FROM_HTTP_SERVER_BIT` set, the monitor queue
holds three messages and the monitor task is deleted.  The disconnect event is then handled:
the send on line 368 does not return, no `HTTP_MSG_WIFI_CONNECT_FAIL` is sent or queued, and
neither the monitor nor a later disconnect changes that. -/
theorem C1_counterexample :
    (exec 2 admin_requests_after_stop init_state).aborted = false ∧
    (exec 2 admin_requests_after_stop init_state).wifi_app_task_blocked = false ∧
    isSet (exec 2 admin_requests_after_stop init_state).wifi_app_event_group
      WIFI_APP_CONNECTING_FROM_HTTP_SERVER_BIT = true ∧
    (exec 2 admin_requests_after_stop init_state).http_server_monitor_queue_handle = some 5 ∧
    (exec 2 admin_requests_after_stop init_state).http_server_monitor_queue
      = [HTTP_MSG_WIFI_CONNECT_INIT, HTTP_MSG_WIFI_CONNECT_INIT, HTTP_MSG_WIFI_CONNECT_INIT] ∧
    (exec 2 admin_requests_after_stop init_state).task_http_server_monitor = none ∧
    issued (exec 2 admin_requests_after_stop init_state)
      (wifi_app_task_handle 2 env_ok WIFI_APP_MSG_STA_DISCONNECTED
        (exec 2 admin_requests_after_stop init_state)) = [] ∧
    (wifi_app_task_handle 2 env_ok WIFI_APP_MSG_STA_DISCONNECTED
      (exec 2 admin_requests_after_stop init_state)).wifi_app_task_blocked = true ∧
    (issued (exec 2 admin_requests_after_stop init_state)
      (exec 2 [.post WIFI_APP_MSG_STA_DISCONNECTED, .wifi_app_task env_ok,
          .http_server_monitor env_ok, .post WIFI_APP_MSG_STA_DISCONNECTED,
          .wifi_app_task env_ok, .http_server_monitor env_ok]
        (exec 2 admin_requests_after_stop init_state))).count
      (.http_server_monitor_send_message HTTP_MSG_WIFI_CONNECT_FAIL) = 0 ∧
    (exec 2 [.post WIFI_APP_MSG_STA_DISCONNECTED, .wifi_app_task env_ok,
        .http_server_monitor env_ok, .post WIFI_APP_MSG_STA_DISCONNECTED,
        .wifi_app_task env_ok, .http_server_monitor env_ok]
      (exec 2 admin_requests_after_stop init_state)).http_server_monitor_queue
      = [HTTP_MSG_WIFI_CONNECT_INIT, HTTP_MSG_WIFI_CONNECT_INIT, HTTP_MSG_WIFI_CONNECT_INIT] := by
  decide

theorem C3_no_connect_once_capped_witness :
    capped_at_two.g_retry_number = 2 ∧
    (∀ p ∈ [(env_ok, WIFI_APP_MSG_STA_DISCONNECTED),
        (env_ok, WIFI_APP_MSG_USER_REQUESTED_STA_DISCONNECT),
        (env_ok, WIFI_APP_MSG_STA_CONNECTED_GOT_IP), (env_ok, WIFI_APP_MSG_STA_DISCONNECTED)],
      p.2 ≠ WIFI_APP_MSG_CONNECTING_FROM_HTTP_SERVER ∧
      p.2 ≠ WIFI_APP_MSG_LOAD_SAVED_CREDENTIALS) ∧
    (Call.esp_wifi_connect ∉ issued capped_at_two (wifi_app_task_run 2
      [(env_ok, WIFI_APP_MSG_STA_DISCONNECTED),
        (env_ok, WIFI_APP_MSG_USER_REQUESTED_STA_DISCONNECT),
        (env_ok, WIFI_APP_MSG_STA_CONNECTED_GOT_IP), (env_ok, WIFI_APP_MSG_STA_DISCONNECTED)]
      capped_at_two) ∧
    Call.wifi_app_connect_sta ∉ issued capped_at_two (wifi_app_task_run 2
      [(env_ok, WIFI_APP_MSG_STA_DISCONNECTED),
        (env_ok, WIFI_APP_MSG_USER_REQUESTED_STA_DISCONNECT),
        (env_ok, WIFI_APP_MSG_STA_CONNECTED_GOT_IP), (env_ok, WIFI_APP_MSG_STA_DISCONNECTED)]
      capped_at_two) ∧
    (wifi_app_task_run 2
      [(env_ok, WIFI_APP_MSG_STA_DISCONNECTED),
        (env_ok, WIFI_APP_MSG_USER_REQUESTED_STA_DISCONNECT),
        (env_ok, WIFI_APP_MSG_STA_CONNECTED_GOT_IP), (env_ok, WIFI_APP_MSG_STA_DISCONNECTED)]
      capped_at_two).g_retry_number = 2) :=
  ⟨by decide, by decide, C3_no_connect_once_capped 2 capped_at_two _ (by decide) (by decide)⟩

/-! ## User-requested disconnect -/

theorem wifi_app_disconnect_sta_aborted (env : Env) (s : State)
    (hok : env.esp_wifi_sta_get_ap_info = ESP_OK → env.esp_wifi_disconnect = ESP_OK) :
    (wifi_app_disconnect_sta env s).aborted = s.aborted := by
  unfold wifi_app_disconnect_sta
  simp only [call, abort, xEventGroupSetBits]
  split_ifs with h1 h2
  · exact absurd (hok h1) h2
  · rfl
  · rfl

/-- C4, as the code has it: the credential-clear call and the suppression of auto-retry are
tied to `WIFI_APP_CONNECTING_USING_SAVED_CREDS_BIT`.  With the bit set (and
`esp_wifi_disconnect`, when it is called, returning `ESP_OK`) one
`WIFI_APP_MSG_USER_REQUESTED_STA_DISCONNECT` issues exactly one `app_nvs_clear_sta_creds` and a
following `WIFI_APP_MSG_STA_DISCONNECTED` issues no `esp_wifi_connect`; with the bit clear the
handler does nothing at all. -/
theorem C4_user_disconnect_clears_saved_profile (M : Int) (s : State) (env env2 : Env)
    (ha : s.aborted = false) (hb : s.wifi_app_task_blocked = false)
    (hok : env.esp_wifi_sta_get_ap_info = ESP_OK → env.esp_wifi_disconnect = ESP_OK) :
    (isSet s.wifi_app_event_group WIFI_APP_CONNECTING_USING_SAVED_CREDS_BIT = true →
      (issued s (wifi_app_task_handle M env WIFI_APP_MSG_USER_REQUESTED_STA_DISCONNECT
        s)).count .app_nvs_clear_sta_creds = 1 ∧
      Call.esp_wifi_connect ∉
        issued (wifi_app_task_handle M env WIFI_APP_MSG_USER_REQUESTED_STA_DISCONNECT s)
          (wifi_app_task_handle M env2 WIFI_APP_MSG_STA_DISCONNECTED
            (wifi_app_task_handle M env WIFI_APP_MSG_USER_REQUESTED_STA_DISCONNECT s))) ∧
    (isSet s.wifi_app_event_group WIFI_APP_CONNECTING_USING_SAVED_CREDS_BIT = false →
      wifi_app_task_handle M env WIFI_APP_MSG_USER_REQUESTED_STA_DISCONNECT s = s) := by
  constructor
  · intro hsaved
    have hcount := wifi_app_disconnect_sta_count env
      { xEventGroupClearBits WIFI_APP_CONNECTING_USING_SAVED_CREDS_BIT s with
        g_retry_number := M } .app_nvs_clear_sta_creds (by decide) (by decide) (by decide)
    have hab := wifi_app_disconnect_sta_aborted env
      { xEventGroupClearBits WIFI_APP_CONNECTING_USING_SAVED_CREDS_BIT s with
        g_retry_number := M } hok
    have hr := wifi_app_disconnect_sta_retry env
      { xEventGroupClearBits WIFI_APP_CONNECTING_USING_SAVED_CREDS_BIT s with
        g_retry_number := M }
    have hab2 : (wifi_app_disconnect_sta env
      { xEventGroupClearBits WIFI_APP_CONNECTING_USING_SAVED_CREDS_BIT s with
        g_retry_number := M }).aborted = false := by rw [hab]; exact ha
    have hstep : wifi_app_task_handle M env WIFI_APP_MSG_USER_REQUESTED_STA_DISCONNECT s
        = call .app_nvs_clear_sta_creds (wifi_app_disconnect_sta env
            { xEventGroupClearBits WIFI_APP_CONNECTING_USING_SAVED_CREDS_BIT s with
              g_retry_number := M }) := by
      simp only [wifi_app_task_handle, case_USER_REQUESTED_STA_DISCONNECT, xEventGroupGetBits,
        ha, hb, hsaved, hab2, Bool.or_self, Bool.false_eq_true, if_false, if_true]
    constructor
    · rw [count_issued (wifi_app_task_handle_calls_grow M env _ s), hstep]
      simp only [call, List.count_append, hcount]
      simp [xEventGroupClearBits]
    · have hcap : (wifi_app_task_handle M env WIFI_APP_MSG_USER_REQUESTED_STA_DISCONNECT
          s).g_retry_number = M := by
        rw [hstep]; exact hr
      obtain ⟨_, k2, _⟩ := capped_handle M env2 WIFI_APP_MSG_STA_DISCONNECTED _ hcap
        (by decide) (by decide)
      rw [← List.count_eq_zero, count_issued (wifi_app_task_handle_calls_grow M env2 _ _), k2]
      omega
  · intro hsaved
    simp only [wifi_app_task_handle, case_USER_REQUESTED_STA_DISCONNECT, xEventGroupGetBits,
      ha, hb, hsaved, Bool.or_self, Bool.false_eq_true, if_false]

theorem C4_user_disconnect_clears_saved_profile_witness :
    saved_pending.aborted = false ∧ saved_pending.wifi_app_task_blocked = false ∧
    (env_ok.esp_wifi_sta_get_ap_info = ESP_OK → env_ok.esp_wifi_disconnect = ESP_OK) ∧
    (issued saved_pending (wifi_app_task_handle 2 env_ok
      WIFI_APP_MSG_USER_REQUESTED_STA_DISCONNECT saved_pending)).count
        .app_nvs_clear_sta_creds = 1 :=
  ⟨by decide, by decide, by decide,
    ((C4_user_disconnect_clears_saved_profile 2 saved_pending env_ok env_ok
      (by decide) (by decide) (by decide)).1 (by decide)).1⟩

/-- C4 as stated fails: in the initial state (no bit set, counter 0, cap 2) the handler of
`WIFI_APP_MSG_USER_REQUESTED_STA_DISCONNECT` issues no `app_nvs_clear_sta_creds`, and the
`WIFI_APP_MSG_STA_DISCONNECTED` that follows issues an `esp_wifi_connect`. -/
theorem C4_counterexample :
    (issued init_state (wifi_app_task_handle 2 env_ok
      WIFI_APP_MSG_USER_REQUESTED_STA_DISCONNECT init_state)).count
        .app_nvs_clear_sta_creds = 0 ∧
    issued (wifi_app_task_handle 2 env_ok WIFI_APP_MSG_USER_REQUESTED_STA_DISCONNECT init_state)
      (wifi_app_task_handle 2 env_ok WIFI_APP_MSG_STA_DISCONNECTED
        (wifi_app_task_handle 2 env_ok WIFI_APP_MSG_USER_REQUESTED_STA_DISCONNECT init_state))
      = [.esp_wifi_connect] := by
  decide
/-! ## The monitor and the restart timer -/

theorem http_server_monitor_handle_calls_grow (env : Env) (msgID : Int) (s : State) :
    s.calls <+: (http_server_monitor_handle env msgID s).calls := by
  unfold http_server_monitor_handle
  simp only [http_server_set_connect_status, http_server_fw_update_reset_timer, call, abort]
  split_ifs <;> simp [List.append_assoc]

theorem http_server_monitor_run_calls_grow (inputs : List (Env × Int)) (s : State) :
    s.calls <+: (http_server_monitor_run inputs s).calls := by
  induction inputs generalizing s with
  | nil => exact List.prefix_rfl
  | cons p rest ih =>
    obtain ⟨env, msgID⟩ := p
    exact (http_server_monitor_handle_calls_grow env msgID s).trans (ih _)

/-- With the timer service answering `ESP_OK`, one monitor message arms the timer exactly
when it is `HTTP_MSG_OTA_UPDATE_SUCCESSFUL`. -/
theorem http_server_monitor_handle_arms (env : Env) (msgID : Int) (s : State)
    (ha : s.aborted = false)
    (h1 : env.esp_timer_create = ESP_OK) (h2 : env.esp_timer_start_once = ESP_OK) :
    (http_server_monitor_handle env msgID s).aborted = false ∧
    (http_server_monitor_handle env msgID s).calls = s.calls ++
      (if msgID = HTTP_MSG_OTA_UPDATE_SUCCESSFUL
        then [.esp_timer_create, .esp_timer_start_once 8000000] else []) := by
  unfold http_server_monitor_handle
  simp only [http_server_set_connect_status, http_server_fw_update_reset_timer, call, abort,
    ha, h1, h2, Bool.false_eq_true, if_false, ne_eq, not_true_eq_false, if_true]
  split_ifs <;> simp_all [HTTP_MSG_WIFI_CONNECT_INIT, HTTP_MSG_WIFI_CONNECT_SUCCESS,
    HTTP_MSG_WIFI_CONNECT_FAIL, HTTP_MSG_WIFI_USER_DISCONNECT, HTTP_MSG_OTA_UPDATE_SUCCESSFUL,
    HTTP_MSG_OTA_UPDATE_FAILED, HTTP_MSG_TIME_SERVICE_INITIALIZED]

theorem http_server_monitor_run_arms (inputs : List (Env × Int)) (s : State)
    (ha : s.aborted = false)
    (hok : ∀ p ∈ inputs, p.1.esp_timer_create = ESP_OK ∧ p.1.esp_timer_start_once = ESP_OK) :
    (http_server_monitor_run inputs s).calls.count (.esp_timer_start_once 8000000)
      = s.calls.count (.esp_timer_start_once 8000000)
        + (inputs.map Prod.snd).count HTTP_MSG_OTA_UPDATE_SUCCESSFUL ∧
    (http_server_monitor_run inputs s).calls.count .esp_timer_create
      = s.calls.count .esp_timer_create
        + (inputs.map Prod.snd).count HTTP_MSG_OTA_UPDATE_SUCCESSFUL := by
  induction inputs generalizing s with
  | nil => simp [http_server_monitor_run]
  | cons p rest ih =>
    obtain ⟨env, msgID⟩ := p
    obtain ⟨e1, e2⟩ := hok (env, msgID) (List.mem_cons_self _ _)
    obtain ⟨a1, a2⟩ := http_server_monitor_handle_arms env msgID s ha e1 e2
    obtain ⟨b1, b2⟩ := ih _ a1 (fun q hq => hok q (List.mem_cons_of_mem _ hq))
    simp only [http_server_monitor_run, List.map_cons, List.count_cons]
    rw [b1, b2, a2]
    by_cases hm : msgID = HTTP_MSG_OTA_UPDATE_SUCCESSFUL
    · simp [hm, List.count_append, List.count_cons]
      omega
    · simp [hm, List.count_append]

/-- C5, as the code has it: the timer is created and started once for every
`HTTP_MSG_OTA_UPDATE_SUCCESSFUL` the monitor handles.  From the initial state, with the timer
service answering `ESP_OK`, the number of `esp_timer_start_once` calls (and of
`esp_timer_create` calls) equals the number of such messages in the sequence. -/
theorem C5_timer_armed_once_per_success_message (inputs : List (Env × Int))
    (hok : ∀ p ∈ inputs, p.1.esp_timer_create = ESP_OK ∧ p.1.esp_timer_start_once = ESP_OK) :
    (issued init_state (http_server_monitor_run inputs init_state)).count
        (.esp_timer_start_once 8000000)
      = (inputs.map Prod.snd).count HTTP_MSG_OTA_UPDATE_SUCCESSFUL ∧
    (issued init_state (http_server_monitor_run inputs init_state)).count .esp_timer_create
      = (inputs.map Prod.snd).count HTTP_MSG_OTA_UPDATE_SUCCESSFUL := by
  obtain ⟨h1, h2⟩ := http_server_monitor_run_arms inputs init_state rfl hok
  rw [count_issued (http_server_monitor_run_calls_grow inputs init_state),
    count_issued (http_server_monitor_run_calls_grow inputs init_state), h1, h2]
  simp [init_state]

theorem C5_timer_armed_once_per_success_message_witness :
    (∀ p ∈ [(env_ok, HTTP_MSG_OTA_UPDATE_SUCCESSFUL), (env_ok, HTTP_MSG_WIFI_CONNECT_INIT)],
      p.1.esp_timer_create = ESP_OK ∧ p.1.esp_timer_start_once = ESP_OK) ∧
    (issued init_state (http_server_monitor_run
      [(env_ok, HTTP_MSG_OTA_UPDATE_SUCCESSFUL), (env_ok, HTTP_MSG_WIFI_CONNECT_INIT)]
      init_state)).count (.esp_timer_start_once 8000000) = 1 :=
  ⟨by decide, (C5_timer_armed_once_per_success_message
    [(env_ok, HTTP_MSG_OTA_UPDATE_SUCCESSFUL), (env_ok, HTTP_MSG_WIFI_CONNECT_INIT)]
    (by decide)).1⟩

/-- C5 as stated fails: two `HTTP_MSG_OTA_UPDATE_SUCCESSFUL` messages from the initial state
create and start the timer twice, while `g_fw_update_status` is `OTA_UPDATE_SUCCESSFUL` after
the first and after the second. -/
theorem C5_counterexample :
    (issued init_state (http_server_monitor_run
      [(env_ok, HTTP_MSG_OTA_UPDATE_SUCCESSFUL), (env_ok, HTTP_MSG_OTA_UPDATE_SUCCESSFUL)]
      init_state)).count (.esp_timer_start_once 8000000) = 2 ∧
    (issued init_state (http_server_monitor_run
      [(env_ok, HTTP_MSG_OTA_UPDATE_SUCCESSFUL), (env_ok, HTTP_MSG_OTA_UPDATE_SUCCESSFUL)]
      init_state)).count .esp_timer_create = 2 ∧
    (http_server_monitor_run [(env_ok, HTTP_MSG_OTA_UPDATE_SUCCESSFUL)]
      init_state).g_fw_update_status = OTA_UPDATE_SUCCESSFUL ∧
    issued (http_server_monitor_run [(env_ok, HTTP_MSG_OTA_UPDATE_SUCCESSFUL)] init_state)
      (http_server_monitor_handle env_ok HTTP_MSG_OTA_UPDATE_SUCCESSFUL
        (http_server_monitor_run [(env_ok, HTTP_MSG_OTA_UPDATE_SUCCESSFUL)] init_state))
      = [.esp_timer_create, .esp_timer_start_once 8000000] := by
  decide
/-! ## WebSocket fan-out -/

theorem pushes_append (l₁ l₂ : List Call) :
    pushes (l₁ ++ l₂) = pushes l₁ ++ pushes l₂ := by
  induction l₁ with
  | nil => rfl
  | cons c rest ih => cases c <;> simp [pushes, ih]

/-- The loop appends to the log, and the pushes it appends are one per WebSocket client among
the enumerated sockets, in enumeration order. -/
theorem send_loop_pushes (httpd : Httpd) (data : String) (i : Nat) (fds : List Int)
    (s : State) :
    ∃ l, (send_loop httpd data i fds s).calls = s.calls ++ l ∧
      pushes l = (fds.filter fun sock =>
        httpd.httpd_ws_get_fd_info sock = HTTPD_WS_CLIENT_WEBSOCKET).map fun sock =>
          (sock, data) := by
  induction fds generalizing i s with
  | nil => exact ⟨[], by simp [send_loop], by simp [pushes]⟩
  | cons sock rest ih =>
    by_cases hws : httpd.httpd_ws_get_fd_info sock = HTTPD_WS_CLIENT_WEBSOCKET
    · obtain ⟨l, h1, h2⟩ := ih (i + 1)
        (call (.httpd_ws_send_frame_async sock data (httpd.httpd_ws_send_frame_async i sock))
          (call (.httpd_ws_get_fd_info sock) s))
      refine ⟨[.httpd_ws_get_fd_info sock, .httpd_ws_send_frame_async sock data
        (httpd.httpd_ws_send_frame_async i sock)] ++ l, ?_, ?_⟩
      · have hstep : send_loop httpd data i (sock :: rest) s = send_loop httpd data (i + 1) rest
            (call (.httpd_ws_send_frame_async sock data
              (httpd.httpd_ws_send_frame_async i sock)) (call (.httpd_ws_get_fd_info sock) s)) := by
          simp only [send_loop, hws, if_true]
        rw [hstep, h1]
        simp [call, List.append_assoc]
      · simp [pushes_append, pushes, h2, hws]
    · obtain ⟨l, h1, h2⟩ := ih (i + 1) (call (.httpd_ws_get_fd_info sock) s)
      refine ⟨[.httpd_ws_get_fd_info sock] ++ l, ?_, ?_⟩
      · have hstep : send_loop httpd data i (sock :: rest) s
            = send_loop httpd data (i + 1) rest (call (.httpd_ws_get_fd_info sock) s) := by
          simp only [send_loop, hws, if_false]
        rw [hstep, h1]
        simp [call, List.append_assoc]
      · simp [pushes_append, pushes, h2, hws]

/-- C6: with a server instance and a successful client enumeration,
`http_ws_server_send_messages` pushes the text once to every enumerated socket that is a
WebSocket client, in enumeration order, whatever the individual pushes return: replacing the
push results by any others leaves the list of attempts the same. -/
theorem C6_fan_out_ignores_push_failures (httpd : Httpd) (data : String) (s : State)
    (ret : Nat → Int → Int)
    (hserver : s.http_server_handle ≠ none)
    (hlist : httpd.httpd_get_client_list = ESP_OK) :
    pushes (issued s (http_ws_server_send_messages httpd data s))
      = (httpd.client_fds.filter fun sock =>
          httpd.httpd_ws_get_fd_info sock = HTTPD_WS_CLIENT_WEBSOCKET).map
            (fun sock => (sock, data)) ∧
    pushes (issued s (http_ws_server_send_messages
        { httpd with httpd_ws_send_frame_async := ret } data s))
      = pushes (issued s (http_ws_server_send_messages httpd data s)) := by
  have key : ∀ h : Httpd, h.httpd_get_client_list = ESP_OK →
      pushes (issued s (http_ws_server_send_messages h data s))
        = (h.client_fds.filter fun sock =>
            h.httpd_ws_get_fd_info sock = HTTPD_WS_CLIENT_WEBSOCKET).map
              (fun sock => (sock, data)) := by
    intro h hl
    cases hs : s.http_server_handle with
    | none => exact absurd hs hserver
    | some hd =>
      obtain ⟨l, h1, h2⟩ := send_loop_pushes h data 0 h.client_fds
        (call .httpd_get_client_list s)
      have hcalls : (http_ws_server_send_messages h data s).calls
          = s.calls ++ ([.httpd_get_client_list] ++ l) := by
        have hstep : http_ws_server_send_messages h data s
            = send_loop h data 0 h.client_fds (call .httpd_get_client_list s) := by
          simp only [http_ws_server_send_messages, hs, hl, if_true]
        rw [hstep, h1]
        simp [call, List.append_assoc]
      rw [issued_of_eq hcalls, pushes_append, h2]
      simp [pushes]
  constructor
  · exact key httpd hlist
  · rw [key httpd hlist, key { httpd with httpd_ws_send_frame_async := ret } hlist]

theorem C6_fan_out_ignores_push_failures_witness :
    server_up.http_server_handle ≠ none ∧
    httpd_all_pushes_fail.httpd_get_client_list = ESP_OK ∧
    pushes (issued server_up (http_ws_server_send_messages httpd_all_pushes_fail "up"
      server_up)) = [(54, "up"), (56, "up")] :=
  ⟨by decide, by decide,
    (C6_fan_out_ignores_push_failures httpd_all_pushes_fail "up" server_up (fun _ _ => 0)
      (by decide) (by decide)).1.trans (by decide)⟩
/-! ## Unsolicited drops -/

theorem disconnected_unsolicited (M : Int) (env : Env) (s : State)
    (ha : s.aborted = false) (hb : s.wifi_app_task_blocked = false)
    (hadmin : s.wifi_app_event_group.testBit 1 = false)
    (huser : s.wifi_app_event_group.testBit 2 = false) :
    (wifi_app_task_handle M env WIFI_APP_MSG_STA_DISCONNECTED s).aborted = false ∧
    (wifi_app_task_handle M env WIFI_APP_MSG_STA_DISCONNECTED s).wifi_app_task_blocked
      = false ∧
    (wifi_app_task_handle M env WIFI_APP_MSG_STA_DISCONNECTED s).wifi_app_event_group.testBit 1
      = false ∧
    (wifi_app_task_handle M env WIFI_APP_MSG_STA_DISCONNECTED s).wifi_app_event_group.testBit 2
      = false ∧
    (s.g_retry_number < M →
      (wifi_app_task_handle M env WIFI_APP_MSG_STA_DISCONNECTED s).calls
        = s.calls ++ [.esp_wifi_connect] ∧
      (wifi_app_task_handle M env WIFI_APP_MSG_STA_DISCONNECTED s).g_retry_number
        = s.g_retry_number + 1) ∧
    (¬ s.g_retry_number < M →
      (wifi_app_task_handle M env WIFI_APP_MSG_STA_DISCONNECTED s).calls = s.calls ∧
      (wifi_app_task_handle M env WIFI_APP_MSG_STA_DISCONNECTED s).g_retry_number
        = s.g_retry_number) := by
  simp only [wifi_app_task_handle, case_STA_DISCONNECTED, xEventGroupGetBits,
    xEventGroupClearBits, call, ha, hb, isSet_ADMIN, isSet_USER, hadmin, huser,
    Bool.or_self, Bool.false_eq_true, if_false]
  split_ifs <;> simp_all

theorem disconnects_unsolicited (M r : Nat) (envs : List Env) (s : State)
    (ha : s.aborted = false) (hb : s.wifi_app_task_blocked = false)
    (hadmin : s.wifi_app_event_group.testBit 1 = false)
    (huser : s.wifi_app_event_group.testBit 2 = false)
    (hr : s.g_retry_number = (r : Int)) (hrM : r ≤ M) :
    (wifi_app_task_run (M : Int) (disconnects envs) s).g_retry_number
      = ((min (r + envs.length) M : Nat) : Int) ∧
    (wifi_app_task_run (M : Int) (disconnects envs) s).calls
      = s.calls ++ List.replicate (min (r + envs.length) M - r) .esp_wifi_connect := by
  induction envs generalizing s r with
  | nil =>
    simp only [disconnects, List.map_nil, wifi_app_task_run, List.length_nil, Nat.add_zero]
    rw [Nat.min_eq_left hrM]
    simp [hr]
  | cons env rest ih =>
    obtain ⟨a1, a2, a3, a4, a5, a6⟩ :=
      disconnected_unsolicited (M : Int) env s ha hb hadmin huser
    simp only [disconnects, List.map_cons, wifi_app_task_run, List.length_cons]
    by_cases hlt : r < M
    · obtain ⟨c1, c2⟩ := a5 (by rw [hr]; exact_mod_cast hlt)
      obtain ⟨i1, i2⟩ := ih (r + 1) _ a1 a2 a3 a4 (by rw [c2, hr]; push_cast; ring) hlt
      simp only [disconnects] at i1 i2
      rw [i1, i2, c1]
      have e1 : min (r + 1 + rest.length) M = min (r + (rest.length + 1)) M := by
        congr 1; omega
      have e2 : min (r + (rest.length + 1)) M - r
          = (min (r + 1 + rest.length) M - (r + 1)) + 1 := by
        rw [e1]
        have : r + 1 ≤ min (r + (rest.length + 1)) M := le_min (by omega) hlt
        omega
      rw [e1] at *
      refine ⟨rfl, ?_⟩
      rw [e2, List.append_assoc, List.replicate_succ, List.singleton_append]
    · have hrM2 : r = M := le_antisymm hrM (not_lt.mp hlt)
      obtain ⟨c1, c2⟩ := a6 (by rw [hr]; exact_mod_cast hlt)
      obtain ⟨i1, i2⟩ := ih r _ a1 a2 a3 a4 (by rw [c2, hr]) hrM
      simp only [disconnects] at i1 i2
      rw [i1, i2, c1]
      subst hrM2
      simp

/-- C7: from retry counter 0 with `WIFI_APP_CONNECTING_FROM_HTTP_SERVER_BIT` and
`WIFI_APP_USER_REQUESTED_STA_DISCONNECT_BIT` clear, after `n` consecutive
`WIFI_APP_MSG_STA_DISCONNECTED` messages and a cap `M` the counter is `min n M` and exactly
`min n M` calls were issued, all of them `esp_wifi_connect`: one per message with the counter
going 1, 2, ..., M for the first `M` messages, nothing for the messages after them. -/
theorem C7_unsolicited_drop_retries_up_to_cap (M : Nat) (s : State) (envs : List Env)
    (ha : s.aborted = false) (hb : s.wifi_app_task_blocked = false)
    (hr : s.g_retry_number = 0)
    (hadmin : isSet s.wifi_app_event_group WIFI_APP_CONNECTING_FROM_HTTP_SERVER_BIT = false)
    (huser : isSet s.wifi_app_event_group WIFI_APP_USER_REQUESTED_STA_DISCONNECT_BIT = false) :
    (wifi_app_task_run (M : Int) (disconnects envs) s).g_retry_number
      = ((min envs.length M : Nat) : Int) ∧
    issued s (wifi_app_task_run (M : Int) (disconnects envs) s)
      = List.replicate (min envs.length M) .esp_wifi_connect := by
  rw [isSet_ADMIN] at hadmin
  rw [isSet_USER] at huser
  obtain ⟨h1, h2⟩ := disconnects_unsolicited M 0 envs s ha hb hadmin huser
    (by rw [hr]; rfl) (Nat.zero_le _)
  simp only [Nat.zero_add, Nat.sub_zero] at h1 h2
  exact ⟨h1, issued_of_eq h2⟩

theorem C7_unsolicited_drop_retries_up_to_cap_witness :
    init_state.aborted = false ∧ init_state.wifi_app_task_blocked = false ∧
    init_state.g_retry_number = 0 ∧
    isSet init_state.wifi_app_event_group WIFI_APP_CONNECTING_FROM_HTTP_SERVER_BIT = false ∧
    isSet init_state.wifi_app_event_group WIFI_APP_USER_REQUESTED_STA_DISCONNECT_BIT = false ∧
    (wifi_app_task_run ((2 : Nat) : Int) (disconnects [env_ok, env_ok, env_ok])
      init_state).g_retry_number = 2 ∧
    issued init_state (wifi_app_task_run ((2 : Nat) : Int)
      (disconnects [env_ok, env_ok, env_ok]) init_state)
      = [.esp_wifi_connect, .esp_wifi_connect] :=
  ⟨by decide, by decide, by decide, by decide, by decide,
    C7_unsolicited_drop_retries_up_to_cap 2 init_state [env_ok, env_ok, env_ok]
      (by decide) (by decide) (by decide) (by decide) (by decide)⟩
/-! ## End-to-end scenarios -/

/-- C8 (scenario 1): from the initial state, with a stored profile and a radio that is not
associated, `WIFI_APP_MSG_LOAD_SAVED_CREDENTIALS` issues one `wifi_app_connect_sta` with one
`esp_wifi_connect` and sets `WIFI_APP_CONNECTING_USING_SAVED_CREDS_BIT`; the
`WIFI_APP_MSG_STA_CONNECTED_GOT_IP` that follows sets the connect status to
`HTTP_WIFI_STATUS_CONNECT_SUCCESS` and issues no call at all, so no `app_nvs_save_sta_creds`. -/
theorem C8_scenario_saved_credentials (M : Int) (env1 env2 : Env)
    (hload : env1.app_nvs_load_sta_creds = true)
    (hinfo : env1.esp_wifi_sta_get_ap_info = ESP_ERR_WIFI_NOT_CONNECT)
    (hconfig : env1.esp_wifi_set_config = ESP_OK)
    (hconnect : env1.esp_wifi_connect = ESP_OK) :
    init_state.g_wifi_connect_status = NONE ∧
    issued init_state
        (wifi_app_task_handle M env1 WIFI_APP_MSG_LOAD_SAVED_CREDENTIALS init_state)
      = [.app_nvs_load_sta_creds, .wifi_app_connect_sta, .esp_wifi_sta_get_ap_info,
          .esp_wifi_set_config, .esp_wifi_connect] ∧
    isSet (wifi_app_task_handle M env1 WIFI_APP_MSG_LOAD_SAVED_CREDENTIALS
        init_state).wifi_app_event_group WIFI_APP_CONNECTING_USING_SAVED_CREDS_BIT = true ∧
    (wifi_app_task_handle M env2 WIFI_APP_MSG_STA_CONNECTED_GOT_IP
        (wifi_app_task_handle M env1 WIFI_APP_MSG_LOAD_SAVED_CREDENTIALS
          init_state)).g_wifi_connect_status = HTTP_WIFI_STATUS_CONNECT_SUCCESS ∧
    issued (wifi_app_task_handle M env1 WIFI_APP_MSG_LOAD_SAVED_CREDENTIALS init_state)
        (wifi_app_task_handle M env2 WIFI_APP_MSG_STA_CONNECTED_GOT_IP
          (wifi_app_task_handle M env1 WIFI_APP_MSG_LOAD_SAVED_CREDENTIALS init_state))
      = [] := by
  have h1 : wifi_app_task_handle M env1 WIFI_APP_MSG_LOAD_SAVED_CREDENTIALS init_state
      = { init_state with
          wifi_app_event_group := setBits 0 WIFI_APP_CONNECTING_USING_SAVED_CREDS_BIT
          calls := [.app_nvs_load_sta_creds, .wifi_app_connect_sta,
            .esp_wifi_sta_get_ap_info, .esp_wifi_set_config, .esp_wifi_connect] } := by
    simp [wifi_app_task_handle, case_LOAD_SAVED_CREDENTIALS, wifi_app_connect_sta,
      xEventGroupSetBits, call, abort, init_state, hload, hinfo, hconfig, hconnect]
  rw [h1]
  refine ⟨rfl, ?_, ?_, ?_, ?_⟩
  · simp [issued, init_state]
  · simp [-Nat.testBit_zero]
  · simp [wifi_app_task_handle, case_STA_CONNECTED_GOT_IP, xEventGroupSetBits,
      xEventGroupGetBits, xEventGroupClearBits, http_server_set_connect_status, call,
      init_state]
  · simp [-Nat.testBit_zero, issued, wifi_app_task_handle, case_STA_CONNECTED_GOT_IP,
      xEventGroupSetBits,
      xEventGroupGetBits, xEventGroupClearBits, http_server_set_connect_status, call,
      init_state]

theorem C8_scenario_saved_credentials_witness :
    env_ok.app_nvs_load_sta_creds = true ∧
    env_ok.esp_wifi_sta_get_ap_info = ESP_ERR_WIFI_NOT_CONNECT ∧
    env_ok.esp_wifi_set_config = ESP_OK ∧ env_ok.esp_wifi_connect = ESP_OK ∧
    (wifi_app_task_handle 2 env_ok WIFI_APP_MSG_STA_CONNECTED_GOT_IP
        (wifi_app_task_handle 2 env_ok WIFI_APP_MSG_LOAD_SAVED_CREDENTIALS
          init_state)).g_wifi_connect_status = HTTP_WIFI_STATUS_CONNECT_SUCCESS :=
  ⟨by decide, by decide, by decide, by decide,
    (C8_scenario_saved_credentials 2 env_ok env_ok (by decide) (by decide) (by decide)
      (by decide)).2.2.2.1⟩
/-- State of scenario 2 once the admin request has been handled. -/
theorem scenario2_request_state (M : Int) (env0 env1 : Env) (srv : ServerEnv) (q task : Nat)
    (hno : env0.app_nvs_load_sta_creds = false)
    (htask : srv.xTaskCreatePinnedToCore = some task)
    (hqueue : srv.xQueueCreate = some q)
    (hstart : srv.httpd_start = ESP_OK)
    (hinfo : env1.esp_wifi_sta_get_ap_info = ESP_ERR_WIFI_NOT_CONNECT)
    (hconfig : env1.esp_wifi_set_config = ESP_OK)
    (hconnect : env1.esp_wifi_connect = ESP_OK) :
    exec M (scenario2_request env0 srv env1) init_state
      = { init_state with
          wifi_app_event_group := setBits 0 WIFI_APP_CONNECTING_FROM_HTTP_SERVER_BIT
          wifi_app_queue := [WIFI_APP_MSG_START_HTTP_SERVER]
          http_server_handle := some srv.httpd_start_handle
          task_http_server_monitor := some task
          http_server_monitor_queue_handle := some q
          calls := [.wifi_app_send_message WIFI_APP_MSG_LOAD_SAVED_CREDENTIALS,
            .app_nvs_load_sta_creds,
            .xTaskCreatePinnedToCore, .xQueueCreate, .httpd_start,
            .httpd_register_uri_handler srv.httpd_start_handle,
            .wifi_app_send_message WIFI_APP_MSG_CONNECTING_FROM_HTTP_SERVER,
            .wifi_app_connect_sta, .esp_wifi_sta_get_ap_info, .esp_wifi_set_config,
            .esp_wifi_connect, .wifi_app_send_message WIFI_APP_MSG_START_HTTP_SERVER] } := by
  simp [exec, step, scenario2_request, wifi_app_task_iter, wifi_app_task_handle,
    wifi_app_send_message, case_LOAD_SAVED_CREDENTIALS, case_CONNECTING_FROM_HTTP_SERVER,
    wifi_app_connect_sta, wifi_app_event_handler, http_server_start, http_server_configure,
    xEventGroupSetBits, call, abort, init_state, WIFI_APP_QUEUE_LENGTH,
    hno, htask, hqueue, hstart, hinfo, hconfig, hconnect]

theorem exec_append (M : Int) (l₁ l₂ : List Action) (s : State) :
    exec M (l₁ ++ l₂) s = exec M l₂ (exec M l₁ s) := by
  induction l₁ generalizing s with
  | nil => rfl
  | cons a rest ih => exact ih _

/-- C9 (scenario 2), with the order of the messages made explicit: from the initial state
without a stored profile, a station joins the access point, which starts the server, the
monitor task and the monitor queue; the admin request, handled with the radio not associated,
issues one `esp_wifi_connect` and leaves `WIFI_APP_CONNECTING_FROM_HTTP_SERVER_BIT` as the
only bit set.  When the supervisor handles its follow-up `WIFI_APP_MSG_START_HTTP_SERVER`
before the disconnect, the monitor queue holds `HTTP_MSG_WIFI_CONNECT_INIT` followed by
`HTTP_MSG_WIFI_CONNECT_FAIL` once the disconnect has been handled, and after the monitor has
taken both, in that order, the connect status is `HTTP_WIFI_STATUS_CONNECT_FAILED`; the same
holds when the monitor takes the first message before the disconnect arrives. -/
theorem C9_scenario_admin_connect_fails (M : Int) (env0 env1 env2 env3 env4 env5 : Env)
    (srv : ServerEnv) (q task : Nat)
    (hno : env0.app_nvs_load_sta_creds = false)
    (htask : srv.xTaskCreatePinnedToCore = some task)
    (hqueue : srv.xQueueCreate = some q)
    (hstart : srv.httpd_start = ESP_OK)
    (hinfo : env1.esp_wifi_sta_get_ap_info = ESP_ERR_WIFI_NOT_CONNECT)
    (hconfig : env1.esp_wifi_set_config = ESP_OK)
    (hconnect : env1.esp_wifi_connect = ESP_OK) :
    (issued init_state (exec M (scenario2_request env0 srv env1) init_state)).count
      .esp_wifi_connect = 1 ∧
    (∀ j, (exec M (scenario2_request env0 srv env1) init_state).wifi_app_event_group.testBit j
      = decide (j = 1)) ∧
    (exec M (scenario2_request env0 srv env1 ++ scenario2_failure env2 env3)
      init_state).http_server_monitor_queue
      = [HTTP_MSG_WIFI_CONNECT_INIT, HTTP_MSG_WIFI_CONNECT_FAIL] ∧
    (http_server_monitor_drain [env4, env5]
      (exec M (scenario2_request env0 srv env1 ++ scenario2_failure env2 env3)
        init_state)).http_server_monitor_queue = [] ∧
    (http_server_monitor_drain [env4, env5]
      (exec M (scenario2_request env0 srv env1 ++ scenario2_failure env2 env3)
        init_state)).g_wifi_connect_status = HTTP_WIFI_STATUS_CONNECT_FAILED ∧
    (exec M (scenario2_request env0 srv env1 ++
        [.wifi_app_task env2, .http_server_monitor env4,
         .post WIFI_APP_MSG_STA_DISCONNECTED, .wifi_app_task env3,
         .http_server_monitor env5]) init_state).http_server_monitor_queue = [] ∧
    (exec M (scenario2_request env0 srv env1 ++
        [.wifi_app_task env2, .http_server_monitor env4,
         .post WIFI_APP_MSG_STA_DISCONNECTED, .wifi_app_task env3,
         .http_server_monitor env5]) init_state).g_wifi_connect_status
      = HTTP_WIFI_STATUS_CONNECT_FAILED := by
  have hA := scenario2_request_state M env0 env1 srv q task hno htask hqueue hstart hinfo
    hconfig hconnect
  have hD : exec M (scenario2_request env0 srv env1 ++ scenario2_failure env2 env3) init_state
      = { init_state with
          wifi_app_event_group := clearBits
            (setBits 0 WIFI_APP_CONNECTING_FROM_HTTP_SERVER_BIT)
            WIFI_APP_CONNECTING_FROM_HTTP_SERVER_BIT
          http_server_handle := some srv.httpd_start_handle
          task_http_server_monitor := some task
          http_server_monitor_queue_handle := some q
          http_server_monitor_queue := [HTTP_MSG_WIFI_CONNECT_INIT, HTTP_MSG_WIFI_CONNECT_FAIL]
          calls := [.wifi_app_send_message WIFI_APP_MSG_LOAD_SAVED_CREDENTIALS,
            .app_nvs_load_sta_creds,
            .xTaskCreatePinnedToCore, .xQueueCreate, .httpd_start,
            .httpd_register_uri_handler srv.httpd_start_handle,
            .wifi_app_send_message WIFI_APP_MSG_CONNECTING_FROM_HTTP_SERVER,
            .wifi_app_connect_sta, .esp_wifi_sta_get_ap_info, .esp_wifi_set_config,
            .esp_wifi_connect, .wifi_app_send_message WIFI_APP_MSG_START_HTTP_SERVER,
            .http_server_monitor_send_message HTTP_MSG_WIFI_CONNECT_INIT,
            .wifi_app_send_message WIFI_APP_MSG_STA_DISCONNECTED,
            .http_server_monitor_send_message HTTP_MSG_WIFI_CONNECT_FAIL] } := by
    rw [exec_append, hA]
    simp [-Nat.testBit_zero, exec, step, scenario2_failure, wifi_app_task_iter,
      wifi_app_task_handle, wifi_app_send_message, case_START_HTTP_SERVER,
      case_STA_DISCONNECTED, http_server_monitor_send_message, xEventGroupGetBits,
      xEventGroupClearBits, call, init_state, WIFI_APP_QUEUE_LENGTH,
      HTTP_SERVER_MONITOR_QUEUE_LENGTH]
  have hE : exec M (scenario2_request env0 srv env1 ++
        [.wifi_app_task env2, .http_server_monitor env4,
         .post WIFI_APP_MSG_STA_DISCONNECTED, .wifi_app_task env3,
         .http_server_monitor env5]) init_state
      = { init_state with
          wifi_app_event_group := clearBits
            (setBits 0 WIFI_APP_CONNECTING_FROM_HTTP_SERVER_BIT)
            WIFI_APP_CONNECTING_FROM_HTTP_SERVER_BIT
          g_wifi_connect_status := HTTP_WIFI_STATUS_CONNECT_FAILED
          http_server_handle := some srv.httpd_start_handle
          task_http_server_monitor := some task
          http_server_monitor_queue_handle := some q
          calls := [.wifi_app_send_message WIFI_APP_MSG_LOAD_SAVED_CREDENTIALS,
            .app_nvs_load_sta_creds,
            .xTaskCreatePinnedToCore, .xQueueCreate, .httpd_start,
            .httpd_register_uri_handler srv.httpd_start_handle,
            .wifi_app_send_message WIFI_APP_MSG_CONNECTING_FROM_HTTP_SERVER,
            .wifi_app_connect_sta, .esp_wifi_sta_get_ap_info, .esp_wifi_set_config,
            .esp_wifi_connect, .wifi_app_send_message WIFI_APP_MSG_START_HTTP_SERVER,
            .http_server_monitor_send_message HTTP_MSG_WIFI_CONNECT_INIT,
            .wifi_app_send_message WIFI_APP_MSG_STA_DISCONNECTED,
            .http_server_monitor_send_message HTTP_MSG_WIFI_CONNECT_FAIL] } := by
    rw [exec_append, hA]
    simp [-Nat.testBit_zero, exec, step, wifi_app_task_iter,
      wifi_app_task_handle, wifi_app_send_message, case_START_HTTP_SERVER,
      case_STA_DISCONNECTED, http_server_monitor_send_message, xEventGroupGetBits,
      xEventGroupClearBits, call, init_state, WIFI_APP_QUEUE_LENGTH,
      HTTP_SERVER_MONITOR_QUEUE_LENGTH, http_server_monitor_iter, http_server_monitor_handle,
      http_server_set_connect_status, HTTP_MSG_WIFI_CONNECT_INIT,
      HTTP_MSG_WIFI_CONNECT_SUCCESS, HTTP_MSG_WIFI_CONNECT_FAIL]
  rw [hD, hE, hA]
  refine ⟨?_, ?_, rfl, ?_, ?_, rfl, rfl⟩
  · simp [issued, init_state]
  · intro j
    simp only [testBit_set_ADMIN, Nat.zero_testBit, Bool.false_or]
    exact decide_eq_decide.mpr eq_comm
  · simp [http_server_monitor_drain, http_server_monitor_iter, http_server_monitor_handle,
      http_server_set_connect_status, init_state, HTTP_MSG_WIFI_CONNECT_INIT,
      HTTP_MSG_WIFI_CONNECT_SUCCESS, HTTP_MSG_WIFI_CONNECT_FAIL]
  · simp [http_server_monitor_drain, http_server_monitor_iter, http_server_monitor_handle,
      http_server_set_connect_status, init_state, HTTP_MSG_WIFI_CONNECT_INIT,
      HTTP_MSG_WIFI_CONNECT_SUCCESS, HTTP_MSG_WIFI_CONNECT_FAIL]

theorem C9_scenario_admin_connect_fails_witness :
    env_no_profile.app_nvs_load_sta_creds = false ∧
    srv_one_client.xTaskCreatePinnedToCore = some 9 ∧
    srv_one_client.xQueueCreate = some 5 ∧
    srv_one_client.httpd_start = ESP_OK ∧
    env_ok.esp_wifi_sta_get_ap_info = ESP_ERR_WIFI_NOT_CONNECT ∧
    env_ok.esp_wifi_set_config = ESP_OK ∧ env_ok.esp_wifi_connect = ESP_OK ∧
    (http_server_monitor_drain [env_ok, env_ok]
      (exec 2 (scenario2_request env_no_profile srv_one_client env_ok ++
          scenario2_failure env_ok env_ok)
        init_state)).g_wifi_connect_status = HTTP_WIFI_STATUS_CONNECT_FAILED :=
  ⟨by decide, by decide, by decide, by decide, by decide, by decide, by decide,
    (C9_scenario_admin_connect_fails 2 env_no_profile env_ok env_ok env_ok env_ok env_ok
      srv_one_client 5 9 (by decide) (by decide) (by decide) (by decide) (by decide)
      (by decide) (by decide)).2.2.2.2.1⟩

/-- C9 as written fails when the disconnect is queued ahead of the follow-up message of the
admin request (schedule `scenario2_early_disconnect`).  The request issues one
`esp_wifi_connect`; the disconnect is handled with
`WIFI_APP_CONNECTING_FROM_HTTP_SERVER_BIT` as the only bit set and puts
`HTTP_MSG_WIFI_CONNECT_FAIL` into the monitor queue; `WIFI_APP_MSG_START_HTTP_SERVER` is
handled after it and sends `HTTP_MSG_WIFI_CONNECT_INIT`.  Once the monitor has taken both
messages in the order sent, the connect status is `HTTP_WIFI_STATUS_CONNECTING`. -/
theorem C9_counterexample :
    (exec 2 (scenario2_early_disconnect.take 6) init_state).calls.count .esp_wifi_connect
      = 1 ∧
    (exec 2 (scenario2_early_disconnect.take 6) init_state).wifi_app_event_group
      = WIFI_APP_CONNECTING_FROM_HTTP_SERVER_BIT ∧
    (exec 2 (scenario2_early_disconnect.take 6) init_state).wifi_app_queue
      = [WIFI_APP_MSG_STA_DISCONNECTED, WIFI_APP_MSG_START_HTTP_SERVER] ∧
    (exec 2 (scenario2_early_disconnect.take 7) init_state).http_server_monitor_queue
      = [HTTP_MSG_WIFI_CONNECT_FAIL] ∧
    (exec 2 (scenario2_early_disconnect.take 8) init_state).http_server_monitor_queue
      = [HTTP_MSG_WIFI_CONNECT_FAIL, HTTP_MSG_WIFI_CONNECT_INIT] ∧
    (exec 2 scenario2_early_disconnect init_state).wifi_app_queue = [] ∧
    (exec 2 scenario2_early_disconnect init_state).http_server_monitor_queue = [] ∧
    (exec 2 scenario2_early_disconnect init_state).aborted = false ∧
    (exec 2 scenario2_early_disconnect init_state).wifi_app_task_blocked = false ∧
    (exec 2 scenario2_early_disconnect init_state).g_wifi_connect_status
      = HTTP_WIFI_STATUS_CONNECTING ∧
    (exec 2 scenario2_early_disconnect init_state).g_wifi_connect_status
      ≠ HTTP_WIFI_STATUS_CONNECT_FAILED := by
  decide
/-! ## The monitor step -/

theorem http_server_fw_update_reset_timer_frame (env : Env) (s : State) :
    (http_server_fw_update_reset_timer env s).g_fw_update_status = s.g_fw_update_status ∧
    (http_server_fw_update_reset_timer env s).g_wifi_connect_status
      = s.g_wifi_connect_status ∧
    (http_server_fw_update_reset_timer env s).g_is_local_time_set
      = s.g_is_local_time_set := by
  unfold http_server_fw_update_reset_timer
  simp only [call, abort]
  split_ifs <;> exact ⟨rfl, rfl, rfl⟩

/-- C10: one monitor message writes one status field and leaves the two others alone.  The
four connect messages write `g_wifi_connect_status` and change nothing else in the state; the
two update messages write `g_fw_update_status` and keep the connect status and the time flag;
`HTTP_MSG_TIME_SERVICE_INITIALIZED` sets `g_is_local_time_set` and changes nothing else; any
other message id changes nothing. -/
theorem C10_monitor_step_writes_one_field (env : Env) (msgID : Int) (s : State)
    (ha : s.aborted = false) :
    (msgID = HTTP_MSG_WIFI_CONNECT_INIT → http_server_monitor_handle env msgID s
      = { s with g_wifi_connect_status := HTTP_WIFI_STATUS_CONNECTING }) ∧
    (msgID = HTTP_MSG_WIFI_CONNECT_SUCCESS → http_server_monitor_handle env msgID s
      = { s with g_wifi_connect_status := HTTP_WIFI_STATUS_CONNECT_SUCCESS }) ∧
    (msgID = HTTP_MSG_WIFI_CONNECT_FAIL → http_server_monitor_handle env msgID s
      = { s with g_wifi_connect_status := HTTP_WIFI_STATUS_CONNECT_FAILED }) ∧
    (msgID = HTTP_MSG_WIFI_USER_DISCONNECT → http_server_monitor_handle env msgID s
      = { s with g_wifi_connect_status := HTTP_WIFI_STATUS_DISCONNECTED }) ∧
    (msgID = HTTP_MSG_OTA_UPDATE_SUCCESSFUL →
      (http_server_monitor_handle env msgID s).g_fw_update_status = OTA_UPDATE_SUCCESSFUL ∧
      (http_server_monitor_handle env msgID s).g_wifi_connect_status
        = s.g_wifi_connect_status ∧
      (http_server_monitor_handle env msgID s).g_is_local_time_set
        = s.g_is_local_time_set) ∧
    (msgID = HTTP_MSG_OTA_UPDATE_FAILED → http_server_monitor_handle env msgID s
      = { s with g_fw_update_status := OTA_UPDATE_FAILED }) ∧
    (msgID = HTTP_MSG_TIME_SERVICE_INITIALIZED → http_server_monitor_handle env msgID s
      = { s with g_is_local_time_set := true }) ∧
    ((msgID < HTTP_MSG_WIFI_CONNECT_INIT ∨ HTTP_MSG_TIME_SERVICE_INITIALIZED < msgID) →
      http_server_monitor_handle env msgID s = s) := by
  refine ⟨?_, ?_, ?_, ?_, ?_, ?_, ?_, ?_⟩
  · rintro rfl
    simp [http_server_monitor_handle, http_server_set_connect_status, ha]
  · rintro rfl
    simp [http_server_monitor_handle, http_server_set_connect_status, ha,
      HTTP_MSG_WIFI_CONNECT_INIT, HTTP_MSG_WIFI_CONNECT_SUCCESS]
  · rintro rfl
    simp [http_server_monitor_handle, http_server_set_connect_status, ha,
      HTTP_MSG_WIFI_CONNECT_INIT, HTTP_MSG_WIFI_CONNECT_SUCCESS, HTTP_MSG_WIFI_CONNECT_FAIL]
  · rintro rfl
    simp [http_server_monitor_handle, http_server_set_connect_status, ha,
      HTTP_MSG_WIFI_CONNECT_INIT, HTTP_MSG_WIFI_CONNECT_SUCCESS, HTTP_MSG_WIFI_CONNECT_FAIL,
      HTTP_MSG_WIFI_USER_DISCONNECT]
  · rintro rfl
    have h := http_server_fw_update_reset_timer_frame env
      { s with g_fw_update_status := OTA_UPDATE_SUCCESSFUL }
    simpa [http_server_monitor_handle, ha, HTTP_MSG_WIFI_CONNECT_INIT,
      HTTP_MSG_WIFI_CONNECT_SUCCESS, HTTP_MSG_WIFI_CONNECT_FAIL,
      HTTP_MSG_WIFI_USER_DISCONNECT, HTTP_MSG_OTA_UPDATE_SUCCESSFUL] using h
  · rintro rfl
    simp [http_server_monitor_handle, ha, HTTP_MSG_WIFI_CONNECT_INIT,
      HTTP_MSG_WIFI_CONNECT_SUCCESS, HTTP_MSG_WIFI_CONNECT_FAIL,
      HTTP_MSG_WIFI_USER_DISCONNECT, HTTP_MSG_OTA_UPDATE_SUCCESSFUL,
      HTTP_MSG_OTA_UPDATE_FAILED]
  · rintro rfl
    simp [http_server_monitor_handle, ha, HTTP_MSG_WIFI_CONNECT_INIT,
      HTTP_MSG_WIFI_CONNECT_SUCCESS, HTTP_MSG_WIFI_CONNECT_FAIL,
      HTTP_MSG_WIFI_USER_DISCONNECT, HTTP_MSG_OTA_UPDATE_SUCCESSFUL,
      HTTP_MSG_OTA_UPDATE_FAILED, HTTP_MSG_TIME_SERVICE_INITIALIZED]
  · intro h
    simp only [HTTP_MSG_WIFI_CONNECT_INIT, HTTP_MSG_TIME_SERVICE_INITIALIZED] at h
    have e0 : msgID ≠ 0 := by omega
    have e1 : msgID ≠ 1 := by omega
    have e2 : msgID ≠ 2 := by omega
    have e3 : msgID ≠ 3 := by omega
    have e4 : msgID ≠ 4 := by omega
    have e5 : msgID ≠ 5 := by omega
    have e6 : msgID ≠ 6 := by omega
    simp [http_server_monitor_handle, ha, HTTP_MSG_WIFI_CONNECT_INIT,
      HTTP_MSG_WIFI_CONNECT_SUCCESS, HTTP_MSG_WIFI_CONNECT_FAIL,
      HTTP_MSG_WIFI_USER_DISCONNECT, HTTP_MSG_OTA_UPDATE_SUCCESSFUL,
      HTTP_MSG_OTA_UPDATE_FAILED, HTTP_MSG_TIME_SERVICE_INITIALIZED, e0, e1, e2, e3, e4, e5,
      e6]

theorem C10_monitor_step_writes_one_field_witness :
    init_state.aborted = false ∧
    http_server_monitor_handle env_ok HTTP_MSG_WIFI_CONNECT_FAIL init_state
      = { init_state with g_wifi_connect_status := HTTP_WIFI_STATUS_CONNECT_FAILED } :=
  ⟨by decide, (C10_monitor_step_writes_one_field env_ok HTTP_MSG_WIFI_CONNECT_FAIL init_state
    (by decide)).2.2.1 rfl⟩

/-! ## The admin request -/

/-- Log and state after `wifi_app_connect_sta` when the checked driver calls succeed. -/
theorem wifi_app_connect_sta_ok (env : Env) (s : State)
    (hok : env.esp_wifi_sta_get_ap_info = ESP_ERR_WIFI_NOT_CONNECT →
      env.esp_wifi_set_config = ESP_OK ∧ env.esp_wifi_connect = ESP_OK) :
    wifi_app_connect_sta env s = { s with calls := s.calls ++
      ([.wifi_app_connect_sta, .esp_wifi_sta_get_ap_info] ++
        if env.esp_wifi_sta_get_ap_info = ESP_ERR_WIFI_NOT_CONNECT
          then [.esp_wifi_set_config, .esp_wifi_connect] else []) } := by
  unfold wifi_app_connect_sta
  by_cases h : env.esp_wifi_sta_get_ap_info = ESP_ERR_WIFI_NOT_CONNECT
  · obtain ⟨h1, h2⟩ := hok h
    simp [call, abort, h, h1, h2]
  · simp [call, abort, h]

/-- C11, as the code has it: in a live state whose supervisor queue has a free slot, and with
the checked driver calls succeeding, `WIFI_APP_MSG_CONNECTING_FROM_HTTP_SERVER` sets
`WIFI_APP_CONNECTING_FROM_HTTP_SERVER_BIT`, keeps every other bit, sets the retry counter to
0, calls `wifi_app_connect_sta` once (a radio connect is issued when the radio reports
`ESP_ERR_WIFI_NOT_CONNECT`), appends `WIFI_APP_MSG_START_HTTP_SERVER` to the supervisor queue
and sends nothing to the monitor itself; handling `WIFI_APP_MSG_START_HTTP_SERVER` in a live
state whose monitor queue exists and has a free slot sends exactly one
`HTTP_MSG_WIFI_CONNECT_INIT`. -/
theorem C11_admin_request_posts_one_start (M : Int) (env : Env) (s : State)
    (ha : s.aborted = false) (hb : s.wifi_app_task_blocked = false)
    (hroom : s.wifi_app_queue.length < WIFI_APP_QUEUE_LENGTH)
    (hok : env.esp_wifi_sta_get_ap_info = ESP_ERR_WIFI_NOT_CONNECT →
      env.esp_wifi_set_config = ESP_OK ∧ env.esp_wifi_connect = ESP_OK) :
    isSet (wifi_app_task_handle M env WIFI_APP_MSG_CONNECTING_FROM_HTTP_SERVER
      s).wifi_app_event_group WIFI_APP_CONNECTING_FROM_HTTP_SERVER_BIT = true ∧
    (∀ j, j ≠ 1 →
      (wifi_app_task_handle M env WIFI_APP_MSG_CONNECTING_FROM_HTTP_SERVER
        s).wifi_app_event_group.testBit j = s.wifi_app_event_group.testBit j) ∧
    (wifi_app_task_handle M env WIFI_APP_MSG_CONNECTING_FROM_HTTP_SERVER s).g_retry_number
      = 0 ∧
    issued s (wifi_app_task_handle M env WIFI_APP_MSG_CONNECTING_FROM_HTTP_SERVER s)
      = [.wifi_app_connect_sta, .esp_wifi_sta_get_ap_info] ++
        (if env.esp_wifi_sta_get_ap_info = ESP_ERR_WIFI_NOT_CONNECT
          then [.esp_wifi_set_config, .esp_wifi_connect] else []) ++
        [.wifi_app_send_message WIFI_APP_MSG_START_HTTP_SERVER] ∧
    (wifi_app_task_handle M env WIFI_APP_MSG_CONNECTING_FROM_HTTP_SERVER s).wifi_app_queue
      = s.wifi_app_queue ++ [WIFI_APP_MSG_START_HTTP_SERVER] ∧
    (wifi_app_task_handle M env WIFI_APP_MSG_CONNECTING_FROM_HTTP_SERVER
      s).http_server_monitor_queue = s.http_server_monitor_queue ∧
    (∀ (env2 : Env) (u : State), u.aborted = false → u.wifi_app_task_blocked = false →
      u.http_server_monitor_queue_handle ≠ none →
      u.http_server_monitor_queue.length < HTTP_SERVER_MONITOR_QUEUE_LENGTH →
      issued u (wifi_app_task_handle M env2 WIFI_APP_MSG_START_HTTP_SERVER u)
        = [.http_server_monitor_send_message HTTP_MSG_WIFI_CONNECT_INIT] ∧
      (wifi_app_task_handle M env2 WIFI_APP_MSG_START_HTTP_SERVER
        u).http_server_monitor_queue
        = u.http_server_monitor_queue ++ [HTTP_MSG_WIFI_CONNECT_INIT]) := by
  have hstep : wifi_app_task_handle M env WIFI_APP_MSG_CONNECTING_FROM_HTTP_SERVER s
      = { s with
          wifi_app_event_group :=
            setBits s.wifi_app_event_group WIFI_APP_CONNECTING_FROM_HTTP_SERVER_BIT
          g_retry_number := 0
          wifi_app_queue := s.wifi_app_queue ++ [WIFI_APP_MSG_START_HTTP_SERVER]
          calls := s.calls ++ ([.wifi_app_connect_sta, .esp_wifi_sta_get_ap_info] ++
            (if env.esp_wifi_sta_get_ap_info = ESP_ERR_WIFI_NOT_CONNECT
              then [.esp_wifi_set_config, .esp_wifi_connect] else []) ++
            [.wifi_app_send_message WIFI_APP_MSG_START_HTTP_SERVER]) } := by
    simp only [wifi_app_task_handle, case_CONNECTING_FROM_HTTP_SERVER, ha, hb, Bool.or_self,
      Bool.false_eq_true, if_false, wifi_app_connect_sta_ok env _ hok]
    simp [xEventGroupSetBits, wifi_app_send_message, call, ha, hb, hroom]
  rw [hstep]
  refine ⟨by simp, ?_, rfl, issued_of_eq rfl, rfl, rfl, ?_⟩
  · intro j hj
    simp [Ne.symm hj]
  · intro env2 u hua hub huq huroom
    have hu : wifi_app_task_handle M env2 WIFI_APP_MSG_START_HTTP_SERVER u
        = http_server_monitor_send_message HTTP_MSG_WIFI_CONNECT_INIT u := by
      simp only [wifi_app_task_handle, case_START_HTTP_SERVER, hua, hub, Bool.or_self,
        Bool.false_eq_true, if_false]
    rw [hu, http_server_monitor_send_message_ok HTTP_MSG_WIFI_CONNECT_INIT u huq huroom]
    exact ⟨issued_of_eq rfl, rfl⟩

theorem C11_admin_request_posts_one_start_witness :
    init_state.aborted = false ∧ init_state.wifi_app_task_blocked = false ∧
    init_state.wifi_app_queue.length < WIFI_APP_QUEUE_LENGTH ∧
    (env_ok.esp_wifi_sta_get_ap_info = ESP_ERR_WIFI_NOT_CONNECT →
      env_ok.esp_wifi_set_config = ESP_OK ∧ env_ok.esp_wifi_connect = ESP_OK) ∧
    (wifi_app_task_handle 2 env_ok WIFI_APP_MSG_CONNECTING_FROM_HTTP_SERVER
      init_state).wifi_app_queue
      = init_state.wifi_app_queue ++ [WIFI_APP_MSG_START_HTTP_SERVER] ∧
    (wifi_app_task_handle 2 env_ok WIFI_APP_MSG_START_HTTP_SERVER
      admin_attempt_pending).http_server_monitor_queue
      = admin_attempt_pending.http_server_monitor_queue ++ [HTTP_MSG_WIFI_CONNECT_INIT] :=
  ⟨by decide, by decide, by decide, by decide,
    (C11_admin_request_posts_one_start 2 env_ok init_state (by decide) (by decide)
      (by decide) (by decide)).2.2.2.2.1,
    ((C11_admin_request_posts_one_start 2 env_ok init_state (by decide) (by decide)
      (by decide) (by decide)).2.2.2.2.2.2 env_ok admin_attempt_pending (by decide)
      (by decide) (by decide) (by decide)).2⟩

/-- C11 as stated fails: with three messages waiting in the supervisor queue the handler of
`WIFI_APP_MSG_CONNECTING_FROM_HTTP_SERVER` stops inside `wifi_app_send_message`; no
`WIFI_APP_MSG_START_HTTP_SERVER` is queued, later iterations of the task handle nothing, and
no `HTTP_MSG_WIFI_CONNECT_INIT` is sent.  And in the initial state with a radio that reports
an association the handler issues no `esp_wifi_connect`. -/
theorem C11_counterexample :
    (wifi_app_task_handle 2 env_ok WIFI_APP_MSG_CONNECTING_FROM_HTTP_SERVER
      queue_full).wifi_app_task_blocked = true ∧
    (wifi_app_task_handle 2 env_ok WIFI_APP_MSG_CONNECTING_FROM_HTTP_SERVER
      queue_full).wifi_app_queue = queue_full.wifi_app_queue ∧
    (exec 2 [.wifi_app_task env_ok, .wifi_app_task env_ok, .wifi_app_task env_ok,
        .wifi_app_task env_ok]
      (wifi_app_task_handle 2 env_ok WIFI_APP_MSG_CONNECTING_FROM_HTTP_SERVER
        queue_full)).http_server_monitor_queue = [] ∧
    issued init_state (wifi_app_task_handle 2 env_associated
      WIFI_APP_MSG_CONNECTING_FROM_HTTP_SERVER init_state)
      = [.wifi_app_connect_sta, .esp_wifi_sta_get_ap_info,
          .wifi_app_send_message WIFI_APP_MSG_START_HTTP_SERVER] := by
  decide

/-! ## The got-IP handler -/

/-- State after `WIFI_APP_MSG_STA_CONNECTED_GOT_IP` in a live state. -/
theorem got_ip_state (M : Int) (env : Env) (s : State)
    (ha : s.aborted = false) (hb : s.wifi_app_task_blocked = false) :
    wifi_app_task_handle M env WIFI_APP_MSG_STA_CONNECTED_GOT_IP s
      = { s with
          wifi_app_event_group :=
            if s.wifi_app_event_group.testBit 1 then
              clearBits (setBits s.wifi_app_event_group WIFI_APP_STA_CONNECTED_GOT_IP_BIT)
                WIFI_APP_CONNECTING_FROM_HTTP_SERVER_BIT
            else setBits s.wifi_app_event_group WIFI_APP_STA_CONNECTED_GOT_IP_BIT
          g_wifi_connect_status := HTTP_WIFI_STATUS_CONNECT_SUCCESS
          calls := s.calls ++
            if s.wifi_app_event_group.testBit 0 then [] else [.app_nvs_save_sta_creds] } := by
  simp only [wifi_app_task_handle, case_STA_CONNECTED_GOT_IP, xEventGroupGetBits,
    xEventGroupSetBits, xEventGroupClearBits, http_server_set_connect_status, call, ha, hb,
    Bool.or_self, Bool.false_eq_true, if_false, isSet_SAVED, isSet_ADMIN, testBit_set_GOT_IP]
  by_cases h0 : s.wifi_app_event_group.testBit 0 = true <;>
    by_cases h1 : s.wifi_app_event_group.testBit 1 = true <;>
    simp [h0, h1]

/-- C12: in a live state the handler of `WIFI_APP_MSG_STA_CONNECTED_GOT_IP` issues exactly one
`app_nvs_save_sta_creds` when `WIFI_APP_CONNECTING_USING_SAVED_CREDS_BIT` is clear and no call
at all when it is set; afterwards `WIFI_APP_CONNECTING_FROM_HTTP_SERVER_BIT` is clear, the
saved-creds bit, the user-disconnect bit and the retry counter are as before, and the connect
status is `HTTP_WIFI_STATUS_CONNECT_SUCCESS`. -/
theorem C12_got_ip_saves_unless_saved_creds (M : Int) (env : Env) (s : State)
    (ha : s.aborted = false) (hb : s.wifi_app_task_blocked = false) :
    issued s (wifi_app_task_handle M env WIFI_APP_MSG_STA_CONNECTED_GOT_IP s)
      = (if isSet s.wifi_app_event_group WIFI_APP_CONNECTING_USING_SAVED_CREDS_BIT = true
          then [] else [.app_nvs_save_sta_creds]) ∧
    isSet (wifi_app_task_handle M env WIFI_APP_MSG_STA_CONNECTED_GOT_IP
      s).wifi_app_event_group WIFI_APP_CONNECTING_FROM_HTTP_SERVER_BIT = false ∧
    isSet (wifi_app_task_handle M env WIFI_APP_MSG_STA_CONNECTED_GOT_IP
      s).wifi_app_event_group WIFI_APP_CONNECTING_USING_SAVED_CREDS_BIT
      = isSet s.wifi_app_event_group WIFI_APP_CONNECTING_USING_SAVED_CREDS_BIT ∧
    isSet (wifi_app_task_handle M env WIFI_APP_MSG_STA_CONNECTED_GOT_IP
      s).wifi_app_event_group WIFI_APP_USER_REQUESTED_STA_DISCONNECT_BIT
      = isSet s.wifi_app_event_group WIFI_APP_USER_REQUESTED_STA_DISCONNECT_BIT ∧
    (wifi_app_task_handle M env WIFI_APP_MSG_STA_CONNECTED_GOT_IP s).g_retry_number
      = s.g_retry_number ∧
    (wifi_app_task_handle M env WIFI_APP_MSG_STA_CONNECTED_GOT_IP s).g_wifi_connect_status
      = HTTP_WIFI_STATUS_CONNECT_SUCCESS := by
  rw [got_ip_state M env s ha hb]
  refine ⟨?_, ?_, ?_, ?_, rfl, rfl⟩
  · rw [isSet_SAVED]
    exact issued_of_eq rfl
  · by_cases h1 : s.wifi_app_event_group.testBit 1 = true <;> simp [h1]
  · by_cases h1 : s.wifi_app_event_group.testBit 1 = true <;>
      simp [-Nat.testBit_zero, h1]
  · by_cases h1 : s.wifi_app_event_group.testBit 1 = true <;> simp [h1]

theorem C12_got_ip_saves_unless_saved_creds_witness :
    admin_pending.aborted = false ∧ admin_pending.wifi_app_task_blocked = false ∧
    issued admin_pending
      (wifi_app_task_handle 2 env_ok WIFI_APP_MSG_STA_CONNECTED_GOT_IP admin_pending)
      = [.app_nvs_save_sta_creds] :=
  ⟨by decide, by decide,
    (C12_got_ip_saves_unless_saved_creds 2 env_ok admin_pending (by decide)
      (by decide)).1.trans (by decide)⟩

/-- Once the handler of `WIFI_APP_MSG_STA_DISCONNECTED` has finished, the got-IP bit is
clear, whatever the state it started in. -/
theorem disconnected_clears_got_ip (M : Int) (env : Env) (s : State)
    (ha : s.aborted = false) (hb : s.wifi_app_task_blocked = false)
    (hfa : (wifi_app_task_handle M env WIFI_APP_MSG_STA_DISCONNECTED s).aborted = false)
    (hfb : (wifi_app_task_handle M env WIFI_APP_MSG_STA_DISCONNECTED s).wifi_app_task_blocked
      = false) :
    (wifi_app_task_handle M env WIFI_APP_MSG_STA_DISCONNECTED s).wifi_app_event_group.testBit 3
      = false := by
  by_cases hadmin : s.wifi_app_event_group.testBit 1 = true
  · rw [disconnected_admin_unfold M env s ha hb hadmin] at hfa hfb ⊢
    have hbits := http_server_monitor_send_message_bits HTTP_MSG_WIFI_CONNECT_FAIL
      (xEventGroupClearBits WIFI_APP_CONNECTING_FROM_HTTP_SERVER_BIT s)
    by_cases hfin : ((http_server_monitor_send_message HTTP_MSG_WIFI_CONNECT_FAIL
            (xEventGroupClearBits WIFI_APP_CONNECTING_FROM_HTTP_SERVER_BIT s)).aborted ||
          (http_server_monitor_send_message HTTP_MSG_WIFI_CONNECT_FAIL
            (xEventGroupClearBits WIFI_APP_CONNECTING_FROM_HTTP_SERVER_BIT
              s)).wifi_app_task_blocked) = true
    · rw [if_pos hfin] at hfa hfb
      rw [hfa, hfb] at hfin
      exact absurd hfin (by decide)
    · rw [if_neg hfin]
      by_cases h3 : s.wifi_app_event_group.testBit 3 = true
      · rw [if_pos h3]
        simp [xEventGroupClearBits]
      · rw [if_neg h3, hbits]
        simp [xEventGroupClearBits, h3]
  · have hadmin2 : s.wifi_app_event_group.testBit 1 = false := by simpa using hadmin
    rw [disconnected_not_admin_unfold M env s ha hb hadmin2]
    by_cases h3 : s.wifi_app_event_group.testBit 3 = true
    · rw [if_pos h3]
      simp [xEventGroupClearBits]
    · rw [if_neg h3]
      split_ifs <;> simp [xEventGroupClearBits, http_server_set_connect_status, call, h3]

/-- C13, as the code has it: `WIFI_APP_STA_CONNECTED_GOT_IP_BIT` is set when the handler of
`WIFI_APP_MSG_STA_CONNECTED_GOT_IP` has finished, in every live state; it is the handler of
`WIFI_APP_MSG_STA_DISCONNECTED` that leaves the bit clear, once it has finished (its send to
the monitor on line 368 has returned). -/
theorem C13_got_ip_bit_stays_until_disconnect (M : Int) (env : Env) (s : State)
    (ha : s.aborted = false) (hb : s.wifi_app_task_blocked = false) :
    isSet (wifi_app_task_handle M env WIFI_APP_MSG_STA_CONNECTED_GOT_IP
      s).wifi_app_event_group WIFI_APP_STA_CONNECTED_GOT_IP_BIT = true ∧
    ((wifi_app_task_handle M env WIFI_APP_MSG_STA_DISCONNECTED s).aborted = false →
      (wifi_app_task_handle M env WIFI_APP_MSG_STA_DISCONNECTED s).wifi_app_task_blocked
        = false →
      isSet (wifi_app_task_handle M env WIFI_APP_MSG_STA_DISCONNECTED
        s).wifi_app_event_group WIFI_APP_STA_CONNECTED_GOT_IP_BIT = false) := by
  constructor
  · rw [got_ip_state M env s ha hb]
    by_cases h1 : s.wifi_app_event_group.testBit 1 = true <;> simp [h1]
  · intro hfa hfb
    rw [isSet_GOT_IP]
    exact disconnected_clears_got_ip M env s ha hb hfa hfb

theorem C13_got_ip_bit_stays_until_disconnect_witness :
    init_state.aborted = false ∧ init_state.wifi_app_task_blocked = false ∧
    isSet (wifi_app_task_handle 2 env_ok WIFI_APP_MSG_STA_CONNECTED_GOT_IP
      init_state).wifi_app_event_group WIFI_APP_STA_CONNECTED_GOT_IP_BIT = true ∧
    (wifi_app_task_handle 2 env_ok WIFI_APP_MSG_STA_DISCONNECTED init_state).aborted
      = false ∧
    (wifi_app_task_handle 2 env_ok WIFI_APP_MSG_STA_DISCONNECTED
      init_state).wifi_app_task_blocked = false ∧
    isSet (wifi_app_task_handle 2 env_ok WIFI_APP_MSG_STA_DISCONNECTED
      init_state).wifi_app_event_group WIFI_APP_STA_CONNECTED_GOT_IP_BIT = false :=
  ⟨by decide, by decide,
    (C13_got_ip_bit_stays_until_disconnect 2 env_ok init_state (by decide) (by decide)).1,
    by decide, by decide,
    (C13_got_ip_bit_stays_until_disconnect 2 env_ok init_state (by decide) (by decide)).2
      (by decide) (by decide)⟩

/-- C13 as stated fails: after the handler of `WIFI_APP_MSG_STA_CONNECTED_GOT_IP` has run in
the initial state, `WIFI_APP_STA_CONNECTED_GOT_IP_BIT` is set. -/
theorem C13_counterexample :
    isSet (wifi_app_task_handle 2 env_ok WIFI_APP_MSG_STA_CONNECTED_GOT_IP
      init_state).wifi_app_event_group WIFI_APP_STA_CONNECTED_GOT_IP_BIT = true ∧
    (wifi_app_task_handle 2 env_ok WIFI_APP_MSG_STA_CONNECTED_GOT_IP
      init_state).wifi_app_event_group = 8 := by
  decide

/-! ## Giving up at the cap -/

theorem http_server_monitor_drain_empty (envs : List Env) (s : State)
    (h : s.http_server_monitor_queue = []) : http_server_monitor_drain envs s = s := by
  induction envs with
  | nil => rfl
  | cons env rest ih =>
    have hiter : http_server_monitor_iter env s = s := by
      simp [http_server_monitor_iter, h]
    simp only [http_server_monitor_drain, hiter]
    exact ih

/-- C14, as the code has it: with `WIFI_APP_CONNECTING_FROM_HTTP_SERVER_BIT` and
`WIFI_APP_USER_REQUESTED_STA_DISCONNECT_BIT` clear and the retry counter at the cap, the
handler of `WIFI_APP_MSG_STA_DISCONNECTED` issues no call (so no reconnect), sends nothing to
the monitor, keeps the counter and leaves `WIFI_APP_CONNECTING_USING_SAVED_CREDS_BIT` clear;
the connect status is what it was before, also after the monitor has run on its then empty
queue. -/
theorem C14_exhaustion_keeps_status (M : Int) (env : Env) (envs : List Env) (s : State)
    (ha : s.aborted = false) (hb : s.wifi_app_task_blocked = false)
    (hadmin : isSet s.wifi_app_event_group WIFI_APP_CONNECTING_FROM_HTTP_SERVER_BIT = false)
    (huser : isSet s.wifi_app_event_group WIFI_APP_USER_REQUESTED_STA_DISCONNECT_BIT = false)
    (hcap : s.g_retry_number = M) :
    issued s (wifi_app_task_handle M env WIFI_APP_MSG_STA_DISCONNECTED s) = [] ∧
    (wifi_app_task_handle M env WIFI_APP_MSG_STA_DISCONNECTED s).http_server_monitor_queue
      = s.http_server_monitor_queue ∧
    (wifi_app_task_handle M env WIFI_APP_MSG_STA_DISCONNECTED s).g_wifi_connect_status
      = s.g_wifi_connect_status ∧
    (wifi_app_task_handle M env WIFI_APP_MSG_STA_DISCONNECTED s).g_retry_number = M ∧
    isSet (wifi_app_task_handle M env WIFI_APP_MSG_STA_DISCONNECTED s).wifi_app_event_group
      WIFI_APP_CONNECTING_USING_SAVED_CREDS_BIT = false ∧
    (s.http_server_monitor_queue = [] →
      (http_server_monitor_drain envs
        (wifi_app_task_handle M env WIFI_APP_MSG_STA_DISCONNECTED s)).g_wifi_connect_status
        = s.g_wifi_connect_status) := by
  rw [isSet_ADMIN] at hadmin
  rw [isSet_USER] at huser
  have hstep : wifi_app_task_handle M env WIFI_APP_MSG_STA_DISCONNECTED s
      = { s with
          wifi_app_event_group :=
            if s.wifi_app_event_group.testBit 3 then
              clearBits (clearBits s.wifi_app_event_group
                WIFI_APP_CONNECTING_USING_SAVED_CREDS_BIT) WIFI_APP_STA_CONNECTED_GOT_IP_BIT
            else clearBits s.wifi_app_event_group
              WIFI_APP_CONNECTING_USING_SAVED_CREDS_BIT } := by
    simp only [wifi_app_task_handle, case_STA_DISCONNECTED, xEventGroupGetBits,
      xEventGroupClearBits, ha, hb, Bool.or_self, Bool.false_eq_true, if_false, isSet_ADMIN,
      isSet_USER, isSet_GOT_IP, hadmin, huser, hcap, lt_self_iff_false]
    by_cases h3 : s.wifi_app_event_group.testBit 3 = true <;> simp [h3]
  rw [hstep]
  refine ⟨?_, rfl, rfl, hcap, ?_, ?_⟩
  · simp [issued]
  · by_cases h3 : s.wifi_app_event_group.testBit 3 = true <;>
      simp [-Nat.testBit_zero, h3]
  · intro hq
    rw [http_server_monitor_drain_empty]
    exact hq

theorem C14_exhaustion_keeps_status_witness :
    connected_capped.aborted = false ∧ connected_capped.wifi_app_task_blocked = false ∧
    isSet connected_capped.wifi_app_event_group WIFI_APP_CONNECTING_FROM_HTTP_SERVER_BIT
      = false ∧
    isSet connected_capped.wifi_app_event_group WIFI_APP_USER_REQUESTED_STA_DISCONNECT_BIT
      = false ∧
    connected_capped.g_retry_number = 2 ∧
    (wifi_app_task_handle 2 env_ok WIFI_APP_MSG_STA_DISCONNECTED
      connected_capped).g_wifi_connect_status = connected_capped.g_wifi_connect_status :=
  ⟨by decide, by decide, by decide, by decide, by decide,
    (C14_exhaustion_keeps_status 2 env_ok [] connected_capped (by decide) (by decide)
      (by decide) (by decide) (by decide)).2.2.1⟩

/-- C14 as stated fails: with the counter at the cap 2 and the connect status
`HTTP_WIFI_STATUS_CONNECT_SUCCESS`, the status after `WIFI_APP_MSG_STA_DISCONNECTED` and two
iterations of the monitor is still `HTTP_WIFI_STATUS_CONNECT_SUCCESS`, neither
`HTTP_WIFI_STATUS_CONNECT_FAILED` nor `HTTP_WIFI_STATUS_DISCONNECTED`. -/
theorem C14_counterexample :
    (http_server_monitor_drain [env_ok, env_ok]
      (wifi_app_task_handle 2 env_ok WIFI_APP_MSG_STA_DISCONNECTED
        connected_capped)).g_wifi_connect_status = HTTP_WIFI_STATUS_CONNECT_SUCCESS ∧
    HTTP_WIFI_STATUS_CONNECT_SUCCESS ≠ HTTP_WIFI_STATUS_CONNECT_FAILED ∧
    HTTP_WIFI_STATUS_CONNECT_SUCCESS ≠ HTTP_WIFI_STATUS_DISCONNECTED := by
  decide

/-! ## The user-requested disconnect, in detail -/

/-- Log and state after `wifi_app_disconnect_sta` when the checked driver call succeeds. -/
theorem wifi_app_disconnect_sta_ok (env : Env) (s : State)
    (hok : env.esp_wifi_sta_get_ap_info = ESP_OK → env.esp_wifi_disconnect = ESP_OK) :
    wifi_app_disconnect_sta env s = { s with
      wifi_app_event_group :=
        if env.esp_wifi_sta_get_ap_info = ESP_OK then
          setBits s.wifi_app_event_group WIFI_APP_USER_REQUESTED_STA_DISCONNECT_BIT
        else s.wifi_app_event_group
      calls := s.calls ++
        ([.wifi_app_disconnect_sta, .esp_wifi_sta_get_ap_info] ++
          if env.esp_wifi_sta_get_ap_info = ESP_OK then [.esp_wifi_disconnect] else []) } := by
  unfold wifi_app_disconnect_sta
  by_cases h : env.esp_wifi_sta_get_ap_info = ESP_OK
  · simp [call, abort, xEventGroupSetBits, h, hok h]
  · simp [call, abort, h]

/-- C15, as the code has it: with `WIFI_APP_CONNECTING_USING_SAVED_CREDS_BIT` set (and
`esp_wifi_disconnect`, when called, returning `ESP_OK`) the handler of
`WIFI_APP_MSG_USER_REQUESTED_STA_DISCONNECT` clears that bit, sets the retry counter to the
cap, calls `wifi_app_disconnect_sta` once and `app_nvs_clear_sta_creds` once;
`esp_wifi_disconnect` is issued, and `WIFI_APP_USER_REQUESTED_STA_DISCONNECT_BIT` set, exactly
when the association query returns `ESP_OK`.  With the saved-creds bit clear the handler
leaves the whole state as it is. -/
theorem C15_user_disconnect_in_detail (M : Int) (env : Env) (s : State)
    (ha : s.aborted = false) (hb : s.wifi_app_task_blocked = false)
    (hok : env.esp_wifi_sta_get_ap_info = ESP_OK → env.esp_wifi_disconnect = ESP_OK) :
    (isSet s.wifi_app_event_group WIFI_APP_CONNECTING_USING_SAVED_CREDS_BIT = true →
      isSet (wifi_app_task_handle M env WIFI_APP_MSG_USER_REQUESTED_STA_DISCONNECT
        s).wifi_app_event_group WIFI_APP_CONNECTING_USING_SAVED_CREDS_BIT = false ∧
      (wifi_app_task_handle M env WIFI_APP_MSG_USER_REQUESTED_STA_DISCONNECT
        s).g_retry_number = M ∧
      issued s (wifi_app_task_handle M env WIFI_APP_MSG_USER_REQUESTED_STA_DISCONNECT s)
        = [.wifi_app_disconnect_sta, .esp_wifi_sta_get_ap_info] ++
          (if env.esp_wifi_sta_get_ap_info = ESP_OK then [.esp_wifi_disconnect] else []) ++
          [.app_nvs_clear_sta_creds] ∧
      isSet (wifi_app_task_handle M env WIFI_APP_MSG_USER_REQUESTED_STA_DISCONNECT
        s).wifi_app_event_group WIFI_APP_USER_REQUESTED_STA_DISCONNECT_BIT
        = (isSet s.wifi_app_event_group WIFI_APP_USER_REQUESTED_STA_DISCONNECT_BIT ||
            decide (env.esp_wifi_sta_get_ap_info = ESP_OK))) ∧
    (isSet s.wifi_app_event_group WIFI_APP_CONNECTING_USING_SAVED_CREDS_BIT = false →
      wifi_app_task_handle M env WIFI_APP_MSG_USER_REQUESTED_STA_DISCONNECT s = s) := by
  constructor
  · intro hsaved
    have hstep : wifi_app_task_handle M env WIFI_APP_MSG_USER_REQUESTED_STA_DISCONNECT s
        = { s with
            wifi_app_event_group :=
              if env.esp_wifi_sta_get_ap_info = ESP_OK then
                setBits (clearBits s.wifi_app_event_group
                  WIFI_APP_CONNECTING_USING_SAVED_CREDS_BIT)
                  WIFI_APP_USER_REQUESTED_STA_DISCONNECT_BIT
              else clearBits s.wifi_app_event_group
                WIFI_APP_CONNECTING_USING_SAVED_CREDS_BIT
            g_retry_number := M
            calls := s.calls ++ ([.wifi_app_disconnect_sta, .esp_wifi_sta_get_ap_info] ++
              (if env.esp_wifi_sta_get_ap_info = ESP_OK then [.esp_wifi_disconnect]
                else []) ++ [.app_nvs_clear_sta_creds]) } := by
      simp only [wifi_app_task_handle, case_USER_REQUESTED_STA_DISCONNECT,
        xEventGroupGetBits, ha, hb, hsaved, Bool.or_self, Bool.false_eq_true, if_false,
        if_true, wifi_app_disconnect_sta_ok env _ hok]
      simp [xEventGroupClearBits, call, ha, hb]
    rw [hstep]
    refine ⟨?_, rfl, issued_of_eq rfl, ?_⟩
    · by_cases h : env.esp_wifi_sta_get_ap_info = ESP_OK <;> simp [-Nat.testBit_zero, h]
    · by_cases h : env.esp_wifi_sta_get_ap_info = ESP_OK <;> simp [h]
  · intro hsaved
    simp only [wifi_app_task_handle, case_USER_REQUESTED_STA_DISCONNECT, xEventGroupGetBits,
      ha, hb, hsaved, Bool.or_self, Bool.false_eq_true, if_false]

theorem C15_user_disconnect_in_detail_witness :
    saved_pending.aborted = false ∧ saved_pending.wifi_app_task_blocked = false ∧
    (env_associated.esp_wifi_sta_get_ap_info = ESP_OK →
      env_associated.esp_wifi_disconnect = ESP_OK) ∧
    issued saved_pending
      (wifi_app_task_handle 2 env_associated WIFI_APP_MSG_USER_REQUESTED_STA_DISCONNECT
        saved_pending)
      = [.wifi_app_disconnect_sta, .esp_wifi_sta_get_ap_info, .esp_wifi_disconnect,
          .app_nvs_clear_sta_creds] :=
  ⟨by decide, by decide, by decide,
    ((C15_user_disconnect_in_detail 2 env_associated saved_pending (by decide) (by decide)
      (by decide)).1 (by decide)).2.2.1.trans (by decide)⟩

/-- C15 as stated fails: with `WIFI_APP_CONNECTING_USING_SAVED_CREDS_BIT` set and the
association query answering `ESP_ERR_WIFI_NOT_CONNECT`, the handler issues no
`esp_wifi_disconnect`. -/
theorem C15_counterexample :
    isSet saved_pending.wifi_app_event_group WIFI_APP_CONNECTING_USING_SAVED_CREDS_BIT
      = true ∧
    env_ok.esp_wifi_sta_get_ap_info = ESP_ERR_WIFI_NOT_CONNECT ∧
    issued saved_pending
      (wifi_app_task_handle 2 env_ok WIFI_APP_MSG_USER_REQUESTED_STA_DISCONNECT saved_pending)
      = [.wifi_app_disconnect_sta, .esp_wifi_sta_get_ap_info, .app_nvs_clear_sta_creds] ∧
    Call.esp_wifi_disconnect ∉ issued saved_pending
      (wifi_app_task_handle 2 env_ok WIFI_APP_MSG_USER_REQUESTED_STA_DISCONNECT
        saved_pending) := by
  decide

/-! ## Disconnect after a user request -/

/-- C16: in a live state with `WIFI_APP_CONNECTING_FROM_HTTP_SERVER_BIT` clear and
`WIFI_APP_USER_REQUESTED_STA_DISCONNECT_BIT` set, the handler of
`WIFI_APP_MSG_STA_DISCONNECTED` clears the user bit, writes
`HTTP_WIFI_STATUS_DISCONNECTED` into the connect status, issues no call at all (no reconnect,
no message to the monitor), keeps the retry counter and the saved-creds bit, and leaves the
got-IP bit clear. -/
theorem C16_user_branch_of_disconnect (M : Int) (env : Env) (s : State)
    (ha : s.aborted = false) (hb : s.wifi_app_task_blocked = false)
    (hadmin : isSet s.wifi_app_event_group WIFI_APP_CONNECTING_FROM_HTTP_SERVER_BIT = false)
    (huser : isSet s.wifi_app_event_group WIFI_APP_USER_REQUESTED_STA_DISCONNECT_BIT = true) :
    isSet (wifi_app_task_handle M env WIFI_APP_MSG_STA_DISCONNECTED s).wifi_app_event_group
      WIFI_APP_USER_REQUESTED_STA_DISCONNECT_BIT = false ∧
    (wifi_app_task_handle M env WIFI_APP_MSG_STA_DISCONNECTED s).g_wifi_connect_status
      = HTTP_WIFI_STATUS_DISCONNECTED ∧
    issued s (wifi_app_task_handle M env WIFI_APP_MSG_STA_DISCONNECTED s) = [] ∧
    (wifi_app_task_handle M env WIFI_APP_MSG_STA_DISCONNECTED s).http_server_monitor_queue
      = s.http_server_monitor_queue ∧
    (wifi_app_task_handle M env WIFI_APP_MSG_STA_DISCONNECTED s).g_retry_number
      = s.g_retry_number ∧
    isSet (wifi_app_task_handle M env WIFI_APP_MSG_STA_DISCONNECTED s).wifi_app_event_group
      WIFI_APP_CONNECTING_USING_SAVED_CREDS_BIT
      = isSet s.wifi_app_event_group WIFI_APP_CONNECTING_USING_SAVED_CREDS_BIT ∧
    isSet (wifi_app_task_handle M env WIFI_APP_MSG_STA_DISCONNECTED s).wifi_app_event_group
      WIFI_APP_STA_CONNECTED_GOT_IP_BIT = false := by
  rw [isSet_ADMIN] at hadmin
  rw [isSet_USER] at huser
  have hstep : wifi_app_task_handle M env WIFI_APP_MSG_STA_DISCONNECTED s
      = { s with
          wifi_app_event_group :=
            if s.wifi_app_event_group.testBit 3 then
              clearBits (clearBits s.wifi_app_event_group
                WIFI_APP_USER_REQUESTED_STA_DISCONNECT_BIT) WIFI_APP_STA_CONNECTED_GOT_IP_BIT
            else clearBits s.wifi_app_event_group
              WIFI_APP_USER_REQUESTED_STA_DISCONNECT_BIT
          g_wifi_connect_status := HTTP_WIFI_STATUS_DISCONNECTED } := by
    simp only [wifi_app_task_handle, case_STA_DISCONNECTED, xEventGroupGetBits,
      xEventGroupClearBits, http_server_set_connect_status, ha, hb, Bool.or_self,
      Bool.false_eq_true, if_false, if_true, isSet_ADMIN, isSet_USER, isSet_GOT_IP, hadmin,
      huser]
    by_cases h3 : s.wifi_app_event_group.testBit 3 = true <;> simp [h3]
  rw [hstep]
  refine ⟨?_, rfl, ?_, rfl, rfl, ?_, ?_⟩
  · by_cases h3 : s.wifi_app_event_group.testBit 3 = true <;> simp [h3]
  · simp [issued]
  · by_cases h3 : s.wifi_app_event_group.testBit 3 = true <;>
      simp [-Nat.testBit_zero, h3]
  · by_cases h3 : s.wifi_app_event_group.testBit 3 = true <;> simp [h3]

theorem C16_user_branch_of_disconnect_witness :
    user_disconnect_pending.aborted = false ∧
    user_disconnect_pending.wifi_app_task_blocked = false ∧
    isSet user_disconnect_pending.wifi_app_event_group
      WIFI_APP_CONNECTING_FROM_HTTP_SERVER_BIT = false ∧
    isSet user_disconnect_pending.wifi_app_event_group
      WIFI_APP_USER_REQUESTED_STA_DISCONNECT_BIT = true ∧
    (wifi_app_task_handle 2 env_ok WIFI_APP_MSG_STA_DISCONNECTED
      user_disconnect_pending).g_wifi_connect_status = HTTP_WIFI_STATUS_DISCONNECTED :=
  ⟨by decide, by decide, by decide, by decide,
    (C16_user_branch_of_disconnect 2 env_ok user_disconnect_pending (by decide) (by decide)
      (by decide) (by decide)).2.1⟩

/-! ## A bit that outlives its episode -/

/-- C17, the code at the claim's message sequence: after `LOAD_SAVED_CREDENTIALS` (profile
present), `STA_CONNECTED_GOT_IP` and `CONNECTING_FROM_HTTP_SERVER`, the bit
`WIFI_APP_CONNECTING_USING_SAVED_CREDS_BIT` is still set next to
`WIFI_APP_CONNECTING_FROM_HTTP_SERVER_BIT`; the second `STA_CONNECTED_GOT_IP` therefore issues
no call, and the whole run holds no `app_nvs_save_sta_creds`.  This is so whether the radio
answers the admin request as associated or as not associated.  The same happens when the
admin request arrives while the saved profile is still being retried: the radio connects with
the new profile, the got-IP event follows, and nothing is saved. -/
theorem C17_saved_creds_bit_outlives_episode :
    isSet (wifi_app_task_run 2 ((two_episodes env_associated).take 3)
      init_state).wifi_app_event_group WIFI_APP_CONNECTING_USING_SAVED_CREDS_BIT = true ∧
    isSet (wifi_app_task_run 2 ((two_episodes env_associated).take 3)
      init_state).wifi_app_event_group WIFI_APP_CONNECTING_FROM_HTTP_SERVER_BIT = true ∧
    issued (wifi_app_task_run 2 ((two_episodes env_associated).take 3) init_state)
      (wifi_app_task_run 2 (two_episodes env_associated) init_state) = [] ∧
    Call.app_nvs_save_sta_creds ∉
      (wifi_app_task_run 2 (two_episodes env_associated) init_state).calls ∧
    isSet (wifi_app_task_run 2 ((two_episodes env_ok).take 3)
      init_state).wifi_app_event_group WIFI_APP_CONNECTING_USING_SAVED_CREDS_BIT = true ∧
    issued (wifi_app_task_run 2 ((two_episodes env_ok).take 3) init_state)
      (wifi_app_task_run 2 (two_episodes env_ok) init_state) = [] ∧
    Call.app_nvs_save_sta_creds ∉
      (wifi_app_task_run 2 (two_episodes env_ok) init_state).calls ∧
    (wifi_app_task_run 2 admin_during_retries init_state).calls
      = [.app_nvs_load_sta_creds, .wifi_app_connect_sta, .esp_wifi_sta_get_ap_info,
          .esp_wifi_set_config, .esp_wifi_connect, .esp_wifi_connect,
          .wifi_app_connect_sta, .esp_wifi_sta_get_ap_info, .esp_wifi_set_config,
          .esp_wifi_connect, .wifi_app_send_message WIFI_APP_MSG_START_HTTP_SERVER] := by
  decide

/-! ## Stopping the server -/

/-- C18: `http_server_stop` with at least one station attached issues only the query
`esp_wifi_ap_get_sta_list` (no `httpd_stop`, no `vTaskDelete`) and keeps both handles; with no
station attached and a server handle `h` it issues `httpd_stop h`, deletes the monitor task
when there is one, and leaves both handles `NULL`. -/
theorem C18_stop_only_without_clients (srv : ServerEnv) (s : State) :
    (1 ≤ srv.wifi_sta_list_num →
      (http_server_stop srv s).http_server_handle = s.http_server_handle ∧
      (http_server_stop srv s).task_http_server_monitor = s.task_http_server_monitor ∧
      issued s (http_server_stop srv s) = [.esp_wifi_ap_get_sta_list]) ∧
    (srv.wifi_sta_list_num = 0 → ∀ h, s.http_server_handle = some h →
      (http_server_stop srv s).http_server_handle = none ∧
      (http_server_stop srv s).task_http_server_monitor = none ∧
      issued s (http_server_stop srv s)
        = [.esp_wifi_ap_get_sta_list, .httpd_stop h] ++
          (match s.task_http_server_monitor with
            | some task => [.vTaskDelete task]
            | none => [])) := by
  constructor
  · intro hnum
    have hne : srv.wifi_sta_list_num ≠ 0 := by omega
    have hstep : http_server_stop srv s = call .esp_wifi_ap_get_sta_list s := by
      simp [http_server_stop, hne]
    rw [hstep]
    exact ⟨rfl, rfl, issued_of_eq rfl⟩
  · intro hnum h hh
    cases ht : s.task_http_server_monitor with
    | none =>
      have hstep : http_server_stop srv s
          = { s with http_server_handle := none
                     calls := s.calls ++ [.esp_wifi_ap_get_sta_list, .httpd_stop h] } := by
        simp [http_server_stop, call, hnum, hh, ht]
      rw [hstep]
      exact ⟨rfl, ht, issued_of_eq rfl⟩
    | some task =>
      have hstep : http_server_stop srv s
          = { s with http_server_handle := none
                     task_http_server_monitor := none
                     calls := s.calls ++
                       [.esp_wifi_ap_get_sta_list, .httpd_stop h, .vTaskDelete task] } := by
        simp [http_server_stop, call, hnum, hh, ht]
      rw [hstep]
      exact ⟨rfl, rfl, issued_of_eq rfl⟩

theorem C18_stop_only_without_clients_witness :
    (1 : Int) ≤ srv_one_client.wifi_sta_list_num ∧
    srv_no_client.wifi_sta_list_num = 0 ∧ server_running.http_server_handle = some 7 ∧
    (http_server_stop srv_one_client server_running).http_server_handle = some 7 ∧
    (http_server_stop srv_no_client server_running).http_server_handle = none :=
  ⟨by decide, by decide, by decide,
    ((C18_stop_only_without_clients srv_one_client server_running).1 (by decide)).1,
    ((C18_stop_only_without_clients srv_no_client server_running).2 (by decide) 7
      (by decide)).1⟩

/-! ## The broadcast queue -/

/-- C19, as the code has it: `http_websocket_vprintf` never waits.  With a queue and a text of
positive length, the text is appended behind the queued ones when fewer than 50 are queued,
and is discarded, the queue staying as it is, when 50 are queued; the return value is that of
`vsnprintf` in both cases. -/
theorem C19_producer_drops_on_full_queue (written : Int) (vprintf_buff : String) (s : State)
    (queue : List String) (hq : s.ws_queue = some queue) (hw : 0 < written) :
    (queue.length < WS_QUEUE_LENGTH →
      (http_websocket_vprintf written vprintf_buff s).1.ws_queue
        = some (queue ++ [vprintf_buff])) ∧
    (WS_QUEUE_LENGTH ≤ queue.length →
      (http_websocket_vprintf written vprintf_buff s).1.ws_queue = some queue) ∧
    (http_websocket_vprintf written vprintf_buff s).2 = written := by
  refine ⟨?_, ?_, ?_⟩
  · intro hlen
    simp [http_websocket_vprintf, call, hq, hw, hlen]
  · intro hlen
    have hnot : ¬ queue.length < WS_QUEUE_LENGTH := by omega
    simp [http_websocket_vprintf, call, hq, hw, hnot]
  · simp [http_websocket_vprintf, hw]

theorem C19_producer_drops_on_full_queue_witness :
    (log_for_websocket_setup init_state).ws_queue = some [] ∧ (0 : Int) < 6 ∧
    (http_websocket_vprintf 6 "status" (log_for_websocket_setup init_state)).1.ws_queue
      = some ([] ++ ["status"]) :=
  ⟨by decide, by decide,
    (C19_producer_drops_on_full_queue 6 "status" (log_for_websocket_setup init_state) []
      (by decide) (by decide)).1 (by decide)⟩

/-- C19 as stated fails: with 50 texts queued, the producer returns at once with the return
value of `vsnprintf`, the queue is unchanged and the new text is in it nowhere. -/
theorem C19_counterexample :
    ws_queue_full.ws_queue = some (List.replicate 50 "status") ∧
    (http_websocket_vprintf 4 "lost" ws_queue_full).1.ws_queue
      = some (List.replicate 50 "status") ∧
    (http_websocket_vprintf 4 "lost" ws_queue_full).2 = 4 ∧
    "lost" ∉ List.replicate 50 "status" := by
  decide

/-! ## The event handler -/

theorem http_server_start_frame (srv : ServerEnv) (s : State) :
    (http_server_start srv s).wifi_app_event_group = s.wifi_app_event_group ∧
    (http_server_start srv s).g_retry_number = s.g_retry_number ∧
    (http_server_start srv s).wifi_app_queue = s.wifi_app_queue := by
  unfold http_server_start
  cases s.http_server_handle with
  | some h => exact ⟨rfl, rfl, rfl⟩
  | none =>
    simp only [http_server_configure, call]
    cases srv.xTaskCreatePinnedToCore <;> split_ifs <;> exact ⟨rfl, rfl, rfl⟩

theorem http_server_stop_frame (srv : ServerEnv) (s : State) :
    (http_server_stop srv s).wifi_app_event_group = s.wifi_app_event_group ∧
    (http_server_stop srv s).g_retry_number = s.g_retry_number ∧
    (http_server_stop srv s).wifi_app_queue = s.wifi_app_queue := by
  unfold http_server_stop
  simp only [call]
  split_ifs
  · cases s.http_server_handle <;> cases s.task_http_server_monitor <;>
      exact ⟨rfl, rfl, rfl⟩
  · exact ⟨rfl, rfl, rfl⟩

/-- C20, as the code has it.  With a free slot in the supervisor queue, the handler turns
`WIFI_EVENT_STA_DISCONNECTED` into one `WIFI_APP_MSG_STA_DISCONNECTED` whatever the reason
code (the reason only appears in the `printf`), and `IP_EVENT_STA_GOT_IP` into one
`WIFI_APP_MSG_STA_CONNECTED_GOT_IP`.  The server is started by `WIFI_EVENT_AP_STACONNECTED`
and stopped by `WIFI_EVENT_AP_STADISCONNECTED`; `WIFI_EVENT_AP_START`, `WIFI_EVENT_AP_STOP`
and every other event change nothing.  No event changes a condition bit or the retry counter,
and none queues another supervisor message. -/
theorem C20_event_handler_translates (srv : ServerEnv) (s : State)
    (hroom : s.wifi_app_queue.length < WIFI_APP_QUEUE_LENGTH) :
    (∀ reason, wifi_app_event_handler srv (.WIFI_EVENT_STA_DISCONNECTED reason) s
      = some { s with
          wifi_app_queue := s.wifi_app_queue ++ [WIFI_APP_MSG_STA_DISCONNECTED]
          calls := s.calls ++ [.printf_reason_code reason,
            .wifi_app_send_message WIFI_APP_MSG_STA_DISCONNECTED] }) ∧
    wifi_app_event_handler srv .IP_EVENT_STA_GOT_IP s
      = some { s with
          wifi_app_queue := s.wifi_app_queue ++ [WIFI_APP_MSG_STA_CONNECTED_GOT_IP]
          calls := s.calls ++ [.wifi_app_send_message WIFI_APP_MSG_STA_CONNECTED_GOT_IP] } ∧
    wifi_app_event_handler srv .WIFI_EVENT_AP_STACONNECTED s
      = some (http_server_start srv s) ∧
    wifi_app_event_handler srv .WIFI_EVENT_AP_STADISCONNECTED s
      = some (http_server_stop srv s) ∧
    (∀ event, (∀ reason, event ≠ .WIFI_EVENT_STA_DISCONNECTED reason) →
      event ≠ .IP_EVENT_STA_GOT_IP → event ≠ .WIFI_EVENT_AP_STACONNECTED →
      event ≠ .WIFI_EVENT_AP_STADISCONNECTED →
      wifi_app_event_handler srv event s = some s) ∧
    (∀ event, ∃ t, wifi_app_event_handler srv event s = some t ∧
      t.wifi_app_event_group = s.wifi_app_event_group ∧
      t.g_retry_number = s.g_retry_number ∧
      (t.wifi_app_queue = s.wifi_app_queue ∨
        ((∃ reason, event = .WIFI_EVENT_STA_DISCONNECTED reason) ∧
          t.wifi_app_queue = s.wifi_app_queue ++ [WIFI_APP_MSG_STA_DISCONNECTED]) ∨
        (event = .IP_EVENT_STA_GOT_IP ∧
          t.wifi_app_queue = s.wifi_app_queue ++ [WIFI_APP_MSG_STA_CONNECTED_GOT_IP]))) := by
  have hdisc : ∀ reason, wifi_app_event_handler srv (.WIFI_EVENT_STA_DISCONNECTED reason) s
      = some { s with
          wifi_app_queue := s.wifi_app_queue ++ [WIFI_APP_MSG_STA_DISCONNECTED]
          calls := s.calls ++ [.printf_reason_code reason,
            .wifi_app_send_message WIFI_APP_MSG_STA_DISCONNECTED] } := by
    intro reason
    simp [wifi_app_event_handler, wifi_app_send_message, call, hroom]
  have hip : wifi_app_event_handler srv .IP_EVENT_STA_GOT_IP s
      = some { s with
          wifi_app_queue := s.wifi_app_queue ++ [WIFI_APP_MSG_STA_CONNECTED_GOT_IP]
          calls := s.calls ++
            [.wifi_app_send_message WIFI_APP_MSG_STA_CONNECTED_GOT_IP] } := by
    simp [wifi_app_event_handler, wifi_app_send_message, call, hroom]
  refine ⟨hdisc, hip, rfl, rfl, ?_, ?_⟩
  · intro event h1 h2 h3 h4
    cases event with
    | WIFI_EVENT_STA_DISCONNECTED reason => exact absurd rfl (h1 reason)
    | IP_EVENT_STA_GOT_IP => exact absurd rfl h2
    | WIFI_EVENT_AP_STACONNECTED => exact absurd rfl h3
    | WIFI_EVENT_AP_STADISCONNECTED => exact absurd rfl h4
    | _ => rfl
  · intro event
    cases event with
    | WIFI_EVENT_STA_DISCONNECTED reason =>
      exact ⟨_, hdisc reason, rfl, rfl, Or.inr (Or.inl ⟨⟨reason, rfl⟩, rfl⟩)⟩
    | IP_EVENT_STA_GOT_IP => exact ⟨_, hip, rfl, rfl, Or.inr (Or.inr ⟨rfl, rfl⟩)⟩
    | WIFI_EVENT_AP_STACONNECTED =>
      obtain ⟨f1, f2, f3⟩ := http_server_start_frame srv s
      exact ⟨_, rfl, f1, f2, Or.inl f3⟩
    | WIFI_EVENT_AP_STADISCONNECTED =>
      obtain ⟨f1, f2, f3⟩ := http_server_stop_frame srv s
      exact ⟨_, rfl, f1, f2, Or.inl f3⟩
    | _ => exact ⟨s, rfl, rfl, rfl, Or.inl rfl⟩

theorem C20_event_handler_translates_witness :
    init_state.wifi_app_queue.length < WIFI_APP_QUEUE_LENGTH ∧
    wifi_app_event_handler srv_no_client (.WIFI_EVENT_STA_DISCONNECTED 201) init_state
      = some { init_state with
          wifi_app_queue := init_state.wifi_app_queue ++ [WIFI_APP_MSG_STA_DISCONNECTED]
          calls := init_state.calls ++ [.printf_reason_code 201,
            .wifi_app_send_message WIFI_APP_MSG_STA_DISCONNECTED] } :=
  ⟨by decide, (C20_event_handler_translates srv_no_client init_state (by decide)).1 201⟩

/-- C20 as stated fails: `WIFI_EVENT_AP_START` leaves the initial state as it is, no server is
started, and `WIFI_EVENT_AP_STOP` leaves a running server with no station attached as it is;
it is `WIFI_EVENT_AP_STACONNECTED` that starts the server and
`WIFI_EVENT_AP_STADISCONNECTED` that stops it. -/
theorem C20_counterexample :
    wifi_app_event_handler srv_no_client .WIFI_EVENT_AP_START init_state = some init_state ∧
    init_state.http_server_handle = none ∧
    wifi_app_event_handler srv_no_client .WIFI_EVENT_AP_STOP server_running
      = some server_running ∧
    server_running.http_server_handle = some 7 ∧
    (http_server_start srv_no_client init_state).http_server_handle = some 7 ∧
    (http_server_stop srv_no_client server_running).http_server_handle = none := by
  decide

/-! ## The update status over time -/

/-- What one monitor message can do to `g_fw_update_status`. -/
theorem fw_update_status_after_handle (env : Env) (msgID : Int) (s : State) :
    (http_server_monitor_handle env msgID s).g_fw_update_status = s.g_fw_update_status ∨
    (http_server_monitor_handle env msgID s).g_fw_update_status = OTA_UPDATE_SUCCESSFUL ∨
    (http_server_monitor_handle env msgID s).g_fw_update_status = OTA_UPDATE_FAILED := by
  unfold http_server_monitor_handle
  split_ifs
  · exact Or.inl rfl
  · exact Or.inl rfl
  · exact Or.inl rfl
  · exact Or.inl rfl
  · exact Or.inl rfl
  · exact Or.inr (Or.inl (http_server_fw_update_reset_timer_frame env _).1)
  · exact Or.inr (Or.inr rfl)
  · exact Or.inl rfl
  · exact Or.inl rfl

/-- C21, as the code has it: `g_fw_update_status` starts at `OTA_UPDATE_PENDING` and, once
it differs from `OTA_UPDATE_PENDING`, differs from it after any further monitor messages.  Its
value is the one written by the last update message handled: in a live state
`HTTP_MSG_OTA_UPDATE_SUCCESSFUL` makes it `OTA_UPDATE_SUCCESSFUL` and
`HTTP_MSG_OTA_UPDATE_FAILED` makes it `OTA_UPDATE_FAILED`, whatever it was, and every other
message leaves it as it is. -/
theorem C21_update_status_follows_last_message (env : Env) (msgID : Int) (s : State)
    (inputs : List (Env × Int)) (ha : s.aborted = false) :
    init_state.g_fw_update_status = OTA_UPDATE_PENDING ∧
    (s.g_fw_update_status ≠ OTA_UPDATE_PENDING →
      (http_server_monitor_run inputs s).g_fw_update_status ≠ OTA_UPDATE_PENDING) ∧
    (http_server_monitor_handle env HTTP_MSG_OTA_UPDATE_SUCCESSFUL s).g_fw_update_status
      = OTA_UPDATE_SUCCESSFUL ∧
    (http_server_monitor_handle env HTTP_MSG_OTA_UPDATE_FAILED s).g_fw_update_status
      = OTA_UPDATE_FAILED ∧
    (msgID ≠ HTTP_MSG_OTA_UPDATE_SUCCESSFUL → msgID ≠ HTTP_MSG_OTA_UPDATE_FAILED →
      (http_server_monitor_handle env msgID s).g_fw_update_status
        = s.g_fw_update_status) := by
  refine ⟨rfl, ?_, ?_, ?_, ?_⟩
  · have key : ∀ (t : State), t.g_fw_update_status ≠ OTA_UPDATE_PENDING →
        (http_server_monitor_run inputs t).g_fw_update_status ≠ OTA_UPDATE_PENDING := by
      induction inputs with
      | nil => intro t ht; exact ht
      | cons p rest ih =>
        intro t ht
        apply ih
        rcases fw_update_status_after_handle p.1 p.2 t with h | h | h
        · rw [h]; exact ht
        · rw [h]; decide
        · rw [h]; decide
    exact key s
  · have h := (http_server_fw_update_reset_timer_frame env
      { s with g_fw_update_status := OTA_UPDATE_SUCCESSFUL }).1
    simpa [http_server_monitor_handle, ha, HTTP_MSG_WIFI_CONNECT_INIT,
      HTTP_MSG_WIFI_CONNECT_SUCCESS, HTTP_MSG_WIFI_CONNECT_FAIL,
      HTTP_MSG_WIFI_USER_DISCONNECT, HTTP_MSG_OTA_UPDATE_SUCCESSFUL] using h
  · simp [http_server_monitor_handle, ha, HTTP_MSG_WIFI_CONNECT_INIT,
      HTTP_MSG_WIFI_CONNECT_SUCCESS, HTTP_MSG_WIFI_CONNECT_FAIL,
      HTTP_MSG_WIFI_USER_DISCONNECT, HTTP_MSG_OTA_UPDATE_SUCCESSFUL,
      HTTP_MSG_OTA_UPDATE_FAILED]
  · intro h1 h2
    unfold http_server_monitor_handle
    simp only [http_server_set_connect_status]
    split_ifs <;> rfl

theorem C21_update_status_follows_last_message_witness :
    init_state.aborted = false ∧
    (http_server_monitor_handle env_ok HTTP_MSG_OTA_UPDATE_FAILED
      init_state).g_fw_update_status = OTA_UPDATE_FAILED :=
  ⟨by decide, (C21_update_status_follows_last_message env_ok HTTP_MSG_WIFI_CONNECT_INIT
    init_state [] (by decide)).2.2.2.1⟩

/-- C21 as stated fails: from the initial state `HTTP_MSG_OTA_UPDATE_SUCCESSFUL` followed by
`HTTP_MSG_OTA_UPDATE_FAILED` leaves `OTA_UPDATE_FAILED`, and `HTTP_MSG_OTA_UPDATE_FAILED`
followed by `HTTP_MSG_OTA_UPDATE_SUCCESSFUL` leaves `OTA_UPDATE_SUCCESSFUL`. -/
theorem C21_counterexample :
    (http_server_monitor_run [(env_ok, HTTP_MSG_OTA_UPDATE_SUCCESSFUL)]
      init_state).g_fw_update_status = OTA_UPDATE_SUCCESSFUL ∧
    (http_server_monitor_run [(env_ok, HTTP_MSG_OTA_UPDATE_SUCCESSFUL),
      (env_ok, HTTP_MSG_OTA_UPDATE_FAILED)] init_state).g_fw_update_status
      = OTA_UPDATE_FAILED ∧
    (http_server_monitor_run [(env_ok, HTTP_MSG_OTA_UPDATE_FAILED)]
      init_state).g_fw_update_status = OTA_UPDATE_FAILED ∧
    (http_server_monitor_run [(env_ok, HTTP_MSG_OTA_UPDATE_FAILED),
      (env_ok, HTTP_MSG_OTA_UPDATE_SUCCESSFUL)] init_state).g_fw_update_status
      = OTA_UPDATE_SUCCESSFUL ∧
    OTA_UPDATE_SUCCESSFUL ≠ OTA_UPDATE_FAILED := by
  decide

/-! ## Monotonicity of the retry counter -/

/-- C22: in a state with `g_retry_number ≤ MAX_CONNECTION_RETRIES` (so in every state with
`0 ≤ g_retry_number ≤ MAX_CONNECTION_RETRIES`), a message other than
`WIFI_APP_MSG_CONNECTING_FROM_HTTP_SERVER` never lowers the counter; a message that lowers it
is `WIFI_APP_MSG_CONNECTING_FROM_HTTP_SERVER`, and the counter is then exactly 0. -/
theorem C22_retry_counter_monotonic (M : Int) (env : Env) (msg : wifi_app_message_e)
    (s : State) (hM : s.g_retry_number ≤ M) :
    (msg ≠ WIFI_APP_MSG_CONNECTING_FROM_HTTP_SERVER →
      s.g_retry_number ≤ (wifi_app_task_handle M env msg s).g_retry_number) ∧
    ((wifi_app_task_handle M env msg s).g_retry_number < s.g_retry_number →
      msg = WIFI_APP_MSG_CONNECTING_FROM_HTTP_SERVER ∧
      (wifi_app_task_handle M env msg s).g_retry_number = 0) := by
  rcases retry_after_handle M env msg s with h | ⟨hm, h⟩ | ⟨_, h⟩ | ⟨_, _, h⟩
  · exact ⟨fun _ => by rw [h], fun hlt => by rw [h] at hlt; exact absurd hlt (lt_irrefl _)⟩
  · exact ⟨fun hne => absurd hm hne, fun _ => ⟨hm, h⟩⟩
  · exact ⟨fun _ => by rw [h]; exact hM, fun hlt => by rw [h] at hlt; omega⟩
  · exact ⟨fun _ => by rw [h]; omega, fun hlt => by rw [h] at hlt; omega⟩

theorem C22_retry_counter_monotonic_witness :
    capped_at_two.g_retry_number ≤ 2 ∧
    (wifi_app_task_handle 2 env_ok WIFI_APP_MSG_CONNECTING_FROM_HTTP_SERVER
      capped_at_two).g_retry_number = 0 :=
  ⟨by decide,
    ((C22_retry_counter_monotonic 2 env_ok WIFI_APP_MSG_CONNECTING_FROM_HTTP_SERVER
      capped_at_two (by decide)).2 (by decide)).2⟩

/-! ## Precedence of the disconnect branches -/

/-- State after `WIFI_APP_MSG_STA_DISCONNECTED` in the user branch. -/
theorem disconnected_user (M : Int) (env : Env) (s : State)
    (ha : s.aborted = false) (hb : s.wifi_app_task_blocked = false)
    (hadmin : s.wifi_app_event_group.testBit 1 = false)
    (huser : s.wifi_app_event_group.testBit 2 = true) :
    wifi_app_task_handle M env WIFI_APP_MSG_STA_DISCONNECTED s
      = { s with
          wifi_app_event_group :=
            if s.wifi_app_event_group.testBit 3 then
              clearBits (clearBits s.wifi_app_event_group
                WIFI_APP_USER_REQUESTED_STA_DISCONNECT_BIT) WIFI_APP_STA_CONNECTED_GOT_IP_BIT
            else clearBits s.wifi_app_event_group
              WIFI_APP_USER_REQUESTED_STA_DISCONNECT_BIT
          g_wifi_connect_status := HTTP_WIFI_STATUS_DISCONNECTED } := by
  simp only [wifi_app_task_handle, case_STA_DISCONNECTED, xEventGroupGetBits,
    xEventGroupClearBits, http_server_set_connect_status, ha, hb, Bool.or_self,
    Bool.false_eq_true, if_false, if_true, isSet_ADMIN, isSet_USER, isSet_GOT_IP, hadmin,
    huser]
  by_cases h3 : s.wifi_app_event_group.testBit 3 = true <;> simp [h3]

/-- C23: in a live state with `WIFI_APP_CONNECTING_FROM_HTTP_SERVER_BIT` and
`WIFI_APP_USER_REQUESTED_STA_DISCONNECT_BIT` both set, `WIFI_APP_MSG_STA_DISCONNECTED` takes
the admin branch alone: the only call is the send of `HTTP_MSG_WIFI_CONNECT_FAIL`, the admin
bit is cleared, the user bit stays set, the connect status and the retry counter are as
before.  The next `WIFI_APP_MSG_STA_DISCONNECTED` takes the user branch: no call, user bit
cleared, connect status `HTTP_WIFI_STATUS_DISCONNECTED`, retry counter still as before.  This
holds when the monitor queue exists and has a free slot, so that the send returns. -/
theorem C23_admin_branch_before_user_branch (M : Int) (env env2 : Env) (s : State)
    (ha : s.aborted = false) (hb : s.wifi_app_task_blocked = false)
    (hadmin : isSet s.wifi_app_event_group WIFI_APP_CONNECTING_FROM_HTTP_SERVER_BIT = true)
    (huser : isSet s.wifi_app_event_group WIFI_APP_USER_REQUESTED_STA_DISCONNECT_BIT = true)
    (hq : s.http_server_monitor_queue_handle ≠ none)
    (hroom : s.http_server_monitor_queue.length < HTTP_SERVER_MONITOR_QUEUE_LENGTH) :
    issued s (wifi_app_task_handle M env WIFI_APP_MSG_STA_DISCONNECTED s)
      = [.http_server_monitor_send_message HTTP_MSG_WIFI_CONNECT_FAIL] ∧
    isSet (wifi_app_task_handle M env WIFI_APP_MSG_STA_DISCONNECTED s).wifi_app_event_group
      WIFI_APP_CONNECTING_FROM_HTTP_SERVER_BIT = false ∧
    isSet (wifi_app_task_handle M env WIFI_APP_MSG_STA_DISCONNECTED s).wifi_app_event_group
      WIFI_APP_USER_REQUESTED_STA_DISCONNECT_BIT = true ∧
    (wifi_app_task_handle M env WIFI_APP_MSG_STA_DISCONNECTED s).g_wifi_connect_status
      = s.g_wifi_connect_status ∧
    (wifi_app_task_handle M env WIFI_APP_MSG_STA_DISCONNECTED s).g_retry_number
      = s.g_retry_number ∧
    issued (wifi_app_task_handle M env WIFI_APP_MSG_STA_DISCONNECTED s)
      (wifi_app_task_handle M env2 WIFI_APP_MSG_STA_DISCONNECTED
        (wifi_app_task_handle M env WIFI_APP_MSG_STA_DISCONNECTED s)) = [] ∧
    isSet (wifi_app_task_handle M env2 WIFI_APP_MSG_STA_DISCONNECTED
      (wifi_app_task_handle M env WIFI_APP_MSG_STA_DISCONNECTED s)).wifi_app_event_group
      WIFI_APP_USER_REQUESTED_STA_DISCONNECT_BIT = false ∧
    (wifi_app_task_handle M env2 WIFI_APP_MSG_STA_DISCONNECTED
      (wifi_app_task_handle M env WIFI_APP_MSG_STA_DISCONNECTED s)).g_wifi_connect_status
      = HTTP_WIFI_STATUS_DISCONNECTED ∧
    (wifi_app_task_handle M env2 WIFI_APP_MSG_STA_DISCONNECTED
      (wifi_app_task_handle M env WIFI_APP_MSG_STA_DISCONNECTED s)).g_retry_number
      = s.g_retry_number := by
  rw [isSet_ADMIN] at hadmin
  rw [isSet_USER] at huser
  have hstep : wifi_app_task_handle M env WIFI_APP_MSG_STA_DISCONNECTED s
      = { s with
          wifi_app_event_group :=
            if s.wifi_app_event_group.testBit 3 then
              clearBits (clearBits s.wifi_app_event_group
                WIFI_APP_CONNECTING_FROM_HTTP_SERVER_BIT) WIFI_APP_STA_CONNECTED_GOT_IP_BIT
            else clearBits s.wifi_app_event_group WIFI_APP_CONNECTING_FROM_HTTP_SERVER_BIT
          http_server_monitor_queue :=
            s.http_server_monitor_queue ++ [HTTP_MSG_WIFI_CONNECT_FAIL]
          calls := s.calls ++
            [.http_server_monitor_send_message HTTP_MSG_WIFI_CONNECT_FAIL] } :=
    disconnected_admin_state M env s ha hb hadmin hq hroom
  have h1 : isSet (wifi_app_task_handle M env WIFI_APP_MSG_STA_DISCONNECTED
      s).wifi_app_event_group WIFI_APP_CONNECTING_FROM_HTTP_SERVER_BIT = false := by
    rw [hstep]
    by_cases h3 : s.wifi_app_event_group.testBit 3 = true <;> simp [h3]
  have h2 : isSet (wifi_app_task_handle M env WIFI_APP_MSG_STA_DISCONNECTED
      s).wifi_app_event_group WIFI_APP_USER_REQUESTED_STA_DISCONNECT_BIT = true := by
    rw [hstep]
    by_cases h3 : s.wifi_app_event_group.testBit 3 = true <;> simp [h3, huser]
  have hlive : (wifi_app_task_handle M env WIFI_APP_MSG_STA_DISCONNECTED s).aborted = false ∧
      (wifi_app_task_handle M env WIFI_APP_MSG_STA_DISCONNECTED s).wifi_app_task_blocked
        = false ∧
      (wifi_app_task_handle M env WIFI_APP_MSG_STA_DISCONNECTED s).g_retry_number
        = s.g_retry_number ∧
      (wifi_app_task_handle M env WIFI_APP_MSG_STA_DISCONNECTED s).g_wifi_connect_status
        = s.g_wifi_connect_status ∧
      issued s (wifi_app_task_handle M env WIFI_APP_MSG_STA_DISCONNECTED s)
        = [.http_server_monitor_send_message HTTP_MSG_WIFI_CONNECT_FAIL] := by
    rw [hstep]
    exact ⟨ha, hb, rfl, rfl, issued_of_eq rfl⟩
  obtain ⟨la, lb, lr, ls, li⟩ := hlive
  rw [isSet_ADMIN] at h1
  rw [isSet_USER] at h2
  have hnext := disconnected_user M env2 _ la lb h1 h2
  refine ⟨li, by rw [isSet_ADMIN]; exact h1, by rw [isSet_USER]; exact h2, ls, lr, ?_, ?_, ?_,
    ?_⟩
  · rw [hnext]
    simp [issued]
  · rw [hnext]
    split_ifs <;> simp
  · rw [hnext]
  · rw [hnext]
    exact lr

theorem C23_admin_branch_before_user_branch_witness :
    admin_and_user_attempt_pending.aborted = false ∧
    admin_and_user_attempt_pending.wifi_app_task_blocked = false ∧
    isSet admin_and_user_attempt_pending.wifi_app_event_group
      WIFI_APP_CONNECTING_FROM_HTTP_SERVER_BIT = true ∧
    isSet admin_and_user_attempt_pending.wifi_app_event_group
      WIFI_APP_USER_REQUESTED_STA_DISCONNECT_BIT = true ∧
    admin_and_user_attempt_pending.http_server_monitor_queue_handle ≠ none ∧
    admin_and_user_attempt_pending.http_server_monitor_queue.length
      < HTTP_SERVER_MONITOR_QUEUE_LENGTH ∧
    issued admin_and_user_attempt_pending
      (wifi_app_task_handle 2 env_ok WIFI_APP_MSG_STA_DISCONNECTED
        admin_and_user_attempt_pending)
      = [.http_server_monitor_send_message HTTP_MSG_WIFI_CONNECT_FAIL] :=
  ⟨by decide, by decide, by decide, by decide, by decide, by decide,
    (C23_admin_branch_before_user_branch 2 env_ok env_ok admin_and_user_attempt_pending
      (by decide) (by decide) (by decide) (by decide) (by decide) (by decide)).1⟩

/-- C23 as written fails: in the state reached by the schedule
`user_and_admin_requests_after_stop` the supervisor is live with
`WIFI_APP_CONNECTING_FROM_HTTP_SERVER_BIT` and `WIFI_APP_USER_REQUESTED_STA_DISCONNECT_BIT`
both set, the monitor queue holds three messages and the monitor task is deleted.  The
disconnect takes the admin branch and stops inside the send of line 368: no
`HTTP_MSG_WIFI_CONNECT_FAIL` is sent, and the next disconnect is never handled, so the user
bit stays set and the connect status is never `HTTP_WIFI_STATUS_DISCONNECTED`. -/
theorem C23_counterexample :
    (exec 2 user_and_admin_requests_after_stop init_state).aborted = false ∧
    (exec 2 user_and_admin_requests_after_stop init_state).wifi_app_task_blocked = false ∧
    isSet (exec 2 user_and_admin_requests_after_stop init_state).wifi_app_event_group
      WIFI_APP_CONNECTING_FROM_HTTP_SERVER_BIT = true ∧
    isSet (exec 2 user_and_admin_requests_after_stop init_state).wifi_app_event_group
      WIFI_APP_USER_REQUESTED_STA_DISCONNECT_BIT = true ∧
    (exec 2 user_and_admin_requests_after_stop init_state).http_server_monitor_queue
      = [HTTP_MSG_WIFI_CONNECT_INIT, HTTP_MSG_WIFI_CONNECT_INIT, HTTP_MSG_WIFI_CONNECT_INIT] ∧
    (exec 2 user_and_admin_requests_after_stop init_state).task_http_server_monitor = none ∧
    issued (exec 2 user_and_admin_requests_after_stop init_state)
      (wifi_app_task_handle 2 env_ok WIFI_APP_MSG_STA_DISCONNECTED
        (exec 2 user_and_admin_requests_after_stop init_state)) = [] ∧
    (wifi_app_task_handle 2 env_ok WIFI_APP_MSG_STA_DISCONNECTED
      (exec 2 user_and_admin_requests_after_stop init_state)).wifi_app_task_blocked = true ∧
    isSet (exec 2 [.post WIFI_APP_MSG_STA_DISCONNECTED, .wifi_app_task env_ok,
        .http_server_monitor env_ok, .post WIFI_APP_MSG_STA_DISCONNECTED,
        .wifi_app_task env_ok, .http_server_monitor env_ok]
      (exec 2 user_and_admin_requests_after_stop init_state)).wifi_app_event_group
      WIFI_APP_USER_REQUESTED_STA_DISCONNECT_BIT = true ∧
    (exec 2 [.post WIFI_APP_MSG_STA_DISCONNECTED, .wifi_app_task env_ok,
        .http_server_monitor env_ok, .post WIFI_APP_MSG_STA_DISCONNECTED,
        .wifi_app_task env_ok, .http_server_monitor env_ok]
      (exec 2 user_and_admin_requests_after_stop init_state)).g_wifi_connect_status
      ≠ HTTP_WIFI_STATUS_DISCONNECTED ∧
    (exec 2 [.post WIFI_APP_MSG_STA_DISCONNECTED, .wifi_app_task env_ok,
        .http_server_monitor env_ok, .post WIFI_APP_MSG_STA_DISCONNECTED,
        .wifi_app_task env_ok, .http_server_monitor env_ok]
      (exec 2 user_and_admin_requests_after_stop init_state)).http_server_monitor_queue
      = [HTTP_MSG_WIFI_CONNECT_INIT, HTTP_MSG_WIFI_CONNECT_INIT, HTTP_MSG_WIFI_CONNECT_INIT] := by
  decide

/-! ## No server, no delivery -/

/-- Every push of one call of `http_ws_server_send_messages` carries the text of that call. -/
theorem send_messages_pushes_text (httpd : Httpd) (data : String) (s : State)
    (p : Int × String)
    (hp : p ∈ pushes (issued s (http_ws_server_send_messages httpd data s))) :
    p.2 = data := by
  cases hs : s.http_server_handle with
  | none =>
    have hstep : http_ws_server_send_messages httpd data s = s := by
      simp [http_ws_server_send_messages, hs]
    rw [hstep] at hp
    simp [issued, pushes] at hp
  | some hd =>
    by_cases hl : httpd.httpd_get_client_list = ESP_OK
    · obtain ⟨l, h1, h2⟩ := send_loop_pushes httpd data 0 httpd.client_fds
        (call .httpd_get_client_list s)
      have hstep : http_ws_server_send_messages httpd data s
          = send_loop httpd data 0 httpd.client_fds (call .httpd_get_client_list s) := by
        simp only [http_ws_server_send_messages, hs, hl, if_true]
      have hcalls : (http_ws_server_send_messages httpd data s).calls
          = s.calls ++ ([.httpd_get_client_list] ++ l) := by
        rw [hstep, h1]
        simp [call, List.append_assoc]
      rw [issued_of_eq hcalls, pushes_append, h2] at hp
      simp only [pushes, List.nil_append, List.mem_map] at hp
      obtain ⟨sock, _, hsock⟩ := hp
      rw [← hsock]
    · have hstep : http_ws_server_send_messages httpd data s
          = call .httpd_get_client_list s := by
        simp only [http_ws_server_send_messages, hs, hl, if_false]
      rw [hstep] at hp
      simp [issued, call, pushes] at hp

/-- C24: with `http_server_handle` `NULL`, `http_ws_server_send_messages` returns the state
it got: no enumeration, no push, nothing stored.  The iteration of `ws_print` that receives
the text takes it out of the queue and leaves nothing else behind, and any iteration of
`ws_print`, in any state, pushes only the text at the head of the queue at that time: a
server started later has nothing of the dropped text to deliver. -/
theorem C24_no_server_drops_message (httpd : Httpd) (data : String) (s : State)
    (hnull : s.http_server_handle = none) :
    http_ws_server_send_messages httpd data s = s ∧
    issued s (http_ws_server_send_messages httpd data s) = [] ∧
    (∀ rest, s.ws_queue = some (data :: rest) →
      ws_print_iter httpd s = { s with ws_queue := some rest }) ∧
    (∀ (later : Httpd) (u : State) (p : Int × String),
      p ∈ pushes (issued u (ws_print_iter later u)) →
      ∃ rest, u.ws_queue = some (p.2 :: rest)) := by
  have hstep : http_ws_server_send_messages httpd data s = s := by
    simp [http_ws_server_send_messages, hnull]
  refine ⟨hstep, ?_, ?_, ?_⟩
  · rw [hstep]
    simp [issued]
  · intro rest hq
    simp [ws_print_iter, hq, http_ws_server_send_messages, hnull]
  · intro later u p hp
    cases hq : u.ws_queue with
    | none =>
      have hiter : ws_print_iter later u = u := by simp [ws_print_iter, hq]
      rw [hiter] at hp
      simp [issued, pushes] at hp
    | some queue =>
      cases queue with
      | nil =>
        have hiter : ws_print_iter later u = u := by simp [ws_print_iter, hq]
        rw [hiter] at hp
        simp [issued, pushes] at hp
      | cons buffer rest =>
        have hiter : ws_print_iter later u
            = http_ws_server_send_messages later buffer { u with ws_queue := some rest } := by
          simp [ws_print_iter, hq]
        rw [hiter] at hp
        have htext := send_messages_pushes_text later buffer
          { u with ws_queue := some rest } p hp
        exact ⟨rest, by rw [htext]⟩

theorem C24_no_server_drops_message_witness :
    ws_two_pending.http_server_handle = none ∧
    ws_print_iter httpd_all_pushes_fail ws_two_pending
      = { ws_two_pending with ws_queue := some ["later"] } :=
  ⟨by decide,
    (C24_no_server_drops_message httpd_all_pushes_fail "boot" ws_two_pending
      (by decide)).2.2.1 ["later"] (by decide)⟩

end Esp32Websocket
